import Mathlib

/-!
# tezos-tests: the RPC smoke-test harness of `main.go`

A shallow embedding of `main.go`.  The program reads three globals, performs 21 HTTP GET
probes one after the other, and counts the checks that returned an error.

What lies outside the repository is kept as data:
* the network (`http.Get`) is a function from the requested URL to what came back;
* a value decoded by `encoding/json` into an `interface{}` is a `Value`, and what the decoder
  makes of a response body is a `Body`: the value read and the error met, if any;
* `strconv.ParseFloat` and the `%s` rendering of a non-string value are fields of `Env`.

Two ways of leaving a Go function other than by `return` are modelled by `Abort`:
`log.Fatalln` (the process exits with status 1) and a run-time panic (a failed type assertion
or an index out of range; the Go runtime exits with status 2).
-/

namespace TezosTests

/-! ## Data model -/

/-- A decoded JSON value as `encoding/json` stores it in an `interface{}`: `nil`, `bool`,
`float64`, `string`, `[]interface{}` or `map[string]interface{}`.  A decoded number is a finite
`float64`, hence a rational; the checks only compare numbers with zero.  A Go map is kept as an
association list read by `index`. -/
inductive Value where
  | null
  | bool (b : Bool)
  | num (x : ℚ)
  | str (s : String)
  | arr (xs : List Value)
  | obj (kvs : List (String × Value))

/-- What `json.NewDecoder(resp.Body).Decode` makes of the body: the JSON value it read (`null`
when it read none) and the error it met, if any (`EOF` for an empty body, a syntax error, a
number out of the range of `float64`). -/
structure Body where
  payload : Value
  err : Option String

/-- A body holding the JSON value `v`, read without error. -/
def Body.value (v : Value) : Body := ⟨v, none⟩

/-- A body from which no JSON value could be read: the decoder fails with `err`. -/
def Body.invalid (err : String) : Body := ⟨.null, some err⟩

/-- The two results of `http.Get(url)`: an error (connection refused, DNS failure, timeout), or a
response with its status code and body. -/
inductive HttpResult where
  | transportError (err : String)
  | response (statusCode : Int) (body : Body)

/-- The collaborators outside the repository.
* `httpGet url` is what `http.Get(url)` gives;
* `parseFloat s` is the value returned by `strconv.ParseFloat(s, 32)`, its error discarded as the
  source does; the checks only compare it with zero (an infinite or NaN result is any non-zero
  value here);
* `sprint v` is what the `%s` verb of `fmt` prints for a value that is not a string. -/
structure Env where
  httpGet : String → HttpResult
  parseFloat : String → ℚ
  sprint : Value → String

/-- The three package-level variables `baseURL`, `sysChain`, `authToken`, written once by `main`
before any check runs. -/
structure Config where
  baseURL : String
  sysChain : String
  authToken : String

/-- What the process has done so far, in order: the URLs passed to `http.Get`, the lines handed to
the `log` package, and the text written to standard output and standard error. -/
structure Trace where
  requests : List String
  log : List String
  stdout : List String
  stderr : List String

/-- How a Go function is left without returning: `log.Fatalln` (exit status 1) or a run-time
panic (exit status 2). -/
inductive Abort where
  | fatal
  | panic
  deriving DecidableEq

/-- A Go call that either returns a value or aborts the process, together with the trace. -/
abbrev Run (α : Type) := Trace × Except Abort α

/-- The trace of a process that has done nothing yet. -/
def Trace.start : Trace := ⟨[], [], [], []⟩

/-- Records a call of `http.Get(url)`. -/
def Trace.request (t : Trace) (url : String) : Trace :=
  { t with requests := t.requests ++ [url] }

/-- Records `log.Print(line)` (also the line `log.Fatalln` prints). -/
def Trace.print (t : Trace) (line : String) : Trace :=
  { t with log := t.log ++ [line] }

/-- Records text written by `fmt.Printf`. -/
def Trace.out (t : Trace) (text : String) : Trace :=
  { t with stdout := t.stdout ++ [text] }

/-- Records text written by `fmt.Fprintf(os.Stderr, ...)`. -/
def Trace.err (t : Trace) (text : String) : Trace :=
  { t with stderr := t.stderr ++ [text] }

/-! ## Go primitives used by the checks -/

/-- Map indexing `m[key]`: the value bound to `key`, or the nil interface when there is none. -/
def index (m : List (String × Value)) (key : String) : Value :=
  (m.lookup key).getD Value.null

/-- The type assertion `v.(map[string]interface{})`: panics unless `v` holds a map. -/
def assertMap : Value → Except Abort (List (String × Value))
  | .obj kvs => .ok kvs
  | _ => .error .panic

/-- The type assertion `v.(float64)`: panics unless `v` holds a number. -/
def assertFloat64 : Value → Except Abort ℚ
  | .num x => .ok x
  | _ => .error .panic

/-- The type assertion `v.(string)`: panics unless `v` holds a string. -/
def assertString : Value → Except Abort String
  | .str s => .ok s
  | _ => .error .panic

/-- Slice indexing `data[0]`: panics (index out of range) on an empty slice. -/
def first : List Value → Except Abort Value
  | [] => .error .panic
  | v :: _ => .ok v

/-- The comparison `phase != "running"` of an interface value with a string: two interface values
are equal only when they hold the same type and equal values. -/
def neRunning : Value → Bool
  | .str s => s != "running"
  | _ => true

/-- The conversion `int(x)` of a float: truncation toward zero (for a value in the range of
`int`). -/
def goInt (x : ℚ) : Int := Int.tdiv x.num x.den

/-- The `%s` verb of `fmt`: a string prints as itself, another value as the library renders it. -/
def fmtS (env : Env) : Value → String
  | .str s => s
  | v => env.sprint v

/-- The `%s` verb applied to the `err` of a check: the error's message. -/
def fmtErr (err : Option String) : String := err.getD "%!s(<nil>)"

/-- The name json uses for a value in its error `cannot unmarshal ... into Go value`. -/
def jsonKind : Value → String
  | .null => "null"
  | .bool _ => "bool"
  | .num _ => "number"
  | .str _ => "string"
  | .arr _ => "array"
  | .obj _ => "object"

/-- The error of `Decode` when the JSON value does not fit the Go type of `data`; an error met
earlier is kept. -/
def mismatch (body : Body) (goType : String) : Option String :=
  some (body.err.getD
    ("json: cannot unmarshal " ++ jsonKind body.payload ++ " into Go value of type " ++ goType))

/-- The call `Decode(&data)` with `var data []interface{}`: an array fills the slice, `null`
leaves it nil, any other value leaves it nil and is a type error. -/
def decodeSlice (body : Body) : List Value × Option String :=
  match body.payload with
  | .arr xs => (xs, body.err)
  | .null => ([], body.err)
  | _ => ([], mismatch body "[]interface \x7b\x7d")

/-- The call `Decode(&data)` with `var data map[string]interface{}`. -/
def decodeMap (body : Body) : List (String × Value) × Option String :=
  match body.payload with
  | .obj kvs => (kvs, body.err)
  | .null => ([], body.err)
  | _ => ([], mismatch body "map[string]interface \x7b\x7d")

/-- The call `Decode(&data)` with `var data string`. -/
def decodeString (body : Body) : String × Option String :=
  match body.payload with
  | .str s => (s, body.err)
  | .null => ("", body.err)
  | _ => ("", mismatch body "string")

/-! ## Probe layer (`main.go` lines 606-655) -/

/-- The function `getURL`: the base URL followed by the path, and by `?auth=<token>` when a token
is set. -/
def getURL (cfg : Config) (params : String) : String :=
  let url := cfg.baseURL ++ params
  if cfg.authToken ≠ "" then url ++ "?auth=" ++ cfg.authToken else url

/-- The function `tezosGetSlice`: one GET; a transport error is fatal, otherwise the status code,
the decoded slice and the decoding error are returned. -/
def tezosGetSlice (env : Env) (cfg : Config) (params : String) (t : Trace) :
    Run (Int × List Value × Option String) :=
  let t := t.request (getURL cfg params)
  match env.httpGet (getURL cfg params) with
  | .transportError err => (t.print err, .error .fatal)
  | .response statusCode body => (t, .ok (statusCode, (decodeSlice body).1, (decodeSlice body).2))

/-- The function `tezosGetMap`: as `tezosGetSlice`, decoding into a map. -/
def tezosGetMap (env : Env) (cfg : Config) (params : String) (t : Trace) :
    Run (Int × List (String × Value) × Option String) :=
  let t := t.request (getURL cfg params)
  match env.httpGet (getURL cfg params) with
  | .transportError err => (t.print err, .error .fatal)
  | .response statusCode body => (t, .ok (statusCode, (decodeMap body).1, (decodeMap body).2))

/-- The function `tezosGetString`: as `tezosGetSlice`, decoding into a string. -/
def tezosGetString (env : Env) (cfg : Config) (params : String) (t : Trace) :
    Run (Int × String × Option String) :=
  let t := t.request (getURL cfg params)
  match env.httpGet (getURL cfg params) with
  | .transportError err => (t.print err, .error .fatal)
  | .response statusCode body => (t, .ok (statusCode, (decodeString body).1, (decodeString body).2))

/-! ## The checks (`main.go` lines 62-604)

Every check ends each branch with `log.Print(logMessage)` followed by
`return errors.New(logMessage)` or `return nil`; `failWith` and `passWith` are those two endings. -/

/-- The branch ending `log.Print(logMessage); return errors.New(logMessage)`. -/
def failWith (t : Trace) (logMessage : String) : Run (Option String) :=
  (t.print logMessage, .ok (some logMessage))

/-- The branch ending `log.Print(logMessage); return nil`. -/
def passWith (t : Trace) (logMessage : String) : Run (Option String) :=
  (t.print logMessage, .ok none)

/-- The check `knownHeadsOfChain` (lines 62-84). -/
def knownHeadsOfChain (env : Env) (cfg : Config) (t : Trace) : Run (Option String) :=
  let params := "/chains/" ++ cfg.sysChain ++ "/blocks"
  match tezosGetSlice env cfg params t with
  | (t, .error a) => (t, .error a)
  | (t, .ok (statusCode, data, err)) =>
    if err.isSome then
      failWith t ("FAILED: " ++ params ++ " " ++ fmtErr err)
    else if statusCode ≠ 200 ∨ data.length = 0 then
      failWith t ("FAILED: " ++ params ++ " " ++ toString statusCode ++ " " ++ fmtS env (.arr data))
    else if statusCode = 200 then
      passWith t ("PASSED: " ++ params ++ " " ++ toString statusCode)
    else
      failWith t ("FAILED: " ++ params ++ " unknown failure")

/-- The check `headBlockDetails` (lines 86-108). -/
def headBlockDetails (env : Env) (cfg : Config) (t : Trace) : Run (Option String) :=
  let params := "/chains/" ++ cfg.sysChain ++ "/blocks/head"
  match tezosGetMap env cfg params t with
  | (t, .error a) => (t, .error a)
  | (t, .ok (statusCode, data, err)) =>
    if err.isSome then
      failWith t ("FAILED: " ++ params ++ " " ++ fmtErr err)
    else if statusCode ≠ 200 ∨ data.length = 0 then
      failWith t ("FAILED: " ++ params ++ " " ++ toString statusCode ++ " " ++ fmtS env (.obj data))
    else if statusCode = 200 then
      passWith t ("PASSED: " ++ params ++ " " ++ toString statusCode)
    else
      failWith t ("FAILED: " ++ params ++ " unknown failure")

/-- The check `chainIdentifier` (lines 110-132). -/
def chainIdentifier (env : Env) (cfg : Config) (t : Trace) : Run (Option String) :=
  let params := "/chains/" ++ cfg.sysChain ++ "/chain_id"
  match tezosGetString env cfg params t with
  | (t, .error a) => (t, .error a)
  | (t, .ok (statusCode, data, err)) =>
    if err.isSome then
      failWith t ("FAILED: " ++ params ++ " " ++ fmtErr err)
    else if statusCode ≠ 200 ∨ data.length = 0 then
      failWith t ("FAILED: " ++ params ++ " " ++ toString statusCode ++ " " ++ fmtS env (.str data))
    else if statusCode = 200 then
      passWith t ("PASSED: " ++ params ++ " " ++ toString statusCode)
    else
      failWith t ("FAILED: " ++ params ++ " unknown failure")

/-- The check `currentCheckpoint` (lines 134-161); line 138 reads `block.level` before the first
test. -/
def currentCheckpoint (env : Env) (cfg : Config) (t : Trace) : Run (Option String) :=
  let params := "/chains/" ++ cfg.sysChain ++ "/checkpoint"
  match tezosGetMap env cfg params t with
  | (t, .error a) => (t, .error a)
  | (t, .ok (statusCode, data, err)) =>
    match assertMap (index data "block") with
    | .error a => (t, .error a)
    | .ok block =>
    match assertFloat64 (index block "level") with
    | .error a => (t, .error a)
    | .ok level =>
    if err.isSome then
      failWith t ("FAILED: " ++ params ++ " " ++ fmtErr err)
    else if statusCode ≠ 200 ∨ data.length = 0 then
      failWith t ("FAILED: " ++ params ++ " " ++ toString statusCode ++ " " ++ fmtS env (.obj data))
    else if level = 0 then
      failWith t ("FAILED: " ++ params ++ " " ++ toString statusCode ++
        " expected level greater than 0 got " ++ toString (goInt level))
    else if statusCode = 200 then
      passWith t ("PASSED: " ++ params ++ " " ++ toString statusCode)
    else
      failWith t ("FAILED: " ++ params ++ " unknown failure")

/-- The check `rpcDocs` (lines 163-185). -/
def rpcDocs (env : Env) (cfg : Config) (t : Trace) : Run (Option String) :=
  let params := "/describe?recurse=true"
  match tezosGetMap env cfg params t with
  | (t, .error a) => (t, .error a)
  | (t, .ok (statusCode, data, err)) =>
    if err.isSome then
      failWith t ("FAILED: " ++ params ++ " " ++ fmtErr err)
    else if statusCode ≠ 200 ∨ data.length = 0 then
      failWith t ("FAILED: " ++ params ++ " " ++ toString statusCode ++ " " ++ fmtS env (.obj data))
    else if statusCode = 200 then
      passWith t ("PASSED: " ++ params ++ " " ++ toString statusCode)
    else
      failWith t ("FAILED: " ++ params ++ " unknown failure")

/-- The check `listP2PConnections` (lines 187-209). -/
def listP2PConnections (env : Env) (cfg : Config) (t : Trace) : Run (Option String) :=
  let params := "/network/connections"
  match tezosGetSlice env cfg params t with
  | (t, .error a) => (t, .error a)
  | (t, .ok (statusCode, data, err)) =>
    if err.isSome then
      failWith t ("FAILED: " ++ params ++ " " ++ fmtErr err)
    else if statusCode ≠ 200 ∨ data.length = 0 then
      failWith t ("FAILED: " ++ params ++ " " ++ toString statusCode ++ " " ++ fmtS env (.arr data))
    else if statusCode = 200 then
      passWith t ("PASSED: " ++ params ++ " " ++ toString statusCode)
    else
      failWith t ("FAILED: " ++ params ++ " unknown failure")

/-- The check `listPeers` (lines 211-233). -/
def listPeers (env : Env) (cfg : Config) (t : Trace) : Run (Option String) :=
  let params := "/network/peers"
  match tezosGetSlice env cfg params t with
  | (t, .error a) => (t, .error a)
  | (t, .ok (statusCode, data, err)) =>
    if err.isSome then
      failWith t ("FAILED: " ++ params ++ " " ++ fmtErr err)
    else if statusCode ≠ 200 ∨ data.length = 0 then
      failWith t ("FAILED: " ++ params ++ " " ++ toString statusCode ++ " " ++ fmtS env (.arr data))
    else if statusCode = 200 then
      passWith t ("PASSED: " ++ params ++ " " ++ toString statusCode)
    else
      failWith t ("FAILED: " ++ params ++ " unknown failure")

/-- The check `listPoolConnectionPoints` (lines 235-257). -/
def listPoolConnectionPoints (env : Env) (cfg : Config) (t : Trace) : Run (Option String) :=
  let params := "/network/points"
  match tezosGetSlice env cfg params t with
  | (t, .error a) => (t, .error a)
  | (t, .ok (statusCode, data, err)) =>
    if err.isSome then
      failWith t ("FAILED: " ++ params ++ " " ++ fmtErr err)
    else if statusCode ≠ 200 ∨ data.length = 0 then
      failWith t ("FAILED: " ++ params ++ " " ++ toString statusCode ++ " " ++ fmtS env (.arr data))
    else if statusCode = 200 then
      passWith t ("PASSED: " ++ params ++ " " ++ toString statusCode)
    else
      failWith t ("FAILED: " ++ params ++ " unknown failure")

/-- The check `selfPeerID` (lines 259-281). -/
def selfPeerID (env : Env) (cfg : Config) (t : Trace) : Run (Option String) :=
  let params := "/network/self"
  match tezosGetString env cfg params t with
  | (t, .error a) => (t, .error a)
  | (t, .ok (statusCode, data, err)) =>
    if err.isSome then
      failWith t ("FAILED: " ++ params ++ " " ++ fmtErr err)
    else if statusCode ≠ 200 ∨ data.length = 0 then
      failWith t ("FAILED: " ++ params ++ " " ++ toString statusCode ++ " " ++ fmtS env (.str data))
    else if statusCode = 200 then
      passWith t ("PASSED: " ++ params ++ " " ++ toString statusCode)
    else
      failWith t ("FAILED: " ++ params ++ " unknown failure")

/-- The check `nodeBandwidthStats` (lines 283-311); lines 287-288 read both totals before the
first test. -/
def nodeBandwidthStats (env : Env) (cfg : Config) (t : Trace) : Run (Option String) :=
  let params := "/network/stat"
  match tezosGetMap env cfg params t with
  | (t, .error a) => (t, .error a)
  | (t, .ok (statusCode, data, err)) =>
    match assertString (index data "total_sent") with
    | .error a => (t, .error a)
    | .ok sent =>
    let totalSent := env.parseFloat sent
    match assertString (index data "total_recv") with
    | .error a => (t, .error a)
    | .ok recv =>
    let totalRecv := env.parseFloat recv
    if err.isSome then
      failWith t ("FAILED: " ++ params ++ " " ++ fmtErr err)
    else if statusCode ≠ 200 ∨ data.length = 0 then
      failWith t ("FAILED: " ++ params ++ " " ++ toString statusCode ++ " " ++ fmtS env (.obj data))
    else if totalSent = 0 ∨ totalRecv = 0 then
      failWith t ("FAILED: " ++ params ++ " " ++ toString statusCode ++ " total data sent " ++
        toString (goInt totalSent) ++ " total data received " ++ toString (goInt totalRecv))
    else if statusCode = 200 then
      passWith t ("PASSED: " ++ params ++ " " ++ toString statusCode)
    else
      failWith t ("FAILED: " ++ params ++ " unknown failure")

/-- The check `supportedNetworkVersion` (lines 313-335). -/
def supportedNetworkVersion (env : Env) (cfg : Config) (t : Trace) : Run (Option String) :=
  let params := "/network/version"
  match tezosGetMap env cfg params t with
  | (t, .error a) => (t, .error a)
  | (t, .ok (statusCode, data, err)) =>
    if err.isSome then
      failWith t ("FAILED: " ++ params ++ " " ++ fmtErr err)
    else if statusCode ≠ 200 ∨ data.length = 0 then
      failWith t ("FAILED: " ++ params ++ " " ++ toString statusCode ++ " " ++ fmtS env (.obj data))
    else if statusCode = 200 then
      passWith t ("PASSED: " ++ params ++ " " ++ toString statusCode)
    else
      failWith t ("FAILED: " ++ params ++ " unknown failure")

/-- The check `listProtocols` (lines 337-359). -/
def listProtocols (env : Env) (cfg : Config) (t : Trace) : Run (Option String) :=
  let params := "/protocols"
  match tezosGetSlice env cfg params t with
  | (t, .error a) => (t, .error a)
  | (t, .ok (statusCode, data, err)) =>
    if err.isSome then
      failWith t ("FAILED: " ++ params ++ " " ++ fmtErr err)
    else if statusCode ≠ 200 ∨ data.length = 0 then
      failWith t ("FAILED: " ++ params ++ " " ++ toString statusCode ++ " " ++ fmtS env (.arr data))
    else if statusCode = 200 then
      passWith t ("PASSED: " ++ params ++ " " ++ toString statusCode)
    else
      failWith t ("FAILED: " ++ params ++ " unknown failure")

/-- The check `garbageCollectorStats` (lines 361-383). -/
def garbageCollectorStats (env : Env) (cfg : Config) (t : Trace) : Run (Option String) :=
  let params := "/stats/gc"
  match tezosGetMap env cfg params t with
  | (t, .error a) => (t, .error a)
  | (t, .ok (statusCode, data, err)) =>
    if err.isSome then
      failWith t ("FAILED: " ++ params ++ " " ++ fmtErr err)
    else if statusCode ≠ 200 ∨ data.length = 0 then
      failWith t ("FAILED: " ++ params ++ " " ++ toString statusCode ++ " " ++ fmtS env (.obj data))
    else if statusCode = 200 then
      passWith t ("PASSED: " ++ params ++ " " ++ toString statusCode)
    else
      failWith t ("FAILED: " ++ params ++ " unknown failure")

/-- The check `memoryUsageStats` (lines 385-407). -/
def memoryUsageStats (env : Env) (cfg : Config) (t : Trace) : Run (Option String) :=
  let params := "/stats/memory"
  match tezosGetMap env cfg params t with
  | (t, .error a) => (t, .error a)
  | (t, .ok (statusCode, data, err)) =>
    if err.isSome then
      failWith t ("FAILED: " ++ params ++ " " ++ fmtErr err)
    else if statusCode ≠ 200 ∨ data.length = 0 then
      failWith t ("FAILED: " ++ params ++ " " ++ toString statusCode ++ " " ++ fmtS env (.obj data))
    else if statusCode = 200 then
      passWith t ("PASSED: " ++ params ++ " " ++ toString statusCode)
    else
      failWith t ("FAILED: " ++ params ++ " unknown failure")

/-- The check `blockValidatorWorkerState` (lines 409-436); the phase is read before the first
test. -/
def blockValidatorWorkerState (env : Env) (cfg : Config) (t : Trace) : Run (Option String) :=
  let params := "/workers/block_validator"
  match tezosGetMap env cfg params t with
  | (t, .error a) => (t, .error a)
  | (t, .ok (statusCode, data, err)) =>
    match assertMap (index data "status") with
    | .error a => (t, .error a)
    | .ok status =>
    let phase := index status "phase"
    if err.isSome then
      failWith t ("FAILED: " ++ params ++ " " ++ fmtErr err)
    else if statusCode ≠ 200 ∨ data.length = 0 then
      failWith t ("FAILED: " ++ params ++ " " ++ toString statusCode ++ " " ++ fmtS env (.obj data))
    else if neRunning phase then
      failWith t ("FAILED: " ++ params ++ " phase: \x27" ++ fmtS env phase ++
        "\x27 but expected \x27running\x27")
    else if statusCode = 200 then
      passWith t ("PASSED: " ++ params ++ " " ++ toString statusCode)
    else
      failWith t ("FAILED: " ++ params ++ " unknown failure")

/-- The check `listChainValidators` (lines 438-460). -/
def listChainValidators (env : Env) (cfg : Config) (t : Trace) : Run (Option String) :=
  let params := "/workers/chain_validators"
  match tezosGetSlice env cfg params t with
  | (t, .error a) => (t, .error a)
  | (t, .ok (statusCode, data, err)) =>
    if err.isSome then
      failWith t ("FAILED: " ++ params ++ " " ++ fmtErr err)
    else if statusCode ≠ 200 ∨ data.length = 0 then
      failWith t ("FAILED: " ++ params ++ " " ++ toString statusCode ++ " " ++ fmtS env (.arr data))
    else if statusCode = 200 then
      passWith t ("PASSED: " ++ params ++ " " ++ toString statusCode)
    else
      failWith t ("FAILED: " ++ params ++ " unknown failure")

/-- The check `chainValidatorWorkerState` (lines 462-489); the phase is read before the first
test. -/
def chainValidatorWorkerState (env : Env) (cfg : Config) (t : Trace) : Run (Option String) :=
  let params := "/workers/chain_validators/" ++ cfg.sysChain
  match tezosGetMap env cfg params t with
  | (t, .error a) => (t, .error a)
  | (t, .ok (statusCode, data, err)) =>
    match assertMap (index data "status") with
    | .error a => (t, .error a)
    | .ok status =>
    let phase := index status "phase"
    if err.isSome then
      failWith t ("FAILED: " ++ params ++ " " ++ fmtErr err)
    else if statusCode ≠ 200 ∨ data.length = 0 then
      failWith t ("FAILED: " ++ params ++ " " ++ toString statusCode ++ " " ++ fmtS env (.obj data))
    else if neRunning phase then
      failWith t ("FAILED: " ++ params ++ " phase: \x27" ++ fmtS env phase ++
        "\x27 but expected \x27running\x27")
    else if statusCode = 200 then
      passWith t ("PASSED: " ++ params ++ " " ++ toString statusCode)
    else
      failWith t ("FAILED: " ++ params ++ " unknown failure")

/-- The check `workerDDBState` (lines 491-519); lines 495-496 read both counters before the first
test. -/
def workerDDBState (env : Env) (cfg : Config) (t : Trace) : Run (Option String) :=
  let params := "/workers/chain_validators/" ++ cfg.sysChain ++ "/ddb"
  match tezosGetMap env cfg params t with
  | (t, .error a) => (t, .error a)
  | (t, .ok (statusCode, data, err)) =>
    match assertFloat64 (index data "active_chains") with
    | .error a => (t, .error a)
    | .ok activeChains =>
    match assertFloat64 (index data "active_connections") with
    | .error a => (t, .error a)
    | .ok activeConnections =>
    if err.isSome then
      failWith t ("FAILED: " ++ params ++ " " ++ fmtErr err)
    else if statusCode ≠ 200 ∨ data.length = 0 then
      failWith t ("FAILED: " ++ params ++ " " ++ toString statusCode ++ " " ++ fmtS env (.obj data))
    else if activeChains = 0 ∨ activeConnections = 0 then
      failWith t ("FAILED: " ++ params ++ " active_chains: " ++ toString (goInt activeChains) ++
        " active_connections: " ++ toString (goInt activeConnections))
    else if statusCode = 200 then
      passWith t ("PASSED: " ++ params ++ " " ++ toString statusCode)
    else
      failWith t ("FAILED: " ++ params ++ " unknown failure")

/-- The check `listValidatorWorkers` (lines 521-543). -/
def listValidatorWorkers (env : Env) (cfg : Config) (t : Trace) : Run (Option String) :=
  let params := "/workers/chain_validators/" ++ cfg.sysChain ++ "/peers_validators"
  match tezosGetSlice env cfg params t with
  | (t, .error a) => (t, .error a)
  | (t, .ok (statusCode, data, err)) =>
    if err.isSome then
      failWith t ("FAILED: " ++ params ++ " " ++ fmtErr err)
    else if statusCode ≠ 200 ∨ data.length = 0 then
      failWith t ("FAILED: " ++ params ++ " " ++ toString statusCode ++ " " ++ fmtS env (.arr data))
    else if statusCode = 200 then
      passWith t ("PASSED: " ++ params ++ " " ++ toString statusCode)
    else
      failWith t ("FAILED: " ++ params ++ " unknown failure")

/-- The check `listPrevalidators` (lines 545-574); lines 549-551 read the first element before the
first test. -/
def listPrevalidators (env : Env) (cfg : Config) (t : Trace) : Run (Option String) :=
  let params := "/workers/prevalidators"
  match tezosGetSlice env cfg params t with
  | (t, .error a) => (t, .error a)
  | (t, .ok (statusCode, data, err)) =>
    match first data with
    | .error a => (t, .error a)
    | .ok v =>
    match assertMap v with
    | .error a => (t, .error a)
    | .ok prevalidator =>
    match assertMap (index prevalidator "status") with
    | .error a => (t, .error a)
    | .ok prevalidatorStatus =>
    let prevalidatorPhase := index prevalidatorStatus "phase"
    if err.isSome then
      failWith t ("FAILED: " ++ params ++ " " ++ fmtErr err)
    else if statusCode ≠ 200 ∨ data.length = 0 then
      failWith t ("FAILED: " ++ params ++ " " ++ toString statusCode ++ " " ++ fmtS env (.arr data))
    else if neRunning prevalidatorPhase then
      failWith t ("FAILED: " ++ params ++ " phase: \x27" ++ fmtS env prevalidatorPhase ++
        "\x27 but expected \x27running\x27")
    else if statusCode = 200 then
      passWith t ("PASSED: " ++ params ++ " " ++ toString statusCode)
    else
      failWith t ("FAILED: " ++ params ++ " unknown failure")

/-- The check `stateOfPrevalidator` (lines 576-604); the phase is read before the first test. -/
def stateOfPrevalidator (env : Env) (cfg : Config) (t : Trace) : Run (Option String) :=
  let params := "/workers/prevalidators/" ++ cfg.sysChain
  match tezosGetMap env cfg params t with
  | (t, .error a) => (t, .error a)
  | (t, .ok (statusCode, data, err)) =>
    match assertMap (index data "status") with
    | .error a => (t, .error a)
    | .ok prevalidatorStatus =>
    let prevalidatorPhase := index prevalidatorStatus "phase"
    if err.isSome then
      failWith t ("FAILED: " ++ params ++ " " ++ fmtErr err)
    else if statusCode ≠ 200 ∨ data.length = 0 then
      failWith t ("FAILED: " ++ params ++ " " ++ toString statusCode ++ " " ++ fmtS env (.obj data))
    else if neRunning prevalidatorPhase then
      failWith t ("FAILED: " ++ params ++ " phase: \x27" ++ fmtS env prevalidatorPhase ++
        "\x27 but expected \x27running\x27")
    else if statusCode = 200 then
      passWith t ("PASSED: " ++ params ++ " " ++ toString statusCode)
    else
      failWith t ("FAILED: " ++ params ++ " unknown failure")

/-! ## Runner and entry point (`main.go` lines 17-60 and 657-673) -/

/-- The struct `testRunner`: the two counters of the run. -/
structure testRunner where
  failed : Nat
  succeeded : Nat
  deriving DecidableEq

/-- The method `test`: calls the check and increments one of the two counters.  A check that
aborts the process never comes back to the runner. -/
def testRunner.test (runner : testRunner) (testFunc : Trace → Run (Option String)) (t : Trace) :
    Run testRunner :=
  match testFunc t with
  | (t, .error a) => (t, .error a)
  | (t, .ok (some _)) => (t, .ok { runner with failed := runner.failed + 1 })
  | (t, .ok none) => (t, .ok { runner with succeeded := runner.succeeded + 1 })

/-- The checks handed to `runner.test` at lines 33-53, in source order. -/
def tests (env : Env) (cfg : Config) : List (Trace → Run (Option String)) :=
  [knownHeadsOfChain env cfg, headBlockDetails env cfg, chainIdentifier env cfg,
   currentCheckpoint env cfg, rpcDocs env cfg, listP2PConnections env cfg, listPeers env cfg,
   listPoolConnectionPoints env cfg, selfPeerID env cfg, nodeBandwidthStats env cfg,
   supportedNetworkVersion env cfg, listProtocols env cfg, garbageCollectorStats env cfg,
   memoryUsageStats env cfg, blockValidatorWorkerState env cfg, listChainValidators env cfg,
   chainValidatorWorkerState env cfg, workerDDBState env cfg, listValidatorWorkers env cfg,
   listPrevalidators env cfg, stateOfPrevalidator env cfg]

/-- The statements `runner.test(f)` executed one after the other for the checks of a list. -/
def testRunner.testAll (runner : testRunner) :
    List (Trace → Run (Option String)) → Trace → Run testRunner
  | [], t => (t, .ok runner)
  | f :: fs, t =>
    match runner.test f t with
    | (t, .error a) => (t, .error a)
    | (t, .ok runner) => runner.testAll fs t

/-- Lines 31-53 of `runAllTests`: a fresh runner put through the 21 checks. -/
def runChecks (env : Env) (cfg : Config) (t : Trace) : Run testRunner :=
  testRunner.testAll ⟨0, 0⟩ (tests env cfg) t

/-- The aggregate verdict of lines 55-59: an error when a check failed, `nil` otherwise. -/
def verdict (runner : testRunner) : Option String :=
  if runner.failed > 0 then
    some (toString runner.failed ++ " out of " ++ toString (runner.failed + runner.succeeded) ++
      " tests failed")
  else none

/-- The function `runAllTests` (lines 30-60). -/
def runAllTests (env : Env) (cfg : Config) (t : Trace) : Run (Option String) :=
  match runChecks env cfg t with
  | (t, .error a) => (t, .error a)
  | (t, .ok runner) => (t, .ok (verdict runner))

/-- Lines 663-667 of `main`: the globals as set from the positional arguments `os.Args[1:]`; the
auth token stays empty unless a third positional argument is given. -/
def configOf (args : List String) : Config :=
  ⟨args.getD 0 "", args.getD 1 "", if args.length + 1 > 3 then args.getD 2 "" else ""⟩

/-- The function `main` (lines 657-673), with `os.Args` given as the program name followed by the
positional arguments; the result is the final trace and the exit status of the process.
`log.Fatalln` exits with status 1 and the Go runtime ends a panicking process with status 2. -/
def main (env : Env) (prog : String) (args : List String) (t : Trace) : Trace × Nat :=
  if args.length + 1 < 3 then
    (t.out ("USAGE: " ++ prog ++ " <base-url> <sys-chain> [auth-token]\n"), 1)
  else
    match runAllTests env (configOf args) t with
    | (t, .error .fatal) => (t, 1)
    | (t, .error .panic) => (t, 2)
    | (t, .ok (some err)) => (t.err ("Error: " ++ err ++ "\n"), 2)
    | (t, .ok none) => (t, 0)

/-! ## The endpoint table and the validity of a probe result, as the specification words them

These definitions follow the specification (its endpoint table and its list of endpoint-specific
predicates); they are what the theorems assume about a probe result, and are compared with what
the checks compute. -/

/-- The expected payload shape of an endpoint. -/
inductive Shape where
  | array
  | object
  | string
  deriving DecidableEq

/-- The endpoint-specific predicate of an endpoint, when it has one. -/
inductive Predicate where
  | none
  | checkpoint
  | bandwidth
  | workerState
  | ddb
  | prevalidators
  deriving DecidableEq

/-- A row of the endpoint table: the path (chain identifier already substituted), the expected
shape and the predicate. -/
structure Endpoint where
  path : String
  shape : Shape
  predicate : Predicate

/-- The endpoint table of the specification, in its order, for a chain identifier. -/
def endpoints (chain : String) : List Endpoint :=
  [⟨"/chains/" ++ chain ++ "/blocks", .array, .none⟩,
   ⟨"/chains/" ++ chain ++ "/blocks/head", .object, .none⟩,
   ⟨"/chains/" ++ chain ++ "/chain_id", .string, .none⟩,
   ⟨"/chains/" ++ chain ++ "/checkpoint", .object, .checkpoint⟩,
   ⟨"/describe?recurse=true", .object, .none⟩,
   ⟨"/network/connections", .array, .none⟩,
   ⟨"/network/peers", .array, .none⟩,
   ⟨"/network/points", .array, .none⟩,
   ⟨"/network/self", .string, .none⟩,
   ⟨"/network/stat", .object, .bandwidth⟩,
   ⟨"/network/version", .object, .none⟩,
   ⟨"/protocols", .array, .none⟩,
   ⟨"/stats/gc", .object, .none⟩,
   ⟨"/stats/memory", .object, .none⟩,
   ⟨"/workers/block_validator", .object, .workerState⟩,
   ⟨"/workers/chain_validators", .array, .none⟩,
   ⟨"/workers/chain_validators/" ++ chain, .object, .workerState⟩,
   ⟨"/workers/chain_validators/" ++ chain ++ "/ddb", .object, .ddb⟩,
   ⟨"/workers/chain_validators/" ++ chain ++ "/peers_validators", .array, .none⟩,
   ⟨"/workers/prevalidators", .array, .prevalidators⟩,
   ⟨"/workers/prevalidators/" ++ chain, .object, .workerState⟩]

/-- The field `key` of a JSON object; `null` when the value is not an object or has no such
field. -/
def Value.field : Value → String → Value
  | .obj kvs, key => index kvs key
  | _, _ => .null

/-- The value is a number. -/
def Value.isNum : Value → Bool
  | .num _ => true
  | _ => false

/-- The value is a string. -/
def Value.isStr : Value → Bool
  | .str _ => true
  | _ => false

/-- The value is an object. -/
def Value.isObj : Value → Bool
  | .obj _ => true
  | _ => false

/-- The payload has the expected shape and is not empty. -/
def nonEmptyPayload : Shape → Value → Bool
  | .array, .arr (_ :: _) => true
  | .object, .obj (_ :: _) => true
  | .string, .str s => s != ""
  | _, _ => false

/-- The field an endpoint-specific predicate inspects is present with the type it is read at:
a numeric `block.level`; string `total_sent` and `total_recv`; a `status` object; numeric
`active_chains` and `active_connections`; a first list element that is an object with a `status`
object. -/
def fieldsPresent : Predicate → Value → Bool
  | .none, _ => true
  | .checkpoint, v => ((v.field "block").field "level").isNum
  | .bandwidth, v => (v.field "total_sent").isStr && (v.field "total_recv").isStr
  | .workerState, v => (v.field "status").isObj
  | .ddb, v => (v.field "active_chains").isNum && (v.field "active_connections").isNum
  | .prevalidators, .arr (p :: _) => (p.field "status").isObj
  | .prevalidators, _ => false

/-- The value is the string `running`. -/
def Value.isRunning : Value → Bool
  | .str s => s == "running"
  | _ => false

/-- The value is a number greater than zero. -/
def Value.isPositive : Value → Bool
  | .num x => decide (0 < x)
  | _ => false

/-- The value is a number other than zero. -/
def Value.isNonZero : Value → Bool
  | .num x => decide (x ≠ 0)
  | _ => false

/-- The value is a string that parses to a number other than zero. -/
def Value.parsesNonZero (env : Env) : Value → Bool
  | .str s => decide (env.parseFloat s ≠ 0)
  | _ => false

/-- The endpoint-specific predicates of the specification: `block.level > 0`; `total_sent` and
`total_recv` parse to non-zero numbers; `status.phase` is `running`; `active_chains` and
`active_connections` are non-zero; the first element of the list has `status.phase` `running`. -/
def semanticallyValid (env : Env) : Predicate → Value → Bool
  | .none, _ => true
  | .checkpoint, v => ((v.field "block").field "level").isPositive
  | .bandwidth, v =>
    (v.field "total_sent").parsesNonZero env && (v.field "total_recv").parsesNonZero env
  | .workerState, v => ((v.field "status").field "phase").isRunning
  | .ddb, v => (v.field "active_chains").isNonZero && (v.field "active_connections").isNonZero
  | .prevalidators, .arr (p :: _) => ((p.field "status").field "phase").isRunning
  | .prevalidators, _ => false

/-- The probe completed the HTTP round trip: `http.Get` returned a response. -/
def HttpResult.answered : HttpResult → Bool
  | .response _ _ => true
  | .transportError _ => false

/-- The probe result lets the check of the endpoint run to its `return`: there is a response, and
for an endpoint with a predicate its body carries the inspected fields. -/
def Endpoint.wellShaped (e : Endpoint) : HttpResult → Bool
  | .transportError _ => false
  | .response _ body => fieldsPresent e.predicate body.payload

/-- The probe result is status 200, decoded without error, with a non-empty payload of the
expected shape that satisfies the predicate of the endpoint. -/
def Endpoint.valid (env : Env) (e : Endpoint) : HttpResult → Bool
  | .response statusCode body =>
    decide (statusCode = 200) && body.err.isNone && nonEmptyPayload e.shape body.payload &&
      semanticallyValid env e.predicate body.payload
  | .transportError _ => false

/-- What the network answers for the path of an endpoint under a configuration. -/
def probe (env : Env) (cfg : Config) (params : String) : HttpResult :=
  env.httpGet (getURL cfg params)

/-- Each row of the endpoint table with the check of `main.go` that requests it (both lists are
in source order). -/
def checkTable (env : Env) (cfg : Config) : List (Endpoint × (Trace → Run (Option String))) :=
  (endpoints cfg.sysChain).zip (tests env cfg)

/-! ## The pattern the 21 checks repeat, written once

Every check of `main.go` is the same sequence: one probe, for seven of them the reading of the
inspected fields, then the same chain of `if` / `else if` tests.  `runCheck` is that sequence for a
row of the endpoint table; the theorems below show that each check is `runCheck` at its row. -/

/-- The branches of the `if` / `else if` chain that ends every check, in source order. -/
inductive Branch where
  | decodeError
  | statusOrEmpty
  | predicate
  | passed
  | unknown
  deriving DecidableEq

/-- The chain of tests of a check (lines 67-83 for a check without predicate, lines 140-160 for
one with a predicate): `err != nil`, then `statusCode != 200 || len(data) == 0`, then the
endpoint-specific test when there is one, then `statusCode == 200`, then the final `else`. -/
def branchOf (errPresent : Bool) (statusCode : Int) (empty : Bool) (predicateFails : Bool) :
    Branch :=
  if errPresent then .decodeError
  else if statusCode ≠ 200 ∨ empty then .statusOrEmpty
  else if predicateFails then .predicate
  else if statusCode = 200 then .passed
  else .unknown

/-- The `err` a probe of the given shape returns for a body. -/
def decodedErr : Shape → Body → Option String
  | .array, body => (decodeSlice body).2
  | .object, body => (decodeMap body).2
  | .string, body => (decodeString body).2

/-- The `data` a probe of the given shape returns for a body, as a value. -/
def decodedData : Shape → Body → Value
  | .array, body => .arr (decodeSlice body).1
  | .object, body => .obj (decodeMap body).1
  | .string, body => .str (decodeString body).1

/-- The test `len(data) == 0` on the data of a probe. -/
def isEmptyData : Value → Bool
  | .arr xs => xs.length == 0
  | .obj kvs => kvs.length == 0
  | .str s => s.length == 0
  | _ => true

/-- The elements of a slice. -/
def Value.items : Value → List Value
  | .arr xs => xs
  | _ => []

/-- What a check with an endpoint-specific predicate does with its data: the fields are read
first (a read may panic), and the result is the message of the endpoint-specific branch when the
test of that branch holds. -/
def inspect (env : Env) (params : String) (statusCode : Int) :
    Predicate → Value → Except Abort (Option String)
  | .none, _ => .ok none
  | .checkpoint, data =>
    match assertMap (data.field "block") with
    | .error a => .error a
    | .ok block =>
    match assertFloat64 (index block "level") with
    | .error a => .error a
    | .ok level =>
    .ok (if level = 0 then
      some ("FAILED: " ++ params ++ " " ++ toString statusCode ++
        " expected level greater than 0 got " ++ toString (goInt level))
    else none)
  | .bandwidth, data =>
    match assertString (data.field "total_sent") with
    | .error a => .error a
    | .ok sent =>
    match assertString (data.field "total_recv") with
    | .error a => .error a
    | .ok recv =>
    .ok (if env.parseFloat sent = 0 ∨ env.parseFloat recv = 0 then
      some ("FAILED: " ++ params ++ " " ++ toString statusCode ++ " total data sent " ++
        toString (goInt (env.parseFloat sent)) ++ " total data received " ++
        toString (goInt (env.parseFloat recv)))
    else none)
  | .workerState, data =>
    match assertMap (data.field "status") with
    | .error a => .error a
    | .ok status =>
    .ok (if neRunning (index status "phase") then
      some ("FAILED: " ++ params ++ " phase: \x27" ++ fmtS env (index status "phase") ++
        "\x27 but expected \x27running\x27")
    else none)
  | .ddb, data =>
    match assertFloat64 (data.field "active_chains") with
    | .error a => .error a
    | .ok activeChains =>
    match assertFloat64 (data.field "active_connections") with
    | .error a => .error a
    | .ok activeConnections =>
    .ok (if activeChains = 0 ∨ activeConnections = 0 then
      some ("FAILED: " ++ params ++ " active_chains: " ++ toString (goInt activeChains) ++
        " active_connections: " ++ toString (goInt activeConnections))
    else none)
  | .prevalidators, data =>
    match first data.items with
    | .error a => .error a
    | .ok v =>
    match assertMap v with
    | .error a => .error a
    | .ok prevalidator =>
    match assertMap (index prevalidator "status") with
    | .error a => .error a
    | .ok prevalidatorStatus =>
    .ok (if neRunning (index prevalidatorStatus "phase") then
      some ("FAILED: " ++ params ++ " phase: \x27" ++
        fmtS env (index prevalidatorStatus "phase") ++ "\x27 but expected \x27running\x27")
    else none)

/-- The part of a check that follows the probe, for a response with the given status code and
body: the fields are read, then the chain of tests picks the line to log and the value to
return. -/
def evaluate (env : Env) (e : Endpoint) (statusCode : Int) (body : Body) (t : Trace) :
    Run (Option String) :=
  match inspect env e.path statusCode e.predicate (decodedData e.shape body) with
  | .error a => (t, .error a)
  | .ok failure =>
    match branchOf (decodedErr e.shape body).isSome statusCode
        (isEmptyData (decodedData e.shape body)) failure.isSome with
    | .decodeError => failWith t ("FAILED: " ++ e.path ++ " " ++ fmtErr (decodedErr e.shape body))
    | .statusOrEmpty =>
      failWith t ("FAILED: " ++ e.path ++ " " ++ toString statusCode ++ " " ++
        fmtS env (decodedData e.shape body))
    | .predicate => failWith t (failure.getD "")
    | .passed => passWith t ("PASSED: " ++ e.path ++ " " ++ toString statusCode)
    | .unknown => failWith t ("FAILED: " ++ e.path ++ " unknown failure")

/-- A whole check for a row of the endpoint table: the probe (fatal on a transport error), then
`evaluate`. -/
def runCheck (env : Env) (cfg : Config) (e : Endpoint) (t : Trace) : Run (Option String) :=
  match env.httpGet (getURL cfg e.path) with
  | .transportError err => ((t.request (getURL cfg e.path)).print err, .error .fatal)
  | .response statusCode body => evaluate env e statusCode body (t.request (getURL cfg e.path))

/-! ## Vocabulary of the claims about URLs and reason strings -/

/-- The string `sub` occurs in `s` as a run of consecutive characters. -/
def occursIn (sub s : String) : Bool :=
  s.data.tails.any (fun rest => sub.data.isPrefixOf rest)

/-- The number of `?` characters of a URL. -/
def questionMarks (url : String) : Nat := url.data.count '?'

/-- A list of characters cut at each occurrence of a separator. -/
def splitAtChar (sep : Char) : List Char → List (List Char)
  | [] => [[]]
  | c :: cs =>
    if c = sep then [] :: splitAtChar sep cs
    else
      match splitAtChar sep cs with
      | [] => [[c]]
      | w :: ws => (c :: w) :: ws

/-- The parameters of the query of a URL: what follows its first `?`, cut at each `&`. -/
def queryParams (url : String) : List String :=
  match url.data.dropWhile (fun c => c != '?') with
  | [] => []
  | _ :: query => (splitAtChar '&' query).map String.mk

/-! ## Sample nodes

Concrete configurations and nodes on which the checks are evaluated. -/

/-- A node described endpoint by endpoint: the answer to the URL of a row of the endpoint table is
given by `answers`, any other URL is answered 404 with an empty body. -/
def nodeOf (cfg : Config) (answers : Endpoint → HttpResult) (url : String) : HttpResult :=
  match (endpoints cfg.sysChain).find? (fun e => getURL cfg e.path == url) with
  | some e => answers e
  | none => .response 404 (.invalid "EOF")

/-- A stand-in for `strconv.ParseFloat` that reads a string of decimal digits as its value and
gives zero for any other string. -/
def digitsParseFloat (s : String) : ℚ :=
  if s.data.all Char.isDigit ∧ s.data ≠ [] then
    ((s.data.foldl (fun n c => 10 * n + (c.toNat - 48)) 0 : Nat) : ℚ)
  else 0

/-- A stand-in for the `%s` rendering of a value that is not a string. -/
def plainSprint (v : Value) : String := "<" ++ jsonKind v ++ ">"

/-- The environment made of a network and the two stand-ins. -/
def envOf (httpGet : String → HttpResult) : Env := ⟨httpGet, digitsParseFloat, plainSprint⟩

/-- The configuration of the specification's example: base URL `http://node.example`, chain
`main`, no auth token. -/
def exampleCfg : Config := ⟨"http://node.example", "main", ""⟩

/-- A worker-state payload with the given phase. -/
def workerPayload (phase : String) : Value :=
  .obj [("status", .obj [("phase", .str phase)])]

/-- A checkpoint payload with the given level. -/
def checkpointPayload (level : ℚ) : Value :=
  .obj [("block", .obj [("level", .num level)]), ("history_mode", .str "full")]

/-- A semantically valid payload for each row of the endpoint table. -/
def healthyPayload : Shape → Predicate → Value
  | _, .checkpoint => checkpointPayload 4096
  | _, .bandwidth => .obj [("total_sent", .str "1024"), ("total_recv", .str "2048")]
  | _, .workerState => workerPayload "running"
  | _, .ddb => .obj [("active_chains", .num 1), ("active_connections", .num 8)]
  | _, .prevalidators => .arr [workerPayload "running"]
  | .array, .none => .arr [.str "item"]
  | .object, .none => .obj [("key", .str "value")]
  | .string, .none => .str "NetXdQprcVkpaWU"

/-- A node that answers every endpoint with status 200 and a valid payload. -/
def healthyAnswers (e : Endpoint) : HttpResult :=
  .response 200 (.value (healthyPayload e.shape e.predicate))

/-- The healthy node with the answer of one path replaced. -/
def healthyExcept (path : String) (r : HttpResult) (e : Endpoint) : HttpResult :=
  if e.path = path then r else healthyAnswers e

/-- A node that cannot be reached: every request ends in a transport error. -/
def unreachable (_ : String) : HttpResult := .transportError "connection refused"

/-- The healthy node with the prevalidators list replaced by `xs`, answered with status 200 and
no error. -/
def prevalidatorsNode (xs : List Value) : Env :=
  envOf (nodeOf exampleCfg
    (healthyExcept "/workers/prevalidators" (.response 200 (.value (.arr xs)))))

/-! ## Reading the validity predicates -/

theorem string_eq_empty_of_length {s : String} (h : s.length = 0) : s = "" := by
  cases s with
  | mk d =>
    have hd : d = [] := by simpa [String.length] using h
    subst hd
    rfl

theorem valid_inv {env : Env} {e : Endpoint} {r : HttpResult} (h : e.valid env r = true) :
    ∃ payload, r = .response 200 ⟨payload, none⟩ ∧
      nonEmptyPayload e.shape payload = true ∧
      semanticallyValid env e.predicate payload = true := by
  cases r with
  | transportError err => simp [Endpoint.valid] at h
  | response sc body =>
    obtain ⟨payload, err⟩ := body
    simp only [Endpoint.valid, Bool.and_eq_true, decide_eq_true_eq, Option.isNone_iff_eq_none] at h
    obtain ⟨⟨⟨hsc, herr⟩, hne⟩, hsem⟩ := h
    subst hsc
    subst herr
    exact ⟨payload, rfl, hne, hsem⟩

theorem valid_array_inv {env : Env} {p : String} {q : Predicate} {r : HttpResult}
    (h : Endpoint.valid env ⟨p, .array, q⟩ r = true) :
    ∃ x xs, r = .response 200 ⟨.arr (x :: xs), none⟩ ∧
      semanticallyValid env q (.arr (x :: xs)) = true := by
  obtain ⟨payload, hr, hne, hsem⟩ := valid_inv h
  cases payload with
  | arr xs =>
    cases xs with
    | nil => simp [nonEmptyPayload] at hne
    | cons x xs => exact ⟨x, xs, hr, hsem⟩
  | _ => simp [nonEmptyPayload] at hne

theorem valid_object_inv {env : Env} {p : String} {q : Predicate} {r : HttpResult}
    (h : Endpoint.valid env ⟨p, .object, q⟩ r = true) :
    ∃ kv kvs, r = .response 200 ⟨.obj (kv :: kvs), none⟩ ∧
      semanticallyValid env q (.obj (kv :: kvs)) = true := by
  obtain ⟨payload, hr, hne, hsem⟩ := valid_inv h
  cases payload with
  | obj kvs =>
    cases kvs with
    | nil => simp [nonEmptyPayload] at hne
    | cons kv kvs => exact ⟨kv, kvs, hr, hsem⟩
  | _ => simp [nonEmptyPayload] at hne

theorem valid_string_inv {env : Env} {p : String} {q : Predicate} {r : HttpResult}
    (h : Endpoint.valid env ⟨p, .string, q⟩ r = true) :
    ∃ s, r = .response 200 ⟨.str s, none⟩ ∧ s.length ≠ 0 := by
  obtain ⟨payload, hr, hne, -⟩ := valid_inv h
  cases payload with
  | str s =>
    simp only [nonEmptyPayload, bne_iff_ne] at hne
    exact ⟨s, hr, fun h0 => hne (string_eq_empty_of_length h0)⟩
  | _ => simp [nonEmptyPayload] at hne

theorem answered_inv {r : HttpResult} (h : r.answered = true) :
    ∃ sc body, r = .response sc body := by
  cases r with
  | transportError e => simp [HttpResult.answered] at h
  | response sc body => exact ⟨sc, body, rfl⟩

theorem wellShaped_answered {e : Endpoint} {r : HttpResult} (h : e.wellShaped r = true) :
    r.answered = true := by
  cases r with
  | transportError e => simp [Endpoint.wellShaped] at h
  | response sc body => rfl

/-! ## The fourteen checks without an endpoint-specific predicate -/

theorem knownHeadsOfChain_returns (env : Env) (cfg : Config) (t : Trace)
    (h : (probe env cfg ("/chains/" ++ cfg.sysChain ++ "/blocks")).answered = true) :
    ∃ t' o, knownHeadsOfChain env cfg t = (t', .ok o) := by
  obtain ⟨sc, body, hr⟩ := answered_inv h
  simp only [knownHeadsOfChain, tezosGetSlice, show env.httpGet _ = _ from hr, failWith, passWith]
  split_ifs <;> exact ⟨_, _, rfl⟩

theorem knownHeadsOfChain_passes (env : Env) (cfg : Config) (t : Trace)
    (h : Endpoint.valid env ⟨"/chains/" ++ cfg.sysChain ++ "/blocks", .array, .none⟩
      (probe env cfg ("/chains/" ++ cfg.sysChain ++ "/blocks")) = true) :
    ∃ t', knownHeadsOfChain env cfg t = (t', .ok none) := by
  obtain ⟨x, xs, hr, -⟩ := valid_array_inv h
  simp [knownHeadsOfChain, tezosGetSlice, show env.httpGet _ = _ from hr, decodeSlice, failWith,
    passWith]

theorem headBlockDetails_returns (env : Env) (cfg : Config) (t : Trace)
    (h : (probe env cfg ("/chains/" ++ cfg.sysChain ++ "/blocks/head")).answered = true) :
    ∃ t' o, headBlockDetails env cfg t = (t', .ok o) := by
  obtain ⟨sc, body, hr⟩ := answered_inv h
  simp only [headBlockDetails, tezosGetMap, show env.httpGet _ = _ from hr, failWith, passWith]
  split_ifs <;> exact ⟨_, _, rfl⟩

theorem headBlockDetails_passes (env : Env) (cfg : Config) (t : Trace)
    (h : Endpoint.valid env ⟨"/chains/" ++ cfg.sysChain ++ "/blocks/head", .object, .none⟩
      (probe env cfg ("/chains/" ++ cfg.sysChain ++ "/blocks/head")) = true) :
    ∃ t', headBlockDetails env cfg t = (t', .ok none) := by
  obtain ⟨x, xs, hr, -⟩ := valid_object_inv h
  simp [headBlockDetails, tezosGetMap, show env.httpGet _ = _ from hr, decodeMap, failWith,
    passWith]

theorem chainIdentifier_returns (env : Env) (cfg : Config) (t : Trace)
    (h : (probe env cfg ("/chains/" ++ cfg.sysChain ++ "/chain_id")).answered = true) :
    ∃ t' o, chainIdentifier env cfg t = (t', .ok o) := by
  obtain ⟨sc, body, hr⟩ := answered_inv h
  simp only [chainIdentifier, tezosGetString, show env.httpGet _ = _ from hr, failWith, passWith]
  split_ifs <;> exact ⟨_, _, rfl⟩

theorem chainIdentifier_passes (env : Env) (cfg : Config) (t : Trace)
    (h : Endpoint.valid env ⟨"/chains/" ++ cfg.sysChain ++ "/chain_id", .string, .none⟩
      (probe env cfg ("/chains/" ++ cfg.sysChain ++ "/chain_id")) = true) :
    ∃ t', chainIdentifier env cfg t = (t', .ok none) := by
  obtain ⟨s, hr, hs⟩ := valid_string_inv h
  simp [chainIdentifier, tezosGetString, show env.httpGet _ = _ from hr, decodeString, failWith,
    passWith, hs]

theorem rpcDocs_returns (env : Env) (cfg : Config) (t : Trace)
    (h : (probe env cfg ("/describe?recurse=true")).answered = true) :
    ∃ t' o, rpcDocs env cfg t = (t', .ok o) := by
  obtain ⟨sc, body, hr⟩ := answered_inv h
  simp only [rpcDocs, tezosGetMap, show env.httpGet _ = _ from hr, failWith, passWith]
  split_ifs <;> exact ⟨_, _, rfl⟩

theorem rpcDocs_passes (env : Env) (cfg : Config) (t : Trace)
    (h : Endpoint.valid env ⟨"/describe?recurse=true", .object, .none⟩
      (probe env cfg ("/describe?recurse=true")) = true) :
    ∃ t', rpcDocs env cfg t = (t', .ok none) := by
  obtain ⟨x, xs, hr, -⟩ := valid_object_inv h
  simp [rpcDocs, tezosGetMap, show env.httpGet _ = _ from hr, decodeMap, failWith, passWith]

theorem listP2PConnections_returns (env : Env) (cfg : Config) (t : Trace)
    (h : (probe env cfg ("/network/connections")).answered = true) :
    ∃ t' o, listP2PConnections env cfg t = (t', .ok o) := by
  obtain ⟨sc, body, hr⟩ := answered_inv h
  simp only [listP2PConnections, tezosGetSlice, show env.httpGet _ = _ from hr, failWith, passWith]
  split_ifs <;> exact ⟨_, _, rfl⟩

theorem listP2PConnections_passes (env : Env) (cfg : Config) (t : Trace)
    (h : Endpoint.valid env ⟨"/network/connections", .array, .none⟩
      (probe env cfg ("/network/connections")) = true) :
    ∃ t', listP2PConnections env cfg t = (t', .ok none) := by
  obtain ⟨x, xs, hr, -⟩ := valid_array_inv h
  simp [listP2PConnections, tezosGetSlice, show env.httpGet _ = _ from hr, decodeSlice, failWith,
    passWith]

theorem listPeers_returns (env : Env) (cfg : Config) (t : Trace)
    (h : (probe env cfg ("/network/peers")).answered = true) :
    ∃ t' o, listPeers env cfg t = (t', .ok o) := by
  obtain ⟨sc, body, hr⟩ := answered_inv h
  simp only [listPeers, tezosGetSlice, show env.httpGet _ = _ from hr, failWith, passWith]
  split_ifs <;> exact ⟨_, _, rfl⟩

theorem listPeers_passes (env : Env) (cfg : Config) (t : Trace)
    (h : Endpoint.valid env ⟨"/network/peers", .array, .none⟩
      (probe env cfg ("/network/peers")) = true) :
    ∃ t', listPeers env cfg t = (t', .ok none) := by
  obtain ⟨x, xs, hr, -⟩ := valid_array_inv h
  simp [listPeers, tezosGetSlice, show env.httpGet _ = _ from hr, decodeSlice, failWith, passWith]

theorem listPoolConnectionPoints_returns (env : Env) (cfg : Config) (t : Trace)
    (h : (probe env cfg ("/network/points")).answered = true) :
    ∃ t' o, listPoolConnectionPoints env cfg t = (t', .ok o) := by
  obtain ⟨sc, body, hr⟩ := answered_inv h
  simp only [listPoolConnectionPoints, tezosGetSlice, show env.httpGet _ = _ from hr, failWith,
    passWith]
  split_ifs <;> exact ⟨_, _, rfl⟩

theorem listPoolConnectionPoints_passes (env : Env) (cfg : Config) (t : Trace)
    (h : Endpoint.valid env ⟨"/network/points", .array, .none⟩
      (probe env cfg ("/network/points")) = true) :
    ∃ t', listPoolConnectionPoints env cfg t = (t', .ok none) := by
  obtain ⟨x, xs, hr, -⟩ := valid_array_inv h
  simp [listPoolConnectionPoints, tezosGetSlice, show env.httpGet _ = _ from hr, decodeSlice,
    failWith, passWith]

theorem selfPeerID_returns (env : Env) (cfg : Config) (t : Trace)
    (h : (probe env cfg ("/network/self")).answered = true) :
    ∃ t' o, selfPeerID env cfg t = (t', .ok o) := by
  obtain ⟨sc, body, hr⟩ := answered_inv h
  simp only [selfPeerID, tezosGetString, show env.httpGet _ = _ from hr, failWith, passWith]
  split_ifs <;> exact ⟨_, _, rfl⟩

theorem selfPeerID_passes (env : Env) (cfg : Config) (t : Trace)
    (h : Endpoint.valid env ⟨"/network/self", .string, .none⟩
      (probe env cfg ("/network/self")) = true) :
    ∃ t', selfPeerID env cfg t = (t', .ok none) := by
  obtain ⟨s, hr, hs⟩ := valid_string_inv h
  simp [selfPeerID, tezosGetString, show env.httpGet _ = _ from hr, decodeString, failWith,
    passWith, hs]

theorem supportedNetworkVersion_returns (env : Env) (cfg : Config) (t : Trace)
    (h : (probe env cfg ("/network/version")).answered = true) :
    ∃ t' o, supportedNetworkVersion env cfg t = (t', .ok o) := by
  obtain ⟨sc, body, hr⟩ := answered_inv h
  simp only [supportedNetworkVersion, tezosGetMap, show env.httpGet _ = _ from hr, failWith,
    passWith]
  split_ifs <;> exact ⟨_, _, rfl⟩

theorem supportedNetworkVersion_passes (env : Env) (cfg : Config) (t : Trace)
    (h : Endpoint.valid env ⟨"/network/version", .object, .none⟩
      (probe env cfg ("/network/version")) = true) :
    ∃ t', supportedNetworkVersion env cfg t = (t', .ok none) := by
  obtain ⟨x, xs, hr, -⟩ := valid_object_inv h
  simp [supportedNetworkVersion, tezosGetMap, show env.httpGet _ = _ from hr, decodeMap,
    failWith, passWith]

theorem listProtocols_returns (env : Env) (cfg : Config) (t : Trace)
    (h : (probe env cfg ("/protocols")).answered = true) :
    ∃ t' o, listProtocols env cfg t = (t', .ok o) := by
  obtain ⟨sc, body, hr⟩ := answered_inv h
  simp only [listProtocols, tezosGetSlice, show env.httpGet _ = _ from hr, failWith, passWith]
  split_ifs <;> exact ⟨_, _, rfl⟩

theorem listProtocols_passes (env : Env) (cfg : Config) (t : Trace)
    (h : Endpoint.valid env ⟨"/protocols", .array, .none⟩
      (probe env cfg ("/protocols")) = true) :
    ∃ t', listProtocols env cfg t = (t', .ok none) := by
  obtain ⟨x, xs, hr, -⟩ := valid_array_inv h
  simp [listProtocols, tezosGetSlice, show env.httpGet _ = _ from hr, decodeSlice, failWith,
    passWith]

theorem garbageCollectorStats_returns (env : Env) (cfg : Config) (t : Trace)
    (h : (probe env cfg ("/stats/gc")).answered = true) :
    ∃ t' o, garbageCollectorStats env cfg t = (t', .ok o) := by
  obtain ⟨sc, body, hr⟩ := answered_inv h
  simp only [garbageCollectorStats, tezosGetMap, show env.httpGet _ = _ from hr, failWith, passWith]
  split_ifs <;> exact ⟨_, _, rfl⟩

theorem garbageCollectorStats_passes (env : Env) (cfg : Config) (t : Trace)
    (h : Endpoint.valid env ⟨"/stats/gc", .object, .none⟩
      (probe env cfg ("/stats/gc")) = true) :
    ∃ t', garbageCollectorStats env cfg t = (t', .ok none) := by
  obtain ⟨x, xs, hr, -⟩ := valid_object_inv h
  simp [garbageCollectorStats, tezosGetMap, show env.httpGet _ = _ from hr, decodeMap, failWith,
    passWith]

theorem memoryUsageStats_returns (env : Env) (cfg : Config) (t : Trace)
    (h : (probe env cfg ("/stats/memory")).answered = true) :
    ∃ t' o, memoryUsageStats env cfg t = (t', .ok o) := by
  obtain ⟨sc, body, hr⟩ := answered_inv h
  simp only [memoryUsageStats, tezosGetMap, show env.httpGet _ = _ from hr, failWith, passWith]
  split_ifs <;> exact ⟨_, _, rfl⟩

theorem memoryUsageStats_passes (env : Env) (cfg : Config) (t : Trace)
    (h : Endpoint.valid env ⟨"/stats/memory", .object, .none⟩
      (probe env cfg ("/stats/memory")) = true) :
    ∃ t', memoryUsageStats env cfg t = (t', .ok none) := by
  obtain ⟨x, xs, hr, -⟩ := valid_object_inv h
  simp [memoryUsageStats, tezosGetMap, show env.httpGet _ = _ from hr, decodeMap, failWith,
    passWith]

theorem listChainValidators_returns (env : Env) (cfg : Config) (t : Trace)
    (h : (probe env cfg ("/workers/chain_validators")).answered = true) :
    ∃ t' o, listChainValidators env cfg t = (t', .ok o) := by
  obtain ⟨sc, body, hr⟩ := answered_inv h
  simp only [listChainValidators, tezosGetSlice, show env.httpGet _ = _ from hr, failWith, passWith]
  split_ifs <;> exact ⟨_, _, rfl⟩

theorem listChainValidators_passes (env : Env) (cfg : Config) (t : Trace)
    (h : Endpoint.valid env ⟨"/workers/chain_validators", .array, .none⟩
      (probe env cfg ("/workers/chain_validators")) = true) :
    ∃ t', listChainValidators env cfg t = (t', .ok none) := by
  obtain ⟨x, xs, hr, -⟩ := valid_array_inv h
  simp [listChainValidators, tezosGetSlice, show env.httpGet _ = _ from hr, decodeSlice,
    failWith, passWith]

theorem listValidatorWorkers_returns (env : Env) (cfg : Config) (t : Trace)
    (h : (probe env cfg ("/workers/chain_validators/" ++ cfg.sysChain ++ "/peers_validators")).answered = true) :
    ∃ t' o, listValidatorWorkers env cfg t = (t', .ok o) := by
  obtain ⟨sc, body, hr⟩ := answered_inv h
  simp only [listValidatorWorkers, tezosGetSlice, show env.httpGet _ = _ from hr, failWith,
    passWith]
  split_ifs <;> exact ⟨_, _, rfl⟩

theorem listValidatorWorkers_passes (env : Env) (cfg : Config) (t : Trace)
    (h : Endpoint.valid env ⟨"/workers/chain_validators/" ++ cfg.sysChain ++ "/peers_validators",
        .array, .none⟩
      (probe env cfg ("/workers/chain_validators/" ++ cfg.sysChain ++ "/peers_validators")) =
          true) :
    ∃ t', listValidatorWorkers env cfg t = (t', .ok none) := by
  obtain ⟨x, xs, hr, -⟩ := valid_array_inv h
  simp [listValidatorWorkers, tezosGetSlice, show env.httpGet _ = _ from hr, decodeSlice,
    failWith, passWith]

theorem isRunning_field_isObj {v : Value} (h : ((v.field "status").field "phase").isRunning =
    true) :
    (v.field "status").isObj = true := by
  cases hs : v.field "status" with
  | obj status => rfl
  | _ =>
    rw [hs] at h
    simp [Value.field, Value.isRunning] at h

theorem semanticallyValid_fieldsPresent {env : Env} {q : Predicate} {v : Value}
    (h : semanticallyValid env q v = true) : fieldsPresent q v = true := by
  cases q with
  | none => rfl
  | checkpoint =>
    simp only [semanticallyValid] at h
    simp only [fieldsPresent]
    cases hl : (v.field "block").field "level" with
    | num x => rfl
    | _ => simp [hl, Value.isPositive] at h
  | bandwidth =>
    simp only [semanticallyValid, Bool.and_eq_true] at h
    simp only [fieldsPresent, Bool.and_eq_true]
    constructor
    · cases hs : v.field "total_sent" with
      | str s => rfl
      | _ => simp [hs, Value.parsesNonZero] at h
    · cases hs : v.field "total_recv" with
      | str s => rfl
      | _ => simp [hs, Value.parsesNonZero] at h
  | workerState =>
    simp only [semanticallyValid] at h
    exact isRunning_field_isObj h
  | ddb =>
    simp only [semanticallyValid, Bool.and_eq_true] at h
    simp only [fieldsPresent, Bool.and_eq_true]
    constructor
    · cases hs : v.field "active_chains" with
      | num s => rfl
      | _ => simp [hs, Value.isNonZero] at h
    · cases hs : v.field "active_connections" with
      | num s => rfl
      | _ => simp [hs, Value.isNonZero] at h
  | prevalidators =>
    cases v with
    | arr xs =>
      cases xs with
      | nil => simp [semanticallyValid] at h
      | cons p rest =>
        simp only [semanticallyValid] at h
        exact isRunning_field_isObj h
    | _ => simp [semanticallyValid] at h

/-! ## The seven checks with an endpoint-specific predicate -/

theorem index_decodeMap (body : Body) (key : String) :
    index (decodeMap body).1 key = body.payload.field key := by
  obtain ⟨payload, err⟩ := body
  cases payload <;> simp [decodeMap, Value.field, index]

theorem neRunning_eq (v : Value) : neRunning v = !v.isRunning := by
  cases v <;> simp [neRunning, Value.isRunning, bne]

theorem checkpoint_fields {v : Value} (h : fieldsPresent .checkpoint v = true) :
    ∃ data block level, v = .obj data ∧ index data "block" = .obj block ∧
      index block "level" = .num level := by
  simp only [fieldsPresent] at h
  cases v with
  | obj data =>
    cases hb : index data "block" with
    | obj block =>
      cases hl : index block "level" with
      | num x => exact ⟨data, block, x, rfl, hb, hl⟩
      | _ => simp [Value.field, hb, hl, Value.isNum] at h
    | _ => simp [Value.field, hb, Value.isNum] at h
  | _ => simp [Value.field, Value.isNum] at h

theorem bandwidth_fields {v : Value} (h : fieldsPresent .bandwidth v = true) :
    ∃ data sent recv, v = .obj data ∧ index data "total_sent" = .str sent ∧
      index data "total_recv" = .str recv := by
  simp only [fieldsPresent, Bool.and_eq_true] at h
  cases v with
  | obj data =>
    cases hs : index data "total_sent" with
    | str sent =>
      cases hv : index data "total_recv" with
      | str recv => exact ⟨data, sent, recv, rfl, hs, hv⟩
      | _ => simp [Value.field, hv, Value.isStr] at h
    | _ => simp [Value.field, hs, Value.isStr] at h
  | _ => simp [Value.field, Value.isStr] at h

theorem ddb_fields {v : Value} (h : fieldsPresent .ddb v = true) :
    ∃ data chains conns, v = .obj data ∧ index data "active_chains" = .num chains ∧
      index data "active_connections" = .num conns := by
  simp only [fieldsPresent, Bool.and_eq_true] at h
  cases v with
  | obj data =>
    cases hs : index data "active_chains" with
    | num chains =>
      cases hv : index data "active_connections" with
      | num conns => exact ⟨data, chains, conns, rfl, hs, hv⟩
      | _ => simp [Value.field, hv, Value.isNum] at h
    | _ => simp [Value.field, hs, Value.isNum] at h
  | _ => simp [Value.field, Value.isNum] at h

theorem workerState_fields {v : Value} (h : fieldsPresent .workerState v = true) :
    ∃ data status, v = .obj data ∧ index data "status" = .obj status := by
  simp only [fieldsPresent] at h
  cases v with
  | obj data =>
    cases hs : index data "status" with
    | obj status => exact ⟨data, status, rfl, hs⟩
    | _ => simp [Value.field, hs, Value.isObj] at h
  | _ => simp [Value.field, Value.isObj] at h

theorem prevalidators_fields {v : Value} (h : fieldsPresent .prevalidators v = true) :
    ∃ prevalidator rest status, v = .arr (.obj prevalidator :: rest) ∧
      index prevalidator "status" = .obj status := by
  cases v with
  | arr xs =>
    cases xs with
    | nil => simp [fieldsPresent] at h
    | cons p rest =>
      simp only [fieldsPresent] at h
      cases p with
      | obj prevalidator =>
        cases hs : index prevalidator "status" with
        | obj status => exact ⟨prevalidator, rest, status, rfl, hs⟩
        | _ => simp [Value.field, hs, Value.isObj] at h
      | _ => simp [Value.field, Value.isObj] at h
  | _ => simp [fieldsPresent] at h

theorem currentCheckpoint_panics (env : Env) (cfg : Config) (t : Trace) (sc : Int) (body : Body)
    (hr : probe env cfg ("/chains/" ++ cfg.sysChain ++ "/checkpoint") = .response sc body)
    (h : fieldsPresent .checkpoint body.payload = false) :
    currentCheckpoint env cfg t =
      (t.request (getURL cfg ("/chains/" ++ cfg.sysChain ++ "/checkpoint")), .error .panic) := by
  simp only [currentCheckpoint, tezosGetMap, show env.httpGet _ = _ from hr, index_decodeMap]
  simp only [fieldsPresent] at h
  cases hb : body.payload.field "block" with
  | obj block =>
    rw [hb] at h
    simp only [assertMap]
    cases hl : index block "level" with
    | num x => simp [Value.field, hl, Value.isNum] at h
    | _ => simp [assertFloat64]
  | _ => simp [assertMap]

theorem currentCheckpoint_eval (env : Env) (cfg : Config) (t : Trace) (sc : Int)
    (data block : List (String × Value)) (level : ℚ) (err : Option String)
    (hr : probe env cfg ("/chains/" ++ cfg.sysChain ++ "/checkpoint") =
      .response sc ⟨.obj data, err⟩)
    (hb : index data "block" = .obj block) (hl : index block "level" = .num level) :
    ∃ t' o, currentCheckpoint env cfg t = (t', .ok o) ∧
      (o = none ↔ err = none ∧ sc = 200 ∧ level ≠ 0) := by
  have hne : data ≠ [] := by
    rintro rfl
    simp [index] at hb
  cases err with
  | some e =>
    simp only [currentCheckpoint, tezosGetMap, show env.httpGet _ = _ from hr, decodeMap, hb, hl,
    assertMap, assertFloat64, failWith, passWith, Option.isSome_some, if_true]
    exact ⟨_, _, rfl, by simp⟩
  | none =>
    simp only [currentCheckpoint, tezosGetMap, show env.httpGet _ = _ from hr, decodeMap, hb, hl,
    assertMap, assertFloat64, failWith, passWith, Option.isSome_none, Bool.false_eq_true, if_false]
    split_ifs with h2 h3 h4 <;> refine ⟨_, _, rfl, ?_⟩ <;> simp_all

theorem nodeBandwidthStats_panics (env : Env) (cfg : Config) (t : Trace) (sc : Int) (body : Body)
    (hr : probe env cfg "/network/stat" = .response sc body)
    (h : fieldsPresent .bandwidth body.payload = false) :
    nodeBandwidthStats env cfg t = (t.request (getURL cfg "/network/stat"), .error .panic) := by
  simp only [nodeBandwidthStats, tezosGetMap, show env.httpGet _ = _ from hr, index_decodeMap]
  simp only [fieldsPresent] at h
  cases hs : body.payload.field "total_sent" with
  | str sent =>
    cases hv : body.payload.field "total_recv" with
    | str recv => simp [hs, hv, Value.isStr] at h
    | _ => simp [assertString]
  | _ => simp [assertString]

theorem nodeBandwidthStats_eval (env : Env) (cfg : Config) (t : Trace) (sc : Int)
    (data : List (String × Value)) (sent recv : String) (err : Option String)
    (hr : probe env cfg "/network/stat" = .response sc ⟨.obj data, err⟩)
    (hs : index data "total_sent" = .str sent) (hv : index data "total_recv" = .str recv) :
    ∃ t' o, nodeBandwidthStats env cfg t = (t', .ok o) ∧
      (o = none ↔ err = none ∧ sc = 200 ∧ env.parseFloat sent ≠ 0 ∧ env.parseFloat recv ≠ 0) := by
  have hne : data ≠ [] := by
    rintro rfl
    simp [index] at hs
  cases err with
  | some e =>
    simp only [nodeBandwidthStats, tezosGetMap, show env.httpGet _ = _ from hr, decodeMap, hs, hv,
    assertString, failWith, passWith, Option.isSome_some, if_true]
    exact ⟨_, _, rfl, by simp⟩
  | none =>
    simp only [nodeBandwidthStats, tezosGetMap, show env.httpGet _ = _ from hr, decodeMap, hs, hv,
    assertString, failWith, passWith, Option.isSome_none, Bool.false_eq_true, if_false]
    split_ifs with h2 h3 h4 <;> refine ⟨_, _, rfl, ?_⟩ <;> simp_all
    tauto

theorem workerDDBState_panics (env : Env) (cfg : Config) (t : Trace) (sc : Int) (body : Body)
    (hr : probe env cfg ("/workers/chain_validators/" ++ cfg.sysChain ++ "/ddb") =
      .response sc body)
    (h : fieldsPresent .ddb body.payload = false) :
    workerDDBState env cfg t =
      (t.request (getURL cfg ("/workers/chain_validators/" ++ cfg.sysChain ++ "/ddb")),
        .error .panic) := by
  simp only [workerDDBState, tezosGetMap, show env.httpGet _ = _ from hr, index_decodeMap]
  simp only [fieldsPresent] at h
  cases hs : body.payload.field "active_chains" with
  | num chains =>
    cases hv : body.payload.field "active_connections" with
    | num conns => simp [hs, hv, Value.isNum] at h
    | _ => simp [assertFloat64]
  | _ => simp [assertFloat64]

theorem workerDDBState_eval (env : Env) (cfg : Config) (t : Trace) (sc : Int)
    (data : List (String × Value)) (chains conns : ℚ) (err : Option String)
    (hr : probe env cfg ("/workers/chain_validators/" ++ cfg.sysChain ++ "/ddb") =
      .response sc ⟨.obj data, err⟩)
    (hs : index data "active_chains" = .num chains)
    (hv : index data "active_connections" = .num conns) :
    ∃ t' o, workerDDBState env cfg t = (t', .ok o) ∧
      (o = none ↔ err = none ∧ sc = 200 ∧ chains ≠ 0 ∧ conns ≠ 0) := by
  have hne : data ≠ [] := by
    rintro rfl
    simp [index] at hs
  cases err with
  | some e =>
    simp only [workerDDBState, tezosGetMap, show env.httpGet _ = _ from hr, decodeMap, hs, hv,
    assertFloat64, failWith, passWith, Option.isSome_some, if_true]
    exact ⟨_, _, rfl, by simp⟩
  | none =>
    simp only [workerDDBState, tezosGetMap, show env.httpGet _ = _ from hr, decodeMap, hs, hv,
    assertFloat64, failWith, passWith, Option.isSome_none, Bool.false_eq_true, if_false]
    split_ifs with h2 h3 h4 <;> refine ⟨_, _, rfl, ?_⟩ <;> simp_all
    tauto

theorem listPrevalidators_panics (env : Env) (cfg : Config) (t : Trace) (sc : Int) (body : Body)
    (hr : probe env cfg "/workers/prevalidators" = .response sc body)
    (h : fieldsPresent .prevalidators body.payload = false) :
    listPrevalidators env cfg t =
      (t.request (getURL cfg "/workers/prevalidators"), .error .panic) := by
  simp only [listPrevalidators, tezosGetSlice, show env.httpGet _ = _ from hr]
  obtain ⟨payload, err⟩ := body
  cases payload with
  | arr xs =>
    cases xs with
    | nil => simp [decodeSlice, first]
    | cons p rest =>
      simp only [fieldsPresent] at h
      cases p with
      | obj prevalidator =>
        cases hs : index prevalidator "status" with
        | obj status => simp [Value.field, hs, Value.isObj] at h
        | _ => simp [decodeSlice, first, assertMap, hs]
      | _ => simp [decodeSlice, first, assertMap]
  | _ => simp [decodeSlice, first]

theorem listPrevalidators_eval (env : Env) (cfg : Config) (t : Trace) (sc : Int)
    (prevalidator status : List (String × Value)) (rest : List Value) (err : Option String)
    (hr : probe env cfg "/workers/prevalidators" =
      .response sc ⟨.arr (.obj prevalidator :: rest), err⟩)
    (hs : index prevalidator "status" = .obj status) :
    ∃ t' o, listPrevalidators env cfg t = (t', .ok o) ∧
      (o = none ↔ err = none ∧ sc = 200 ∧ (index status "phase").isRunning = true) := by
  cases err with
  | some e =>
    simp only [listPrevalidators, tezosGetSlice, show env.httpGet _ = _ from hr, decodeSlice, first,
    hs, assertMap, failWith, passWith, neRunning_eq, Option.isSome_some, if_true]
    exact ⟨_, _, rfl, by simp⟩
  | none =>
    simp only [listPrevalidators, tezosGetSlice, show env.httpGet _ = _ from hr, decodeSlice, first,
    hs, assertMap, failWith, passWith, neRunning_eq, Option.isSome_none, Bool.false_eq_true,
        if_false]
    split_ifs with h2 h3 h4 <;> refine ⟨_, _, rfl, ?_⟩ <;> simp_all

theorem blockValidatorWorkerState_panics (env : Env) (cfg : Config) (t : Trace) (sc : Int)
    (body : Body)
    (hr : probe env cfg "/workers/block_validator" = .response sc body)
    (h : fieldsPresent .workerState body.payload = false) :
    blockValidatorWorkerState env cfg t =
        (t.request (getURL cfg "/workers/block_validator"), .error .panic) := by
  simp only [blockValidatorWorkerState, tezosGetMap, show env.httpGet _ = _ from hr,
    index_decodeMap]
  simp only [fieldsPresent] at h
  cases hs : body.payload.field "status" with
  | obj status => simp [hs, Value.isObj] at h
  | _ => simp [assertMap]

theorem blockValidatorWorkerState_eval (env : Env) (cfg : Config) (t : Trace) (sc : Int)
    (data status : List (String × Value)) (err : Option String)
    (hr : probe env cfg "/workers/block_validator" = .response sc ⟨.obj data, err⟩)
    (hs : index data "status" = .obj status) :
    ∃ t' o, blockValidatorWorkerState env cfg t = (t', .ok o) ∧
      (o = none ↔ err = none ∧ sc = 200 ∧ (index status "phase").isRunning = true) := by
  have hne : data ≠ [] := by
    rintro rfl
    simp [index] at hs
  cases err with
  | some e =>
    simp only [blockValidatorWorkerState, tezosGetMap, show env.httpGet _ = _ from hr, decodeMap,
      hs, assertMap,
    failWith, passWith, neRunning_eq, Option.isSome_some, if_true]
    exact ⟨_, _, rfl, by simp⟩
  | none =>
    simp only [blockValidatorWorkerState, tezosGetMap, show env.httpGet _ = _ from hr, decodeMap,
      hs, assertMap,
    failWith, passWith, neRunning_eq, Option.isSome_none, Bool.false_eq_true, if_false]
    split_ifs with h2 h3 h4 <;> refine ⟨_, _, rfl, ?_⟩ <;> simp_all

theorem chainValidatorWorkerState_panics (env : Env) (cfg : Config) (t : Trace) (sc : Int)
    (body : Body)
    (hr : probe env cfg ("/workers/chain_validators/" ++ cfg.sysChain) = .response sc body)
    (h : fieldsPresent .workerState body.payload = false) :
    chainValidatorWorkerState env cfg t =
        (t.request (getURL cfg ("/workers/chain_validators/" ++ cfg.sysChain)), .error .panic) := by
  simp only [chainValidatorWorkerState, tezosGetMap, show env.httpGet _ = _ from hr,
    index_decodeMap]
  simp only [fieldsPresent] at h
  cases hs : body.payload.field "status" with
  | obj status => simp [hs, Value.isObj] at h
  | _ => simp [assertMap]

theorem chainValidatorWorkerState_eval (env : Env) (cfg : Config) (t : Trace) (sc : Int)
    (data status : List (String × Value)) (err : Option String)
    (hr : probe env cfg ("/workers/chain_validators/" ++ cfg.sysChain) =
        .response sc ⟨.obj data, err⟩)
    (hs : index data "status" = .obj status) :
    ∃ t' o, chainValidatorWorkerState env cfg t = (t', .ok o) ∧
      (o = none ↔ err = none ∧ sc = 200 ∧ (index status "phase").isRunning = true) := by
  have hne : data ≠ [] := by
    rintro rfl
    simp [index] at hs
  cases err with
  | some e =>
    simp only [chainValidatorWorkerState, tezosGetMap, show env.httpGet _ = _ from hr, decodeMap,
      hs, assertMap,
    failWith, passWith, neRunning_eq, Option.isSome_some, if_true]
    exact ⟨_, _, rfl, by simp⟩
  | none =>
    simp only [chainValidatorWorkerState, tezosGetMap, show env.httpGet _ = _ from hr, decodeMap,
      hs, assertMap,
    failWith, passWith, neRunning_eq, Option.isSome_none, Bool.false_eq_true, if_false]
    split_ifs with h2 h3 h4 <;> refine ⟨_, _, rfl, ?_⟩ <;> simp_all

theorem stateOfPrevalidator_panics (env : Env) (cfg : Config) (t : Trace) (sc : Int) (body : Body)
    (hr : probe env cfg ("/workers/prevalidators/" ++ cfg.sysChain) = .response sc body)
    (h : fieldsPresent .workerState body.payload = false) :
    stateOfPrevalidator env cfg t =
        (t.request (getURL cfg ("/workers/prevalidators/" ++ cfg.sysChain)), .error .panic) := by
  simp only [stateOfPrevalidator, tezosGetMap, show env.httpGet _ = _ from hr, index_decodeMap]
  simp only [fieldsPresent] at h
  cases hs : body.payload.field "status" with
  | obj status => simp [hs, Value.isObj] at h
  | _ => simp [assertMap]

theorem stateOfPrevalidator_eval (env : Env) (cfg : Config) (t : Trace) (sc : Int)
    (data status : List (String × Value)) (err : Option String)
    (hr : probe env cfg ("/workers/prevalidators/" ++ cfg.sysChain) = .response sc ⟨.obj data, err⟩)
    (hs : index data "status" = .obj status) :
    ∃ t' o, stateOfPrevalidator env cfg t = (t', .ok o) ∧
      (o = none ↔ err = none ∧ sc = 200 ∧ (index status "phase").isRunning = true) := by
  have hne : data ≠ [] := by
    rintro rfl
    simp [index] at hs
  cases err with
  | some e =>
    simp only [stateOfPrevalidator, tezosGetMap, show env.httpGet _ = _ from hr, decodeMap, hs,
      assertMap,
    failWith, passWith, neRunning_eq, Option.isSome_some, if_true]
    exact ⟨_, _, rfl, by simp⟩
  | none =>
    simp only [stateOfPrevalidator, tezosGetMap, show env.httpGet _ = _ from hr, decodeMap, hs,
      assertMap,
    failWith, passWith, neRunning_eq, Option.isSome_none, Bool.false_eq_true, if_false]
    split_ifs with h2 h3 h4 <;> refine ⟨_, _, rfl, ?_⟩ <;> simp_all

/-! ### The outcome of the seven checks in terms of the predicates of the specification -/

theorem currentCheckpoint_outcome (env : Env) (cfg : Config) (t : Trace) (sc : Int) (body : Body)
    (hr : probe env cfg ("/chains/" ++ cfg.sysChain ++ "/checkpoint") = .response sc body)
    (h : fieldsPresent .checkpoint body.payload = true) :
    ∃ t' o, currentCheckpoint env cfg t = (t', .ok o) ∧
      (o = none ↔ body.err = none ∧ sc = 200 ∧
          ((body.payload.field "block").field "level").isNonZero = true) := by
  obtain ⟨payload, err⟩ := body
  obtain ⟨data, block, level, hv, hb, hl⟩ := checkpoint_fields h
  simp only at hv
  subst hv
  obtain ⟨t', o, ho, hiff⟩ := currentCheckpoint_eval env cfg t sc data block level err hr hb hl
  refine ⟨t', o, ho, ?_⟩
  rw [hiff]
  simp [Value.field, hb, hl, Value.isNonZero]

theorem nodeBandwidthStats_outcome (env : Env) (cfg : Config) (t : Trace) (sc : Int) (body : Body)
    (hr : probe env cfg "/network/stat" = .response sc body)
    (h : fieldsPresent .bandwidth body.payload = true) :
    ∃ t' o, nodeBandwidthStats env cfg t = (t', .ok o) ∧
      (o = none ↔ body.err = none ∧ sc = 200 ∧
          semanticallyValid env .bandwidth body.payload = true) := by
  obtain ⟨payload, err⟩ := body
  obtain ⟨data, sent, recv, hv, hb, hl⟩ := bandwidth_fields h
  simp only at hv
  subst hv
  obtain ⟨t', o, ho, hiff⟩ := nodeBandwidthStats_eval env cfg t sc data sent recv err hr hb hl
  refine ⟨t', o, ho, ?_⟩
  rw [hiff]
  simp [semanticallyValid, Value.field, hb, hl, Value.parsesNonZero]

theorem workerDDBState_outcome (env : Env) (cfg : Config) (t : Trace) (sc : Int) (body : Body)
    (hr : probe env cfg ("/workers/chain_validators/" ++ cfg.sysChain ++ "/ddb") =
        .response sc body)
    (h : fieldsPresent .ddb body.payload = true) :
    ∃ t' o, workerDDBState env cfg t = (t', .ok o) ∧
      (o = none ↔ body.err = none ∧ sc = 200 ∧ semanticallyValid env .ddb body.payload = true) := by
  obtain ⟨payload, err⟩ := body
  obtain ⟨data, chains, conns, hv, hb, hl⟩ := ddb_fields h
  simp only at hv
  subst hv
  obtain ⟨t', o, ho, hiff⟩ := workerDDBState_eval env cfg t sc data chains conns err hr hb hl
  refine ⟨t', o, ho, ?_⟩
  rw [hiff]
  simp [semanticallyValid, Value.field, hb, hl, Value.isNonZero]

theorem listPrevalidators_outcome (env : Env) (cfg : Config) (t : Trace) (sc : Int) (body : Body)
    (hr : probe env cfg "/workers/prevalidators" = .response sc body)
    (h : fieldsPresent .prevalidators body.payload = true) :
    ∃ t' o, listPrevalidators env cfg t = (t', .ok o) ∧
      (o = none ↔ body.err = none ∧ sc = 200 ∧
          semanticallyValid env .prevalidators body.payload = true) := by
  obtain ⟨payload, err⟩ := body
  obtain ⟨prevalidator, rest, status, hv, hb⟩ := prevalidators_fields h
  simp only at hv
  subst hv
  obtain ⟨t', o, ho, hiff⟩ := listPrevalidators_eval env cfg t sc prevalidator status rest err hr hb
  refine ⟨t', o, ho, ?_⟩
  rw [hiff]
  simp [semanticallyValid, Value.field, hb]

theorem blockValidatorWorkerState_outcome (env : Env) (cfg : Config) (t : Trace) (sc : Int)
    (body : Body)
    (hr : probe env cfg "/workers/block_validator" = .response sc body)
    (h : fieldsPresent .workerState body.payload = true) :
    ∃ t' o, blockValidatorWorkerState env cfg t = (t', .ok o) ∧
      (o = none ↔ body.err = none ∧ sc = 200 ∧
          semanticallyValid env .workerState body.payload = true) := by
  obtain ⟨payload, err⟩ := body
  obtain ⟨data, status, hv, hb⟩ := workerState_fields h
  simp only at hv
  subst hv
  obtain ⟨t', o, ho, hiff⟩ := blockValidatorWorkerState_eval env cfg t sc data status err hr hb
  refine ⟨t', o, ho, ?_⟩
  rw [hiff]
  simp [semanticallyValid, Value.field, hb]

theorem chainValidatorWorkerState_outcome (env : Env) (cfg : Config) (t : Trace) (sc : Int)
    (body : Body)
    (hr : probe env cfg ("/workers/chain_validators/" ++ cfg.sysChain) = .response sc body)
    (h : fieldsPresent .workerState body.payload = true) :
    ∃ t' o, chainValidatorWorkerState env cfg t = (t', .ok o) ∧
      (o = none ↔ body.err = none ∧ sc = 200 ∧
          semanticallyValid env .workerState body.payload = true) := by
  obtain ⟨payload, err⟩ := body
  obtain ⟨data, status, hv, hb⟩ := workerState_fields h
  simp only at hv
  subst hv
  obtain ⟨t', o, ho, hiff⟩ := chainValidatorWorkerState_eval env cfg t sc data status err hr hb
  refine ⟨t', o, ho, ?_⟩
  rw [hiff]
  simp [semanticallyValid, Value.field, hb]

theorem stateOfPrevalidator_outcome (env : Env) (cfg : Config) (t : Trace) (sc : Int) (body : Body)
    (hr : probe env cfg ("/workers/prevalidators/" ++ cfg.sysChain) = .response sc body)
    (h : fieldsPresent .workerState body.payload = true) :
    ∃ t' o, stateOfPrevalidator env cfg t = (t', .ok o) ∧
      (o = none ↔ body.err = none ∧ sc = 200 ∧
          semanticallyValid env .workerState body.payload = true) := by
  obtain ⟨payload, err⟩ := body
  obtain ⟨data, status, hv, hb⟩ := workerState_fields h
  simp only at hv
  subst hv
  obtain ⟨t', o, ho, hiff⟩ := stateOfPrevalidator_eval env cfg t sc data status err hr hb
  refine ⟨t', o, ho, ?_⟩
  rw [hiff]
  simp [semanticallyValid, Value.field, hb]

/-! ### From the validity predicates to the outcome of each of the seven checks -/

theorem currentCheckpoint_returns (env : Env) (cfg : Config) (t : Trace)
    (h : Endpoint.wellShaped ⟨"/chains/" ++ cfg.sysChain ++ "/checkpoint", .object, .checkpoint⟩
      (probe env cfg ("/chains/" ++ cfg.sysChain ++ "/checkpoint")) = true) :
    ∃ t' o, currentCheckpoint env cfg t = (t', .ok o) := by
  obtain ⟨sc, body, hr⟩ := answered_inv (wellShaped_answered h)
  rw [hr] at h
  obtain ⟨t', o, ho, -⟩ := currentCheckpoint_outcome env cfg t sc body hr h
  exact ⟨t', o, ho⟩

theorem currentCheckpoint_passes (env : Env) (cfg : Config) (t : Trace)
    (h : Endpoint.valid env ⟨"/chains/" ++ cfg.sysChain ++ "/checkpoint", .object, .checkpoint⟩
      (probe env cfg ("/chains/" ++ cfg.sysChain ++ "/checkpoint")) = true) :
    ∃ t', currentCheckpoint env cfg t = (t', .ok none) := by
  obtain ⟨payload, hr, -, hsem⟩ := valid_inv h
  simp only [semanticallyValid] at hsem
  have hpos : ∃ x, (payload.field "block").field "level" = .num x ∧ 0 < x := by
    cases hl : (payload.field "block").field "level" with
    | num x => exact ⟨x, rfl, by simpa [hl, Value.isPositive] using hsem⟩
    | _ => simp [hl, Value.isPositive] at hsem
  obtain ⟨x, hx, hx0⟩ := hpos
  have hf : fieldsPresent .checkpoint payload = true := by
    simp [fieldsPresent, hx, Value.isNum]
  obtain ⟨t', o, ho, hiff⟩ := currentCheckpoint_outcome env cfg t 200 ⟨payload, none⟩ hr hf
  have : o = none := hiff.mpr ⟨rfl, rfl, by simp [hx, Value.isNonZero, ne_of_gt hx0]⟩
  exact ⟨t', this ▸ ho⟩

theorem nodeBandwidthStats_returns (env : Env) (cfg : Config) (t : Trace)
    (h : Endpoint.wellShaped ⟨"/network/stat", .object, .bandwidth⟩
      (probe env cfg "/network/stat") = true) :
    ∃ t' o, nodeBandwidthStats env cfg t = (t', .ok o) := by
  obtain ⟨sc, body, hr⟩ := answered_inv (wellShaped_answered h)
  rw [hr] at h
  obtain ⟨t', o, ho, -⟩ := nodeBandwidthStats_outcome env cfg t sc body hr h
  exact ⟨t', o, ho⟩

theorem nodeBandwidthStats_passes (env : Env) (cfg : Config) (t : Trace)
    (h : Endpoint.valid env ⟨"/network/stat", .object, .bandwidth⟩
      (probe env cfg "/network/stat") = true) :
    ∃ t', nodeBandwidthStats env cfg t = (t', .ok none) := by
  obtain ⟨payload, hr, -, hsem⟩ := valid_inv h
  have hf : fieldsPresent .bandwidth payload = true := semanticallyValid_fieldsPresent hsem
  obtain ⟨t', o, ho, hiff⟩ := nodeBandwidthStats_outcome env cfg t 200 ⟨payload, none⟩ hr hf
  have : o = none := hiff.mpr ⟨rfl, rfl, hsem⟩
  exact ⟨t', this ▸ ho⟩

theorem workerDDBState_returns (env : Env) (cfg : Config) (t : Trace)
    (h : Endpoint.wellShaped ⟨"/workers/chain_validators/" ++ cfg.sysChain ++ "/ddb", .object, .ddb⟩
      (probe env cfg ("/workers/chain_validators/" ++ cfg.sysChain ++ "/ddb")) = true) :
    ∃ t' o, workerDDBState env cfg t = (t', .ok o) := by
  obtain ⟨sc, body, hr⟩ := answered_inv (wellShaped_answered h)
  rw [hr] at h
  obtain ⟨t', o, ho, -⟩ := workerDDBState_outcome env cfg t sc body hr h
  exact ⟨t', o, ho⟩

theorem workerDDBState_passes (env : Env) (cfg : Config) (t : Trace)
    (h : Endpoint.valid env ⟨"/workers/chain_validators/" ++ cfg.sysChain ++ "/ddb", .object, .ddb⟩
      (probe env cfg ("/workers/chain_validators/" ++ cfg.sysChain ++ "/ddb")) = true) :
    ∃ t', workerDDBState env cfg t = (t', .ok none) := by
  obtain ⟨payload, hr, -, hsem⟩ := valid_inv h
  have hf : fieldsPresent .ddb payload = true := semanticallyValid_fieldsPresent hsem
  obtain ⟨t', o, ho, hiff⟩ := workerDDBState_outcome env cfg t 200 ⟨payload, none⟩ hr hf
  have : o = none := hiff.mpr ⟨rfl, rfl, hsem⟩
  exact ⟨t', this ▸ ho⟩

theorem listPrevalidators_returns (env : Env) (cfg : Config) (t : Trace)
    (h : Endpoint.wellShaped ⟨"/workers/prevalidators", .array, .prevalidators⟩
      (probe env cfg "/workers/prevalidators") = true) :
    ∃ t' o, listPrevalidators env cfg t = (t', .ok o) := by
  obtain ⟨sc, body, hr⟩ := answered_inv (wellShaped_answered h)
  rw [hr] at h
  obtain ⟨t', o, ho, -⟩ := listPrevalidators_outcome env cfg t sc body hr h
  exact ⟨t', o, ho⟩

theorem listPrevalidators_passes (env : Env) (cfg : Config) (t : Trace)
    (h : Endpoint.valid env ⟨"/workers/prevalidators", .array, .prevalidators⟩
      (probe env cfg "/workers/prevalidators") = true) :
    ∃ t', listPrevalidators env cfg t = (t', .ok none) := by
  obtain ⟨payload, hr, -, hsem⟩ := valid_inv h
  have hf : fieldsPresent .prevalidators payload = true := semanticallyValid_fieldsPresent hsem
  obtain ⟨t', o, ho, hiff⟩ := listPrevalidators_outcome env cfg t 200 ⟨payload, none⟩ hr hf
  have : o = none := hiff.mpr ⟨rfl, rfl, hsem⟩
  exact ⟨t', this ▸ ho⟩

theorem blockValidatorWorkerState_returns (env : Env) (cfg : Config) (t : Trace)
    (h : Endpoint.wellShaped ⟨"/workers/block_validator", .object, .workerState⟩
      (probe env cfg "/workers/block_validator") = true) :
    ∃ t' o, blockValidatorWorkerState env cfg t = (t', .ok o) := by
  obtain ⟨sc, body, hr⟩ := answered_inv (wellShaped_answered h)
  rw [hr] at h
  obtain ⟨t', o, ho, -⟩ := blockValidatorWorkerState_outcome env cfg t sc body hr h
  exact ⟨t', o, ho⟩

theorem blockValidatorWorkerState_passes (env : Env) (cfg : Config) (t : Trace)
    (h : Endpoint.valid env ⟨"/workers/block_validator", .object, .workerState⟩
      (probe env cfg "/workers/block_validator") = true) :
    ∃ t', blockValidatorWorkerState env cfg t = (t', .ok none) := by
  obtain ⟨payload, hr, -, hsem⟩ := valid_inv h
  have hf : fieldsPresent .workerState payload = true := semanticallyValid_fieldsPresent hsem
  obtain ⟨t', o, ho, hiff⟩ := blockValidatorWorkerState_outcome env cfg t 200 ⟨payload, none⟩ hr hf
  have : o = none := hiff.mpr ⟨rfl, rfl, hsem⟩
  exact ⟨t', this ▸ ho⟩

theorem chainValidatorWorkerState_returns (env : Env) (cfg : Config) (t : Trace)
    (h : Endpoint.wellShaped ⟨"/workers/chain_validators/" ++ cfg.sysChain, .object, .workerState⟩
      (probe env cfg ("/workers/chain_validators/" ++ cfg.sysChain)) = true) :
    ∃ t' o, chainValidatorWorkerState env cfg t = (t', .ok o) := by
  obtain ⟨sc, body, hr⟩ := answered_inv (wellShaped_answered h)
  rw [hr] at h
  obtain ⟨t', o, ho, -⟩ := chainValidatorWorkerState_outcome env cfg t sc body hr h
  exact ⟨t', o, ho⟩

theorem chainValidatorWorkerState_passes (env : Env) (cfg : Config) (t : Trace)
    (h : Endpoint.valid env ⟨"/workers/chain_validators/" ++ cfg.sysChain, .object, .workerState⟩
      (probe env cfg ("/workers/chain_validators/" ++ cfg.sysChain)) = true) :
    ∃ t', chainValidatorWorkerState env cfg t = (t', .ok none) := by
  obtain ⟨payload, hr, -, hsem⟩ := valid_inv h
  have hf : fieldsPresent .workerState payload = true := semanticallyValid_fieldsPresent hsem
  obtain ⟨t', o, ho, hiff⟩ := chainValidatorWorkerState_outcome env cfg t 200 ⟨payload, none⟩ hr hf
  have : o = none := hiff.mpr ⟨rfl, rfl, hsem⟩
  exact ⟨t', this ▸ ho⟩

theorem stateOfPrevalidator_returns (env : Env) (cfg : Config) (t : Trace)
    (h : Endpoint.wellShaped ⟨"/workers/prevalidators/" ++ cfg.sysChain, .object, .workerState⟩
      (probe env cfg ("/workers/prevalidators/" ++ cfg.sysChain)) = true) :
    ∃ t' o, stateOfPrevalidator env cfg t = (t', .ok o) := by
  obtain ⟨sc, body, hr⟩ := answered_inv (wellShaped_answered h)
  rw [hr] at h
  obtain ⟨t', o, ho, -⟩ := stateOfPrevalidator_outcome env cfg t sc body hr h
  exact ⟨t', o, ho⟩

theorem stateOfPrevalidator_passes (env : Env) (cfg : Config) (t : Trace)
    (h : Endpoint.valid env ⟨"/workers/prevalidators/" ++ cfg.sysChain, .object, .workerState⟩
      (probe env cfg ("/workers/prevalidators/" ++ cfg.sysChain)) = true) :
    ∃ t', stateOfPrevalidator env cfg t = (t', .ok none) := by
  obtain ⟨payload, hr, -, hsem⟩ := valid_inv h
  have hf : fieldsPresent .workerState payload = true := semanticallyValid_fieldsPresent hsem
  obtain ⟨t', o, ho, hiff⟩ := stateOfPrevalidator_outcome env cfg t 200 ⟨payload, none⟩ hr hf
  have : o = none := hiff.mpr ⟨rfl, rfl, hsem⟩
  exact ⟨t', this ▸ ho⟩

/-! ## The runner -/

theorem test_of_passed {runner : testRunner} {f : Trace → Run (Option String)} {t t' : Trace}
    (h : f t = (t', .ok none)) :
    runner.test f t = (t', .ok ⟨runner.failed, runner.succeeded + 1⟩) := by
  simp only [testRunner.test, h]

theorem test_of_failed {runner : testRunner} {f : Trace → Run (Option String)} {t t' : Trace}
    {msg : String} (h : f t = (t', .ok (some msg))) :
    runner.test f t = (t', .ok ⟨runner.failed + 1, runner.succeeded⟩) := by
  simp only [testRunner.test, h]

theorem test_of_returned (runner : testRunner) {f : Trace → Run (Option String)} {t t' : Trace}
    {o : Option String} (h : f t = (t', .ok o)) :
    ∃ runner', runner.test f t = (t', .ok runner') ∧
      runner'.failed + runner'.succeeded = runner.failed + runner.succeeded + 1 := by
  cases o with
  | none => exact ⟨_, test_of_passed h, by simp only []; omega⟩
  | some msg => exact ⟨_, test_of_failed h, by simp only []; omega⟩

theorem test_of_aborted {runner : testRunner} {f : Trace → Run (Option String)} {t t' : Trace}
    {a : Abort} (h : f t = (t', .error a)) :
    runner.test f t = (t', .error a) := by
  simp only [testRunner.test, h]

theorem test_count {runner runner' : testRunner} {f : Trace → Run (Option String)} {t t' : Trace}
    (h : runner.test f t = (t', .ok runner')) :
    runner'.failed + runner'.succeeded = runner.failed + runner.succeeded + 1 := by
  unfold testRunner.test at h
  split at h
  · simp at h
  · simp only [Prod.mk.injEq, Except.ok.injEq] at h
    rw [← h.2]
    simp only []
    omega
  · simp only [Prod.mk.injEq, Except.ok.injEq] at h
    rw [← h.2]
    simp only []
    omega

theorem testAll_count (fs : List (Trace → Run (Option String))) :
    ∀ (runner runner' : testRunner) (t t' : Trace),
      runner.testAll fs t = (t', .ok runner') →
      runner'.failed + runner'.succeeded = runner.failed + runner.succeeded + fs.length := by
  induction fs with
  | nil =>
    intro runner runner' t t' h
    simp only [testRunner.testAll, Prod.mk.injEq, Except.ok.injEq] at h
    rw [← h.2]
    rfl
  | cons f fs ih =>
    intro runner runner' t t' h
    simp only [testRunner.testAll] at h
    cases hstep : runner.test f t with
    | mk t1 r1 =>
      cases r1 with
      | error a => simp [hstep] at h
      | ok runner1 =>
        simp only [hstep] at h
        have h1 := test_count hstep
        have h2 := ih runner1 runner' t1 t' h
        simp only [List.length_cons]
        omega

theorem testAll_returns (fs : List (Trace → Run (Option String)))
    (hfs : ∀ f ∈ fs, ∀ t, ∃ t' o, f t = (t', .ok o)) :
    ∀ (runner : testRunner) (t : Trace), ∃ t' runner', runner.testAll fs t = (t', .ok runner') := by
  induction fs with
  | nil => exact fun runner t => ⟨t, runner, rfl⟩
  | cons f fs ih =>
    intro runner t
    obtain ⟨t1, o, ho⟩ := hfs f (List.mem_cons_self f fs) t
    obtain ⟨runner1, h1, -⟩ := test_of_returned runner ho
    obtain ⟨t', runner', h'⟩ := ih (fun g hg => hfs g (List.mem_cons_of_mem f hg)) runner1 t1
    exact ⟨t', runner', by simp only [testRunner.testAll, h1, h']⟩

theorem testAll_passes (fs : List (Trace → Run (Option String)))
    (hfs : ∀ f ∈ fs, ∀ t, ∃ t', f t = (t', .ok none)) :
    ∀ (runner : testRunner) (t : Trace),
      ∃ t', runner.testAll fs t = (t', .ok ⟨runner.failed, runner.succeeded + fs.length⟩) := by
  induction fs with
  | nil => exact fun runner t => ⟨t, rfl⟩
  | cons f fs ih =>
    intro runner t
    obtain ⟨t1, ho⟩ := hfs f (List.mem_cons_self f fs) t
    obtain ⟨t', h'⟩ := ih (fun g hg => hfs g (List.mem_cons_of_mem f hg))
      ⟨runner.failed, runner.succeeded + 1⟩ t1
    refine ⟨t', ?_⟩
    simp only [testRunner.testAll, test_of_passed ho, h', List.length_cons]
    congr 3
    omega

/-! ## The 21 checks together -/

theorem tests_return (env : Env) (cfg : Config)
    (h : ∀ e ∈ endpoints cfg.sysChain, e.wellShaped (probe env cfg e.path) = true) :
    ∀ f ∈ tests env cfg, ∀ t, ∃ t' o, f t = (t', .ok o) := by
  simp only [endpoints, List.forall_mem_cons, List.not_mem_nil, false_implies, implies_true,
    and_true] at h
  obtain ⟨h1, h2, h3, h4, h5, h6, h7, h8, h9, h10, h11, h12, h13, h14, h15, h16, h17, h18, h19,
    h20, h21⟩ := h
  simp only [tests, List.forall_mem_cons, List.not_mem_nil, false_implies, implies_true,
    and_true]
  exact ⟨fun t => knownHeadsOfChain_returns env cfg t (wellShaped_answered h1),
    fun t => headBlockDetails_returns env cfg t (wellShaped_answered h2),
    fun t => chainIdentifier_returns env cfg t (wellShaped_answered h3),
    fun t => currentCheckpoint_returns env cfg t h4,
    fun t => rpcDocs_returns env cfg t (wellShaped_answered h5),
    fun t => listP2PConnections_returns env cfg t (wellShaped_answered h6),
    fun t => listPeers_returns env cfg t (wellShaped_answered h7),
    fun t => listPoolConnectionPoints_returns env cfg t (wellShaped_answered h8),
    fun t => selfPeerID_returns env cfg t (wellShaped_answered h9),
    fun t => nodeBandwidthStats_returns env cfg t h10,
    fun t => supportedNetworkVersion_returns env cfg t (wellShaped_answered h11),
    fun t => listProtocols_returns env cfg t (wellShaped_answered h12),
    fun t => garbageCollectorStats_returns env cfg t (wellShaped_answered h13),
    fun t => memoryUsageStats_returns env cfg t (wellShaped_answered h14),
    fun t => blockValidatorWorkerState_returns env cfg t h15,
    fun t => listChainValidators_returns env cfg t (wellShaped_answered h16),
    fun t => chainValidatorWorkerState_returns env cfg t h17,
    fun t => workerDDBState_returns env cfg t h18,
    fun t => listValidatorWorkers_returns env cfg t (wellShaped_answered h19),
    fun t => listPrevalidators_returns env cfg t h20,
    fun t => stateOfPrevalidator_returns env cfg t h21⟩

theorem tests_pass (env : Env) (cfg : Config)
    (h : ∀ e ∈ endpoints cfg.sysChain, e.valid env (probe env cfg e.path) = true) :
    ∀ f ∈ tests env cfg, ∀ t, ∃ t', f t = (t', .ok none) := by
  simp only [endpoints, List.forall_mem_cons, List.not_mem_nil, false_implies, implies_true,
    and_true] at h
  obtain ⟨h1, h2, h3, h4, h5, h6, h7, h8, h9, h10, h11, h12, h13, h14, h15, h16, h17, h18, h19,
    h20, h21⟩ := h
  simp only [tests, List.forall_mem_cons, List.not_mem_nil, false_implies, implies_true,
    and_true]
  exact ⟨fun t => knownHeadsOfChain_passes env cfg t h1,
    fun t => headBlockDetails_passes env cfg t h2,
    fun t => chainIdentifier_passes env cfg t h3,
    fun t => currentCheckpoint_passes env cfg t h4,
    fun t => rpcDocs_passes env cfg t h5,
    fun t => listP2PConnections_passes env cfg t h6,
    fun t => listPeers_passes env cfg t h7,
    fun t => listPoolConnectionPoints_passes env cfg t h8,
    fun t => selfPeerID_passes env cfg t h9,
    fun t => nodeBandwidthStats_passes env cfg t h10,
    fun t => supportedNetworkVersion_passes env cfg t h11,
    fun t => listProtocols_passes env cfg t h12,
    fun t => garbageCollectorStats_passes env cfg t h13,
    fun t => memoryUsageStats_passes env cfg t h14,
    fun t => blockValidatorWorkerState_passes env cfg t h15,
    fun t => listChainValidators_passes env cfg t h16,
    fun t => chainValidatorWorkerState_passes env cfg t h17,
    fun t => workerDDBState_passes env cfg t h18,
    fun t => listValidatorWorkers_passes env cfg t h19,
    fun t => listPrevalidators_passes env cfg t h20,
    fun t => stateOfPrevalidator_passes env cfg t h21⟩

theorem tests_length (env : Env) (cfg : Config) : (tests env cfg).length = 21 := rfl

theorem main_of_verdict (env : Env) (prog : String) (args : List String) (t t' : Trace)
    (runner : testRunner) (hargs : 2 ≤ args.length)
    (h : runChecks env (configOf args) t = (t', .ok runner)) :
    (main env prog args t).2 = if runner.failed > 0 then 2 else 0 := by
  have hlt : ¬ args.length + 1 < 3 := by omega
  simp only [main, hlt, if_false, runAllTests, h, verdict]
  split_ifs <;> rfl

/-! ## Claims -/

/-- C1, as stated, fails: when the node cannot be reached the first probe ends in `log.Fatalln`;
one request is made, no check produces an outcome and there is no runner state whose counters add
up to 21. -/
theorem runChecks_unreachable_aborts :
    runChecks (envOf unreachable) exampleCfg Trace.start =
      (⟨["http://node.example/chains/main/blocks"], ["connection refused"], [], []⟩,
        .error .fatal) ∧
    ¬ ∃ t runner, runChecks (envOf unreachable) exampleCfg Trace.start = (t, .ok runner) ∧
        runner.failed + runner.succeeded = 21 := by
  have h : runChecks (envOf unreachable) exampleCfg Trace.start =
      (⟨["http://node.example/chains/main/blocks"], ["connection refused"], [], []⟩,
        .error .fatal) := rfl
  refine ⟨h, ?_⟩
  rintro ⟨t, runner, hrun, -⟩
  rw [h] at hrun
  simp at hrun

/-- C1 (amended): for every sequence of probe results in which no probe suffers a transport
failure and every predicate-bearing endpoint answers with its inspected fields present,
`runAllTests` finishes with every check having produced exactly one outcome:
`succeeded + failed = 21`, and it returns the verdict of those counters. -/
theorem runChecks_counts_every_check (env : Env) (cfg : Config) (t : Trace)
    (h : ∀ e ∈ endpoints cfg.sysChain, e.wellShaped (probe env cfg e.path) = true) :
    ∃ t' runner, runChecks env cfg t = (t', .ok runner) ∧
      runner.failed + runner.succeeded = 21 ∧
      runAllTests env cfg t = (t', .ok (verdict runner)) := by
  obtain ⟨t', runner, hrun⟩ := testAll_returns (tests env cfg) (tests_return env cfg h) ⟨0, 0⟩ t
  refine ⟨t', runner, hrun, ?_, ?_⟩
  · have := testAll_count (tests env cfg) ⟨0, 0⟩ runner t t' hrun
    simpa [tests_length] using this
  · simp only [runAllTests, show runChecks env cfg t = _ from hrun]

/-- Witness of C1 (amended): on a node whose block validator is stuck every probe is answered and
well shaped, and the 21 outcomes are 1 failure and 20 successes. -/
theorem runChecks_counts_every_check_witness :
    (∀ e ∈ endpoints exampleCfg.sysChain,
      e.wellShaped (probe (envOf (nodeOf exampleCfg (healthyExcept "/workers/block_validator"
        (.response 200 (.value (workerPayload "stuck")))))) exampleCfg e.path) = true) ∧
    ∃ t' runner, runChecks (envOf (nodeOf exampleCfg (healthyExcept "/workers/block_validator"
        (.response 200 (.value (workerPayload "stuck")))))) exampleCfg Trace.start =
          (t', .ok runner) ∧
      runner.failed + runner.succeeded = 21 ∧
      runAllTests (envOf (nodeOf exampleCfg (healthyExcept "/workers/block_validator"
        (.response 200 (.value (workerPayload "stuck")))))) exampleCfg Trace.start =
          (t', .ok (verdict runner)) :=
  ⟨by decide, runChecks_counts_every_check _ exampleCfg Trace.start (by decide)⟩

/-- C2: when `runAllTests` completes (the 21 checks left the runner with its two counters) it
returns an error if and only if the failed count is greater than 0, the message of that error is
exactly `<failed> out of <failed+succeeded> tests failed` in decimal, otherwise it returns `nil`;
and `main` exits with status 2 exactly in the error case, with status 0 otherwise. -/
theorem runAllTests_verdict (env : Env) (prog : String) (args : List String) (t t' : Trace)
    (runner : testRunner) (hargs : 2 ≤ args.length)
    (h : runChecks env (configOf args) t = (t', .ok runner)) :
    (runner.failed > 0 →
      runAllTests env (configOf args) t =
        (t', .ok (some (toString runner.failed ++ " out of " ++
          toString (runner.failed + runner.succeeded) ++ " tests failed")))) ∧
    (runner.failed = 0 → runAllTests env (configOf args) t = (t', .ok none)) ∧
    ((∃ msg, (runAllTests env (configOf args) t).2 = .ok (some msg)) ↔ runner.failed > 0) ∧
    ((main env prog args t).2 = 2 ↔ runner.failed > 0) ∧
    ((main env prog args t).2 = 0 ↔ runner.failed = 0) := by
  have hmain := main_of_verdict env prog args t t' runner hargs h
  have hrun : runAllTests env (configOf args) t = (t', .ok (verdict runner)) := by
    simp only [runAllTests, h]
  by_cases hf : runner.failed > 0
  · have hv : verdict runner = some (toString runner.failed ++ " out of " ++
        toString (runner.failed + runner.succeeded) ++ " tests failed") := by
      simp only [verdict, hf, if_true]
    have hne : runner.failed ≠ 0 := by omega
    refine ⟨fun _ => by rw [hrun, hv], fun h0 => absurd h0 hne, ?_, ?_, ?_⟩
    · rw [hrun, hv]
      exact ⟨fun _ => hf, fun _ => ⟨_, rfl⟩⟩
    · rw [hmain, if_pos hf]
      exact ⟨fun _ => hf, fun _ => rfl⟩
    · rw [hmain, if_pos hf]
      exact ⟨fun h2 => absurd h2 (by decide), fun h0 => absurd h0 hne⟩
  · have hv : verdict runner = none := by
      simp only [verdict, hf, if_false]
    have h0 : runner.failed = 0 := by omega
    refine ⟨fun hpos => absurd hpos hf, fun _ => by rw [hrun, hv], ?_, ?_, ?_⟩
    · rw [hrun, hv]
      exact ⟨fun ⟨msg, hm⟩ => by simp at hm, fun hpos => absurd hpos hf⟩
    · rw [hmain, if_neg hf]
      exact ⟨fun h2 => absurd h2 (by decide), fun hpos => absurd hpos hf⟩
    · rw [hmain, if_neg hf]
      exact ⟨fun _ => h0, fun _ => rfl⟩

/-- Witness of C2: on the node whose block validator is stuck the run completes with 1 failure
and 20 successes, the error is `1 out of 21 tests failed` and the exit status is 2. -/
theorem runAllTests_verdict_witness :
    2 ≤ ["http://node.example", "main"].length ∧
    (runChecks (envOf (nodeOf exampleCfg (healthyExcept "/workers/block_validator"
        (.response 200 (.value (workerPayload "stuck"))))))
      (configOf ["http://node.example", "main"]) Trace.start).2 = .ok ⟨1, 20⟩ ∧
    (runAllTests (envOf (nodeOf exampleCfg (healthyExcept "/workers/block_validator"
        (.response 200 (.value (workerPayload "stuck"))))))
      (configOf ["http://node.example", "main"]) Trace.start).2 =
        .ok (some "1 out of 21 tests failed") ∧
    (main (envOf (nodeOf exampleCfg (healthyExcept "/workers/block_validator"
        (.response 200 (.value (workerPayload "stuck"))))))
      "tezos-tests" ["http://node.example", "main"] Trace.start).2 = 2 := by
  have h := runAllTests_verdict
    (envOf (nodeOf exampleCfg (healthyExcept "/workers/block_validator"
      (.response 200 (.value (workerPayload "stuck"))))))
    "tezos-tests" ["http://node.example", "main"] Trace.start _ ⟨1, 20⟩ (by decide) rfl
  exact ⟨by decide, rfl, (congrArg Prod.snd (h.1 (by decide))).trans rfl,
    h.2.2.2.1.mpr (by decide)⟩

/-- C3: if every one of the 21 probes returns status 200 with no error and a non-empty,
semantically valid payload (`block.level > 0`, `total_sent` and `total_recv` non-zero,
`status.phase` equal to `running`, `active_chains` and `active_connections` non-zero, first
prevalidator running), then `runAllTests` returns success with `failed = 0` and
`succeeded = 21`, and the exit status is 0. -/
theorem healthy_run_succeeds (env : Env) (prog : String) (args : List String) (t : Trace)
    (hargs : 2 ≤ args.length)
    (h : ∀ e ∈ endpoints (configOf args).sysChain,
      e.valid env (probe env (configOf args) e.path) = true) :
    ∃ t', runChecks env (configOf args) t = (t', .ok ⟨0, 21⟩) ∧
      runAllTests env (configOf args) t = (t', .ok none) ∧
      (main env prog args t).2 = 0 := by
  obtain ⟨t', hrun⟩ :=
    testAll_passes (tests env (configOf args)) (tests_pass env (configOf args) h) ⟨0, 0⟩ t
  have hrun' : runChecks env (configOf args) t = (t', .ok ⟨0, 21⟩) := hrun
  refine ⟨t', hrun', ?_, ?_⟩
  · simp only [runAllTests, hrun', verdict]
    rfl
  · rw [main_of_verdict env prog args t t' ⟨0, 21⟩ hargs hrun']
    rfl

/-- Witness of C3: the healthy node, reached with base URL `http://node.example` and chain
`main`, satisfies every hypothesis, and the run ends with 21 successes and exit status 0. -/
theorem healthy_run_succeeds_witness :
    (∀ e ∈ endpoints (configOf ["http://node.example", "main"]).sysChain,
      e.valid (envOf (nodeOf exampleCfg healthyAnswers))
        (probe (envOf (nodeOf exampleCfg healthyAnswers))
          (configOf ["http://node.example", "main"]) e.path) = true) ∧
    ∃ t', runChecks (envOf (nodeOf exampleCfg healthyAnswers))
        (configOf ["http://node.example", "main"]) Trace.start = (t', .ok ⟨0, 21⟩) ∧
      runAllTests (envOf (nodeOf exampleCfg healthyAnswers))
        (configOf ["http://node.example", "main"]) Trace.start = (t', .ok none) ∧
      (main (envOf (nodeOf exampleCfg healthyAnswers)) "tezos-tests"
        ["http://node.example", "main"] Trace.start).2 = 0 :=
  ⟨by decide, healthy_run_succeeds _ "tezos-tests" ["http://node.example", "main"] Trace.start
    (by decide) (by decide)⟩

/-- C4, evaluated where code and claim part: the checkpoint endpoint answers status 200 with
`block.level = -1`, so its predicate `block.level > 0` fails, while the other 20 probes return
valid 200 responses.  All 21 checks run, but the run reports `failed = 0` and `succeeded = 21`,
returns `nil` and exits with status 0, where the claim says `failed = 1`, the error
`1 out of 21 tests failed` and exit status 2. -/
theorem negative_level_run_reports_no_failure :
    probe (envOf (nodeOf exampleCfg (healthyExcept "/chains/main/checkpoint"
        (.response 200 (.value (checkpointPayload (-1))))))) exampleCfg "/chains/main/checkpoint" =
      .response 200 (.value (checkpointPayload (-1))) ∧
    semanticallyValid (envOf (nodeOf exampleCfg (healthyExcept "/chains/main/checkpoint"
        (.response 200 (.value (checkpointPayload (-1))))))) .checkpoint
      (checkpointPayload (-1)) = false ∧
    (∀ e ∈ endpoints exampleCfg.sysChain, e.path ≠ "/chains/main/checkpoint" →
      e.valid (envOf (nodeOf exampleCfg (healthyExcept "/chains/main/checkpoint"
          (.response 200 (.value (checkpointPayload (-1)))))))
        (probe (envOf (nodeOf exampleCfg (healthyExcept "/chains/main/checkpoint"
          (.response 200 (.value (checkpointPayload (-1))))))) exampleCfg e.path) = true) ∧
    (runChecks (envOf (nodeOf exampleCfg (healthyExcept "/chains/main/checkpoint"
        (.response 200 (.value (checkpointPayload (-1))))))) exampleCfg Trace.start).2 =
      .ok ⟨0, 21⟩ ∧
    (runAllTests (envOf (nodeOf exampleCfg (healthyExcept "/chains/main/checkpoint"
        (.response 200 (.value (checkpointPayload (-1))))))) exampleCfg Trace.start).2 =
      .ok none ∧
    (main (envOf (nodeOf exampleCfg (healthyExcept "/chains/main/checkpoint"
        (.response 200 (.value (checkpointPayload (-1)))))))
      "tezos-tests" ["http://node.example", "main"] Trace.start).2 = 0 :=
  ⟨rfl, by decide, by decide, rfl, rfl, rfl⟩

/-- C5, evaluated where code and claim part: the checkpoint endpoint completes the round trip
with status 404 and an empty body (the decoder reports `EOF`).  `currentCheckpoint` reads
`data["block"]` before it tests `err` and the status code, so it panics: no Failed outcome is
returned or counted, the run stops after the fourth request, the 17 remaining checks never run
and the process ends with status 2. -/
theorem checkpoint_404_aborts_run :
    (probe (envOf (nodeOf exampleCfg (healthyExcept "/chains/main/checkpoint"
        (.response 404 (.invalid "EOF"))))) exampleCfg "/chains/main/checkpoint").answered = true ∧
    currentCheckpoint (envOf (nodeOf exampleCfg (healthyExcept "/chains/main/checkpoint"
        (.response 404 (.invalid "EOF"))))) exampleCfg Trace.start =
      (⟨["http://node.example/chains/main/checkpoint"], [], [], []⟩, .error .panic) ∧
    runAllTests (envOf (nodeOf exampleCfg (healthyExcept "/chains/main/checkpoint"
        (.response 404 (.invalid "EOF"))))) exampleCfg Trace.start =
      (⟨["http://node.example/chains/main/blocks", "http://node.example/chains/main/blocks/head",
          "http://node.example/chains/main/chain_id",
          "http://node.example/chains/main/checkpoint"],
        ["PASSED: /chains/main/blocks 200", "PASSED: /chains/main/blocks/head 200",
          "PASSED: /chains/main/chain_id 200"], [], []⟩, .error .panic) ∧
    (main (envOf (nodeOf exampleCfg (healthyExcept "/chains/main/checkpoint"
        (.response 404 (.invalid "EOF")))))
      "tezos-tests" ["http://node.example", "main"] Trace.start).2 = 2 :=
  ⟨rfl, rfl, rfl, rfl⟩

/-- C6, evaluated where code and claim part: the prevalidators list answers status 200 with the
empty array.  `listPrevalidators` evaluates `data[0]` on line 549, before the test
`len(data) == 0` of line 557, so it panics with an index out of range instead of returning a
Failed outcome; nothing is logged for the check and the process ends with status 2. -/
theorem empty_prevalidators_list_panics :
    listPrevalidators (envOf (nodeOf exampleCfg (healthyExcept "/workers/prevalidators"
        (.response 200 (.value (.arr []))))))
      exampleCfg Trace.start =
      (⟨["http://node.example/workers/prevalidators"], [], [], []⟩, .error .panic) ∧
    (runAllTests (envOf (nodeOf exampleCfg (healthyExcept "/workers/prevalidators"
        (.response 200 (.value (.arr [])))))) exampleCfg Trace.start).2 = .error .panic ∧
    (runAllTests (envOf (nodeOf exampleCfg (healthyExcept "/workers/prevalidators"
        (.response 200 (.value (.arr [])))))) exampleCfg Trace.start).1.log.length = 19 ∧
    (main (envOf (nodeOf exampleCfg (healthyExcept "/workers/prevalidators"
        (.response 200 (.value (.arr []))))))
      "tezos-tests" ["http://node.example", "main"] Trace.start).2 = 2 :=
  ⟨rfl, rfl, rfl, rfl⟩

/-- C7, as stated, fails: the checkpoint endpoint answers status 200 with the non-empty payload
`{"history_mode": "full"}`, which has no `block` key; `currentCheckpoint` does not return a
Failed outcome, the type assertion of line 138 panics. -/
theorem checkpoint_without_block_panics :
    probe (envOf (nodeOf exampleCfg (healthyExcept "/chains/main/checkpoint"
        (.response 200 (.value (.obj [("history_mode", .str "full")])))))) exampleCfg
      "/chains/main/checkpoint" = .response 200 (.value (.obj [("history_mode", .str "full")])) ∧
    currentCheckpoint (envOf (nodeOf exampleCfg (healthyExcept "/chains/main/checkpoint"
        (.response 200 (.value (.obj [("history_mode", .str "full")])))))) exampleCfg
      Trace.start =
      (⟨["http://node.example/chains/main/checkpoint"], [], [], []⟩, .error .panic) ∧
    ¬ ∃ t msg, currentCheckpoint (envOf (nodeOf exampleCfg (healthyExcept
        "/chains/main/checkpoint"
        (.response 200 (.value (.obj [("history_mode", .str "full")])))))) exampleCfg
      Trace.start = (t, .ok (some msg)) := by
  have h : currentCheckpoint (envOf (nodeOf exampleCfg (healthyExcept "/chains/main/checkpoint"
        (.response 200 (.value (.obj [("history_mode", .str "full")])))))) exampleCfg
      Trace.start =
      (⟨["http://node.example/chains/main/checkpoint"], [], [], []⟩, .error .panic) := rfl
  refine ⟨rfl, h, ?_⟩
  rintro ⟨t, msg, hm⟩
  rw [h] at hm
  simp at hm

/-- A check of the table on a response, by the type assertions that read its fields: the check
panics right after its request when `fieldsPresent` is false, and returns when it is true; the
two checks on a phase return a Failed outcome when the phase is not `running`. -/
theorem check_on_response (env : Env) (cfg : Config) (t : Trace) (e : Endpoint)
    (f : Trace → Run (Option String)) (sc : Int) (body : Body)
    (hp : (e, f) ∈ checkTable env cfg)
    (hr : probe env cfg e.path = .response sc body) :
    (fieldsPresent e.predicate body.payload = false →
      f t = (t.request (getURL cfg e.path), .error .panic)) ∧
    (fieldsPresent e.predicate body.payload = true → ∃ t' o, f t = (t', .ok o)) ∧
    (e.predicate = .workerState ∨ e.predicate = .prevalidators →
      fieldsPresent e.predicate body.payload = true →
      semanticallyValid env e.predicate body.payload = false →
      ∃ t' msg, f t = (t', .ok (some msg))) := by
  have key : ∀ p ∈ checkTable env cfg, ∀ (sc : Int) (body : Body),
      probe env cfg p.1.path = .response sc body →
      (fieldsPresent p.1.predicate body.payload = false →
        p.2 t = (t.request (getURL cfg p.1.path), .error .panic)) ∧
      (fieldsPresent p.1.predicate body.payload = true → ∃ t' o, p.2 t = (t', .ok o)) ∧
      (p.1.predicate = .workerState ∨ p.1.predicate = .prevalidators →
        fieldsPresent p.1.predicate body.payload = true →
        semanticallyValid env p.1.predicate body.payload = false →
        ∃ t' msg, p.2 t = (t', .ok (some msg))) := by
    simp only [checkTable, endpoints, tests, List.zip, List.zipWith, List.forall_mem_cons,
      List.not_mem_nil, false_implies, implies_true, and_true]
    refine ⟨?_, ?_, ?_, ?_, ?_, ?_, ?_, ?_, ?_, ?_, ?_, ?_, ?_, ?_, ?_, ?_, ?_, ?_, ?_, ?_, ?_⟩ <;>
      intro sc body hr
    · exact ⟨fun h => by simp [fieldsPresent] at h,
        fun _ => knownHeadsOfChain_returns env cfg t (by rw [hr]; rfl), fun h => by simp at h⟩
    · exact ⟨fun h => by simp [fieldsPresent] at h,
        fun _ => headBlockDetails_returns env cfg t (by rw [hr]; rfl), fun h => by simp at h⟩
    · exact ⟨fun h => by simp [fieldsPresent] at h,
        fun _ => chainIdentifier_returns env cfg t (by rw [hr]; rfl), fun h => by simp at h⟩
    · refine ⟨currentCheckpoint_panics env cfg t sc body hr, fun h => ?_, fun h => by simp at h⟩
      obtain ⟨t', o, ho, -⟩ := currentCheckpoint_outcome env cfg t sc body hr h
      exact ⟨t', o, ho⟩
    · exact ⟨fun h => by simp [fieldsPresent] at h,
        fun _ => rpcDocs_returns env cfg t (by rw [hr]; rfl), fun h => by simp at h⟩
    · exact ⟨fun h => by simp [fieldsPresent] at h,
        fun _ => listP2PConnections_returns env cfg t (by rw [hr]; rfl), fun h => by simp at h⟩
    · exact ⟨fun h => by simp [fieldsPresent] at h,
        fun _ => listPeers_returns env cfg t (by rw [hr]; rfl), fun h => by simp at h⟩
    · exact ⟨fun h => by simp [fieldsPresent] at h,
        fun _ => listPoolConnectionPoints_returns env cfg t (by rw [hr]; rfl),
            fun h => by simp at h⟩
    · exact ⟨fun h => by simp [fieldsPresent] at h,
        fun _ => selfPeerID_returns env cfg t (by rw [hr]; rfl), fun h => by simp at h⟩
    · refine ⟨nodeBandwidthStats_panics env cfg t sc body hr, fun h => ?_, fun h => by simp at h⟩
      obtain ⟨t', o, ho, -⟩ := nodeBandwidthStats_outcome env cfg t sc body hr h
      exact ⟨t', o, ho⟩
    · exact ⟨fun h => by simp [fieldsPresent] at h,
        fun _ => supportedNetworkVersion_returns env cfg t (by rw [hr]; rfl), fun h => by simp at h⟩
    · exact ⟨fun h => by simp [fieldsPresent] at h,
        fun _ => listProtocols_returns env cfg t (by rw [hr]; rfl), fun h => by simp at h⟩
    · exact ⟨fun h => by simp [fieldsPresent] at h,
        fun _ => garbageCollectorStats_returns env cfg t (by rw [hr]; rfl), fun h => by simp at h⟩
    · exact ⟨fun h => by simp [fieldsPresent] at h,
        fun _ => memoryUsageStats_returns env cfg t (by rw [hr]; rfl), fun h => by simp at h⟩
    · refine ⟨blockValidatorWorkerState_panics env cfg t sc body hr, fun h => ?_,
          fun _ h hsem => ?_⟩
      · obtain ⟨t', o, ho, -⟩ := blockValidatorWorkerState_outcome env cfg t sc body hr h
        exact ⟨t', o, ho⟩
      · obtain ⟨t', o, ho, hiff⟩ := blockValidatorWorkerState_outcome env cfg t sc body hr h
        cases o with
        | none => simp [hsem] at hiff
        | some msg => exact ⟨t', msg, ho⟩
    · exact ⟨fun h => by simp [fieldsPresent] at h,
        fun _ => listChainValidators_returns env cfg t (by rw [hr]; rfl), fun h => by simp at h⟩
    · refine ⟨chainValidatorWorkerState_panics env cfg t sc body hr, fun h => ?_,
          fun _ h hsem => ?_⟩
      · obtain ⟨t', o, ho, -⟩ := chainValidatorWorkerState_outcome env cfg t sc body hr h
        exact ⟨t', o, ho⟩
      · obtain ⟨t', o, ho, hiff⟩ := chainValidatorWorkerState_outcome env cfg t sc body hr h
        cases o with
        | none => simp [hsem] at hiff
        | some msg => exact ⟨t', msg, ho⟩
    · refine ⟨workerDDBState_panics env cfg t sc body hr, fun h => ?_, fun h => by simp at h⟩
      obtain ⟨t', o, ho, -⟩ := workerDDBState_outcome env cfg t sc body hr h
      exact ⟨t', o, ho⟩
    · exact ⟨fun h => by simp [fieldsPresent] at h,
        fun _ => listValidatorWorkers_returns env cfg t (by rw [hr]; rfl), fun h => by simp at h⟩
    · refine ⟨listPrevalidators_panics env cfg t sc body hr, fun h => ?_, fun _ h hsem => ?_⟩
      · obtain ⟨t', o, ho, -⟩ := listPrevalidators_outcome env cfg t sc body hr h
        exact ⟨t', o, ho⟩
      · obtain ⟨t', o, ho, hiff⟩ := listPrevalidators_outcome env cfg t sc body hr h
        cases o with
        | none => simp [hsem] at hiff
        | some msg => exact ⟨t', msg, ho⟩
    · refine ⟨stateOfPrevalidator_panics env cfg t sc body hr, fun h => ?_, fun _ h hsem => ?_⟩
      · obtain ⟨t', o, ho, -⟩ := stateOfPrevalidator_outcome env cfg t sc body hr h
        exact ⟨t', o, ho⟩
      · obtain ⟨t', o, ho, hiff⟩ := stateOfPrevalidator_outcome env cfg t sc body hr h
        cases o with
        | none => simp [hsem] at hiff
        | some msg => exact ⟨t', msg, ho⟩
  exact key (e, f) hp sc body hr

/-- C7 (amended): for every predicate-bearing check (checkpoint, bandwidth stats, the three
worker-state checks, DDB state, prevalidators list) and every probe result with status 200, no
error and a non-empty payload in which the inspected field is missing or has the wrong type (no
numeric `block.level`; `total_sent` or `total_recv` not a string; no `status` object;
`active_chains` or `active_connections` not a number; first list element not an object with a
`status` object), the check faults with a run-time panic right after its request and returns no
outcome; when the inspected fields are present it returns an outcome.  A `phase` that is absent,
not a string or different from `running` inside a present `status` object is not a fault: the
check returns a Failed outcome. -/
theorem missing_field_faults (env : Env) (cfg : Config) (t : Trace) (e : Endpoint)
    (f : Trace → Run (Option String)) (body : Body)
    (hp : (e, f) ∈ checkTable env cfg)
    (hr : probe env cfg e.path = .response 200 body) :
    body.err = none → nonEmptyPayload e.shape body.payload = true →
    (fieldsPresent e.predicate body.payload = false →
      f t = (t.request (getURL cfg e.path), .error .panic)) ∧
    (fieldsPresent e.predicate body.payload = true → ∃ t' o, f t = (t', .ok o)) ∧
    (e.predicate = .workerState ∨ e.predicate = .prevalidators →
      fieldsPresent e.predicate body.payload = true →
      semanticallyValid env e.predicate body.payload = false →
      ∃ t' msg, f t = (t', .ok (some msg))) :=
  fun _ _ => check_on_response env cfg t e f 200 body hp hr

/-- Witness of C7 (amended): the checkpoint without a `block` key makes `currentCheckpoint`
panic, and a block validator whose `status` object has no `phase` gets a Failed outcome. -/
theorem missing_field_faults_witness :
    currentCheckpoint (envOf (nodeOf exampleCfg (healthyExcept "/chains/main/checkpoint"
        (.response 200 (.value (.obj [("history_mode", .str "full")])))))) exampleCfg
      Trace.start =
      (Trace.start.request (getURL exampleCfg "/chains/main/checkpoint"), .error .panic) ∧
    ∃ t' msg, blockValidatorWorkerState (envOf (nodeOf exampleCfg (healthyExcept
        "/workers/block_validator"
        (.response 200 (.value (.obj [("status", .obj [("since", .str "now")])]))))))
      exampleCfg Trace.start = (t', .ok (some msg)) :=
  ⟨(missing_field_faults
      (envOf (nodeOf exampleCfg (healthyExcept "/chains/main/checkpoint"
        (.response 200 (.value (.obj [("history_mode", .str "full")]))))))
      exampleCfg Trace.start ⟨"/chains/main/checkpoint", .object, .checkpoint⟩ _
      (.value (.obj [("history_mode", .str "full")]))
      (by simp [checkTable, endpoints, tests, exampleCfg]) rfl rfl (by decide)).1 (by decide),
   (missing_field_faults
      (envOf (nodeOf exampleCfg (healthyExcept "/workers/block_validator"
        (.response 200 (.value (.obj [("status", .obj [("since", .str "now")])]))))))
      exampleCfg Trace.start ⟨"/workers/block_validator", .object, .workerState⟩ _
      (.value (.obj [("status", .obj [("since", .str "now")])]))
      (by simp [checkTable, endpoints, tests, exampleCfg]) rfl rfl (by decide)).2.2
      (Or.inl rfl) (by decide) (by decide)⟩

/-- C8, evaluated where code and claim part: the checkpoint endpoint answers status 200, without
error, with the numeric `block.level = -1`.  The claim says the check fails (the level is not
greater than 0); `currentCheckpoint` only tests `level == 0` on line 148, although its own message
reads `expected level greater than 0`, and it passes. -/
theorem negative_level_passes :
    currentCheckpoint (envOf (nodeOf exampleCfg (healthyExcept "/chains/main/checkpoint"
        (.response 200 (.value (.obj [("block", .obj [("level", .num (-1))])]))))))
      exampleCfg Trace.start =
      (⟨["http://node.example/chains/main/checkpoint"], ["PASSED: /chains/main/checkpoint 200"],
        [], []⟩, .ok none) :=
  rfl

/-- C9: for every checkpoint probe result with status 200, no error and a non-empty payload whose
`block.level` equals 0, `currentCheckpoint` returns a Failed outcome (after one request it logs
and returns `FAILED: <path> 200 expected level greater than 0 got 0`). -/
theorem level_zero_fails (env : Env) (cfg : Config) (t : Trace)
    (data block : List (String × Value))
    (hr : probe env cfg ("/chains/" ++ cfg.sysChain ++ "/checkpoint") =
      .response 200 ⟨.obj data, none⟩)
    (hb : index data "block" = .obj block) (hl : index block "level" = .num 0) :
    currentCheckpoint env cfg t =
      ((t.request (getURL cfg ("/chains/" ++ cfg.sysChain ++ "/checkpoint"))).print
          ("FAILED: " ++ ("/chains/" ++ cfg.sysChain ++ "/checkpoint") ++
            " 200 expected level greater than 0 got 0"),
        .ok (some ("FAILED: " ++ ("/chains/" ++ cfg.sysChain ++ "/checkpoint") ++
            " 200 expected level greater than 0 got 0"))) := by
  have hne : data ≠ [] := by
    rintro rfl
    simp [index] at hb
  have h200 : toString (200 : Int) = "200" := rfl
  have h0 : toString (goInt 0) = "0" := rfl
  simp only [currentCheckpoint, tezosGetMap, show env.httpGet _ = _ from hr, decodeMap, hb, hl,
    assertMap, assertFloat64, failWith, h200, h0]
  simp [hne, String.append_assoc]

/-- Witness of C9: a node whose checkpoint is at level 0. -/
theorem level_zero_fails_witness :
    currentCheckpoint (envOf (nodeOf exampleCfg (healthyExcept "/chains/main/checkpoint"
        (.response 200 (.value (checkpointPayload 0)))))) exampleCfg Trace.start =
      (⟨["http://node.example/chains/main/checkpoint"],
        ["FAILED: /chains/main/checkpoint 200 expected level greater than 0 got 0"], [], []⟩,
        .ok (some "FAILED: /chains/main/checkpoint 200 expected level greater than 0 got 0")) :=
  (level_zero_fails (envOf (nodeOf exampleCfg (healthyExcept "/chains/main/checkpoint"
      (.response 200 (.value (checkpointPayload 0)))))) exampleCfg Trace.start
    [("block", .obj [("level", .num 0)]), ("history_mode", .str "full")] [("level", .num 0)]
    rfl rfl rfl).trans rfl

/-- C10, as stated, fails: the bandwidth endpoint answers status 200, without error, with
`total_sent` the string `0` and a `total_recv` that is absent, or one that is the number 2048
instead of a string; `nodeBandwidthStats` does not return a Failed outcome, the type assertion of
line 288 panics. -/
theorem total_recv_not_a_string_panics :
    probe (envOf (nodeOf exampleCfg (healthyExcept "/network/stat"
        (.response 200 (.value (.obj [("total_sent", .str "0")])))))) exampleCfg "/network/stat" =
      .response 200 (.value (.obj [("total_sent", .str "0")])) ∧
    nodeBandwidthStats (envOf (nodeOf exampleCfg (healthyExcept "/network/stat"
        (.response 200 (.value (.obj [("total_sent", .str "0")])))))) exampleCfg Trace.start =
      (⟨["http://node.example/network/stat"], [], [], []⟩, .error .panic) ∧
    nodeBandwidthStats (envOf (nodeOf exampleCfg (healthyExcept "/network/stat"
        (.response 200 (.value (.obj [("total_sent", .str "0"), ("total_recv", .num 2048)]))))))
      exampleCfg Trace.start =
      (⟨["http://node.example/network/stat"], [], [], []⟩, .error .panic) ∧
    ¬ ∃ t msg, nodeBandwidthStats (envOf (nodeOf exampleCfg (healthyExcept "/network/stat"
        (.response 200 (.value (.obj [("total_sent", .str "0")])))))) exampleCfg Trace.start =
      (t, .ok (some msg)) := by
  have h : nodeBandwidthStats (envOf (nodeOf exampleCfg (healthyExcept "/network/stat"
        (.response 200 (.value (.obj [("total_sent", .str "0")])))))) exampleCfg Trace.start =
      (⟨["http://node.example/network/stat"], [], [], []⟩, .error .panic) := rfl
  refine ⟨rfl, h, rfl, ?_⟩
  rintro ⟨t, msg, hm⟩
  rw [h] at hm
  simp at hm

/-- C10 (amended): for every bandwidth-stats probe result with status 200 and no error whose
`total_sent` is the string `0` (which `strconv.ParseFloat` reads as zero), `nodeBandwidthStats`
never passes, and it returns a Failed outcome whatever string `total_recv` is; more generally,
for every probe result, the check passes only when `total_sent` and `total_recv` are strings that
both parse to non-zero numbers. -/
theorem zero_total_sent_fails (env : Env) (cfg : Config) (t : Trace) (sc : Int) (body : Body)
    (hr : probe env cfg "/network/stat" = .response sc body) :
    (env.parseFloat "0" = 0 → sc = 200 → body.err = none →
      body.payload.field "total_sent" = .str "0" →
      (∀ t', nodeBandwidthStats env cfg t ≠ (t', .ok none)) ∧
      (∀ recv, body.payload.field "total_recv" = .str recv →
        ∃ t' msg, nodeBandwidthStats env cfg t = (t', .ok (some msg)))) ∧
    (∀ t', nodeBandwidthStats env cfg t = (t', .ok none) →
      ∃ sent recv, body.payload.field "total_sent" = .str sent ∧
        body.payload.field "total_recv" = .str recv ∧
        env.parseFloat sent ≠ 0 ∧ env.parseFloat recv ≠ 0) := by
  obtain ⟨payload, err⟩ := body
  have general : ∀ t', nodeBandwidthStats env cfg t = (t', .ok none) →
      ∃ sent recv, payload.field "total_sent" = .str sent ∧
        payload.field "total_recv" = .str recv ∧
        env.parseFloat sent ≠ 0 ∧ env.parseFloat recv ≠ 0 := by
    intro t' hpass
    cases hf : fieldsPresent .bandwidth payload with
    | false =>
      rw [nodeBandwidthStats_panics env cfg t sc ⟨payload, err⟩ hr hf] at hpass
      simp at hpass
    | true =>
      obtain ⟨data, sent, recv, hv, hs, hrv⟩ := bandwidth_fields hf
      subst hv
      obtain ⟨t1, o, ho, hiff⟩ :=
        nodeBandwidthStats_eval env cfg t sc data sent recv err hr hs hrv
      rw [ho] at hpass
      simp only [Prod.mk.injEq, Except.ok.injEq] at hpass
      exact ⟨sent, recv, hs, hrv, (hiff.mp hpass.2).2.2⟩
  refine ⟨fun hzero _ _ hsent => ⟨fun t' hpass => ?_, fun recv hrecv => ?_⟩, general⟩
  · obtain ⟨sent, recv, hs, -, hne, -⟩ := general t' hpass
    simp only at hsent
    rw [hsent] at hs
    simp only [Value.str.injEq] at hs
    exact hne (hs ▸ hzero)
  · cases payload with
    | obj data =>
      simp only [Value.field] at hsent hrecv
      obtain ⟨t1, o, ho, hiff⟩ :=
        nodeBandwidthStats_eval env cfg t sc data "0" recv err hr hsent hrecv
      cases o with
      | none => exact absurd hzero (hiff.mp rfl).2.2.1
      | some msg => exact ⟨t1, msg, ho⟩
    | _ => simp [Value.field] at hsent

/-- Witness of C10 (amended): a node that has sent nothing and received 2048 bytes. -/
theorem zero_total_sent_fails_witness :
    digitsParseFloat "0" = 0 ∧
    ∃ t' msg, nodeBandwidthStats (envOf (nodeOf exampleCfg (healthyExcept "/network/stat"
        (.response 200
          (.value (.obj [("total_sent", .str "0"), ("total_recv", .str "2048")]))))))
      exampleCfg Trace.start = (t', .ok (some msg)) :=
  ⟨by decide,
   ((zero_total_sent_fails (envOf (nodeOf exampleCfg (healthyExcept "/network/stat"
        (.response 200
          (.value (.obj [("total_sent", .str "0"), ("total_recv", .str "2048")]))))))
      exampleCfg Trace.start 200
      (.value (.obj [("total_sent", .str "0"), ("total_recv", .str "2048")])) rfl).1
      (by decide) rfl rfl rfl).2 "2048" rfl⟩

/-! ## Each check is the common pattern at its row of the endpoint table -/

theorem knownHeadsOfChain_eq_runCheck (env : Env) (cfg : Config) (t : Trace) :
    knownHeadsOfChain env cfg t =
      runCheck env cfg ⟨"/chains/" ++ cfg.sysChain ++ "/blocks", .array, .none⟩ t := by
  simp only [knownHeadsOfChain, tezosGetSlice, runCheck, evaluate, inspect, decodedErr, decodedData,
    isEmptyData, branchOf, Value.field, Value.items]
  cases env.httpGet (getURL cfg ("/chains/" ++ cfg.sysChain ++ "/blocks")) with
  | transportError err => rfl
  | response sc body =>
    simp only []
    split_ifs <;> simp_all

theorem headBlockDetails_eq_runCheck (env : Env) (cfg : Config) (t : Trace) :
    headBlockDetails env cfg t =
      runCheck env cfg ⟨"/chains/" ++ cfg.sysChain ++ "/blocks/head", .object, .none⟩ t := by
  simp only [headBlockDetails, tezosGetMap, runCheck, evaluate, inspect, decodedErr, decodedData,
    isEmptyData, branchOf, Value.field, Value.items]
  cases env.httpGet (getURL cfg ("/chains/" ++ cfg.sysChain ++ "/blocks/head")) with
  | transportError err => rfl
  | response sc body =>
    simp only []
    split_ifs <;> simp_all

theorem chainIdentifier_eq_runCheck (env : Env) (cfg : Config) (t : Trace) :
    chainIdentifier env cfg t =
      runCheck env cfg ⟨"/chains/" ++ cfg.sysChain ++ "/chain_id", .string, .none⟩ t := by
  simp only [chainIdentifier, tezosGetString, runCheck, evaluate, inspect, decodedErr, decodedData,
    isEmptyData, branchOf, Value.field, Value.items]
  cases env.httpGet (getURL cfg ("/chains/" ++ cfg.sysChain ++ "/chain_id")) with
  | transportError err => rfl
  | response sc body =>
    simp only []
    split_ifs <;> simp_all

theorem currentCheckpoint_eq_runCheck (env : Env) (cfg : Config) (t : Trace) :
    currentCheckpoint env cfg t =
      runCheck env cfg ⟨"/chains/" ++ cfg.sysChain ++ "/checkpoint", .object, .checkpoint⟩ t := by
  simp only [currentCheckpoint, tezosGetMap, runCheck, evaluate, inspect, decodedErr, decodedData,
    isEmptyData, branchOf, Value.field, Value.items]
  cases env.httpGet (getURL cfg ("/chains/" ++ cfg.sysChain ++ "/checkpoint")) with
  | transportError err => rfl
  | response sc body =>
    simp only []
    cases assertMap (index (decodeMap body).1 "block") with
    | error a => rfl
    | ok block =>
      simp only []
      cases assertFloat64 (index block "level") with
      | error a => rfl
      | ok level =>
        simp only []
        split_ifs <;> simp_all

theorem rpcDocs_eq_runCheck (env : Env) (cfg : Config) (t : Trace) :
    rpcDocs env cfg t =
      runCheck env cfg ⟨"/describe?recurse=true", .object, .none⟩ t := by
  simp only [rpcDocs, tezosGetMap, runCheck, evaluate, inspect, decodedErr, decodedData,
    isEmptyData, branchOf, Value.field, Value.items]
  cases env.httpGet (getURL cfg "/describe?recurse=true") with
  | transportError err => rfl
  | response sc body =>
    simp only []
    split_ifs <;> simp_all

theorem listP2PConnections_eq_runCheck (env : Env) (cfg : Config) (t : Trace) :
    listP2PConnections env cfg t =
      runCheck env cfg ⟨"/network/connections", .array, .none⟩ t := by
  simp only [listP2PConnections, tezosGetSlice, runCheck, evaluate, inspect, decodedErr,
      decodedData,
    isEmptyData, branchOf, Value.field, Value.items]
  cases env.httpGet (getURL cfg "/network/connections") with
  | transportError err => rfl
  | response sc body =>
    simp only []
    split_ifs <;> simp_all

theorem listPeers_eq_runCheck (env : Env) (cfg : Config) (t : Trace) :
    listPeers env cfg t =
      runCheck env cfg ⟨"/network/peers", .array, .none⟩ t := by
  simp only [listPeers, tezosGetSlice, runCheck, evaluate, inspect, decodedErr, decodedData,
    isEmptyData, branchOf, Value.field, Value.items]
  cases env.httpGet (getURL cfg "/network/peers") with
  | transportError err => rfl
  | response sc body =>
    simp only []
    split_ifs <;> simp_all

theorem listPoolConnectionPoints_eq_runCheck (env : Env) (cfg : Config) (t : Trace) :
    listPoolConnectionPoints env cfg t =
      runCheck env cfg ⟨"/network/points", .array, .none⟩ t := by
  simp only [listPoolConnectionPoints, tezosGetSlice, runCheck, evaluate, inspect, decodedErr,
      decodedData,
    isEmptyData, branchOf, Value.field, Value.items]
  cases env.httpGet (getURL cfg "/network/points") with
  | transportError err => rfl
  | response sc body =>
    simp only []
    split_ifs <;> simp_all

theorem selfPeerID_eq_runCheck (env : Env) (cfg : Config) (t : Trace) :
    selfPeerID env cfg t =
      runCheck env cfg ⟨"/network/self", .string, .none⟩ t := by
  simp only [selfPeerID, tezosGetString, runCheck, evaluate, inspect, decodedErr, decodedData,
    isEmptyData, branchOf, Value.field, Value.items]
  cases env.httpGet (getURL cfg "/network/self") with
  | transportError err => rfl
  | response sc body =>
    simp only []
    split_ifs <;> simp_all

theorem nodeBandwidthStats_eq_runCheck (env : Env) (cfg : Config) (t : Trace) :
    nodeBandwidthStats env cfg t =
      runCheck env cfg ⟨"/network/stat", .object, .bandwidth⟩ t := by
  simp only [nodeBandwidthStats, tezosGetMap, runCheck, evaluate, inspect, decodedErr, decodedData,
    isEmptyData, branchOf, Value.field, Value.items]
  cases env.httpGet (getURL cfg "/network/stat") with
  | transportError err => rfl
  | response sc body =>
    simp only []
    cases assertString (index (decodeMap body).1 "total_sent") with
    | error a => rfl
    | ok block =>
      simp only []
      cases assertString (index (decodeMap body).1 "total_recv") with
      | error a => rfl
      | ok level =>
        simp only []
        split_ifs <;> simp_all

theorem supportedNetworkVersion_eq_runCheck (env : Env) (cfg : Config) (t : Trace) :
    supportedNetworkVersion env cfg t =
      runCheck env cfg ⟨"/network/version", .object, .none⟩ t := by
  simp only [supportedNetworkVersion, tezosGetMap, runCheck, evaluate, inspect, decodedErr,
      decodedData,
    isEmptyData, branchOf, Value.field, Value.items]
  cases env.httpGet (getURL cfg "/network/version") with
  | transportError err => rfl
  | response sc body =>
    simp only []
    split_ifs <;> simp_all

theorem listProtocols_eq_runCheck (env : Env) (cfg : Config) (t : Trace) :
    listProtocols env cfg t =
      runCheck env cfg ⟨"/protocols", .array, .none⟩ t := by
  simp only [listProtocols, tezosGetSlice, runCheck, evaluate, inspect, decodedErr, decodedData,
    isEmptyData, branchOf, Value.field, Value.items]
  cases env.httpGet (getURL cfg "/protocols") with
  | transportError err => rfl
  | response sc body =>
    simp only []
    split_ifs <;> simp_all

theorem garbageCollectorStats_eq_runCheck (env : Env) (cfg : Config) (t : Trace) :
    garbageCollectorStats env cfg t =
      runCheck env cfg ⟨"/stats/gc", .object, .none⟩ t := by
  simp only [garbageCollectorStats, tezosGetMap, runCheck, evaluate, inspect, decodedErr,
      decodedData,
    isEmptyData, branchOf, Value.field, Value.items]
  cases env.httpGet (getURL cfg "/stats/gc") with
  | transportError err => rfl
  | response sc body =>
    simp only []
    split_ifs <;> simp_all

theorem memoryUsageStats_eq_runCheck (env : Env) (cfg : Config) (t : Trace) :
    memoryUsageStats env cfg t =
      runCheck env cfg ⟨"/stats/memory", .object, .none⟩ t := by
  simp only [memoryUsageStats, tezosGetMap, runCheck, evaluate, inspect, decodedErr, decodedData,
    isEmptyData, branchOf, Value.field, Value.items]
  cases env.httpGet (getURL cfg "/stats/memory") with
  | transportError err => rfl
  | response sc body =>
    simp only []
    split_ifs <;> simp_all

theorem blockValidatorWorkerState_eq_runCheck (env : Env) (cfg : Config) (t : Trace) :
    blockValidatorWorkerState env cfg t =
      runCheck env cfg ⟨"/workers/block_validator", .object, .workerState⟩ t := by
  simp only [blockValidatorWorkerState, tezosGetMap, runCheck, evaluate, inspect, decodedErr,
      decodedData,
    isEmptyData, branchOf, Value.field, Value.items]
  cases env.httpGet (getURL cfg "/workers/block_validator") with
  | transportError err => rfl
  | response sc body =>
    simp only []
    cases assertMap (index (decodeMap body).1 "status") with
    | error a => rfl
    | ok status =>
      simp only []
      split_ifs <;> simp_all

theorem listChainValidators_eq_runCheck (env : Env) (cfg : Config) (t : Trace) :
    listChainValidators env cfg t =
      runCheck env cfg ⟨"/workers/chain_validators", .array, .none⟩ t := by
  simp only [listChainValidators, tezosGetSlice, runCheck, evaluate, inspect, decodedErr,
      decodedData,
    isEmptyData, branchOf, Value.field, Value.items]
  cases env.httpGet (getURL cfg "/workers/chain_validators") with
  | transportError err => rfl
  | response sc body =>
    simp only []
    split_ifs <;> simp_all

theorem chainValidatorWorkerState_eq_runCheck (env : Env) (cfg : Config) (t : Trace) :
    chainValidatorWorkerState env cfg t =
      runCheck env cfg ⟨"/workers/chain_validators/" ++ cfg.sysChain, .object, .workerState⟩ t := by
  simp only [chainValidatorWorkerState, tezosGetMap, runCheck, evaluate, inspect, decodedErr,
      decodedData,
    isEmptyData, branchOf, Value.field, Value.items]
  cases env.httpGet (getURL cfg ("/workers/chain_validators/" ++ cfg.sysChain)) with
  | transportError err => rfl
  | response sc body =>
    simp only []
    cases assertMap (index (decodeMap body).1 "status") with
    | error a => rfl
    | ok status =>
      simp only []
      split_ifs <;> simp_all

theorem workerDDBState_eq_runCheck (env : Env) (cfg : Config) (t : Trace) :
    workerDDBState env cfg t =
      runCheck env cfg ⟨"/workers/chain_validators/" ++ cfg.sysChain ++ "/ddb", .object,
          .ddb⟩ t := by
  simp only [workerDDBState, tezosGetMap, runCheck, evaluate, inspect, decodedErr, decodedData,
    isEmptyData, branchOf, Value.field, Value.items]
  cases env.httpGet (getURL cfg ("/workers/chain_validators/" ++ cfg.sysChain ++ "/ddb")) with
  | transportError err => rfl
  | response sc body =>
    simp only []
    cases assertFloat64 (index (decodeMap body).1 "active_chains") with
    | error a => rfl
    | ok block =>
      simp only []
      cases assertFloat64 (index (decodeMap body).1 "active_connections") with
      | error a => rfl
      | ok level =>
        simp only []
        split_ifs <;> simp_all

theorem listValidatorWorkers_eq_runCheck (env : Env) (cfg : Config) (t : Trace) :
    listValidatorWorkers env cfg t =
      runCheck env cfg ⟨"/workers/chain_validators/" ++ cfg.sysChain ++ "/peers_validators",
          .array, .none⟩ t := by
  simp only [listValidatorWorkers, tezosGetSlice, runCheck, evaluate, inspect, decodedErr,
      decodedData,
    isEmptyData, branchOf, Value.field, Value.items]
  cases env.httpGet (getURL cfg ("/workers/chain_validators/" ++ cfg.sysChain ++ "/peers_validators")) with
  | transportError err => rfl
  | response sc body =>
    simp only []
    split_ifs <;> simp_all

theorem listPrevalidators_eq_runCheck (env : Env) (cfg : Config) (t : Trace) :
    listPrevalidators env cfg t =
      runCheck env cfg ⟨"/workers/prevalidators", .array, .prevalidators⟩ t := by
  simp only [listPrevalidators, tezosGetSlice, runCheck, evaluate, inspect, decodedErr, decodedData,
    isEmptyData, branchOf, Value.field, Value.items]
  cases env.httpGet (getURL cfg "/workers/prevalidators") with
  | transportError err => rfl
  | response sc body =>
    simp only []
    cases first (decodeSlice body).1 with
    | error a => rfl
    | ok v =>
      simp only []
      cases assertMap v with
      | error a => rfl
      | ok prevalidator =>
        simp only []
        cases assertMap (index prevalidator "status") with
        | error a => rfl
        | ok status =>
          simp only []
          split_ifs <;> simp_all

theorem stateOfPrevalidator_eq_runCheck (env : Env) (cfg : Config) (t : Trace) :
    stateOfPrevalidator env cfg t =
      runCheck env cfg ⟨"/workers/prevalidators/" ++ cfg.sysChain, .object, .workerState⟩ t := by
  simp only [stateOfPrevalidator, tezosGetMap, runCheck, evaluate, inspect, decodedErr, decodedData,
    isEmptyData, branchOf, Value.field, Value.items]
  cases env.httpGet (getURL cfg ("/workers/prevalidators/" ++ cfg.sysChain)) with
  | transportError err => rfl
  | response sc body =>
    simp only []
    cases assertMap (index (decodeMap body).1 "status") with
    | error a => rfl
    | ok status =>
      simp only []
      split_ifs <;> simp_all

theorem checkTable_runCheck (env : Env) (cfg : Config) :
    ∀ p ∈ checkTable env cfg, p.2 = runCheck env cfg p.1 := by
  simp only [checkTable, endpoints, tests, List.zip, List.zipWith, List.forall_mem_cons,
    List.not_mem_nil, false_implies, implies_true, and_true]
  exact ⟨funext (fun t => knownHeadsOfChain_eq_runCheck env cfg t),
    funext (fun t => headBlockDetails_eq_runCheck env cfg t),
    funext (fun t => chainIdentifier_eq_runCheck env cfg t),
    funext (fun t => currentCheckpoint_eq_runCheck env cfg t),
    funext (fun t => rpcDocs_eq_runCheck env cfg t),
    funext (fun t => listP2PConnections_eq_runCheck env cfg t),
    funext (fun t => listPeers_eq_runCheck env cfg t),
    funext (fun t => listPoolConnectionPoints_eq_runCheck env cfg t),
    funext (fun t => selfPeerID_eq_runCheck env cfg t),
    funext (fun t => nodeBandwidthStats_eq_runCheck env cfg t),
    funext (fun t => supportedNetworkVersion_eq_runCheck env cfg t),
    funext (fun t => listProtocols_eq_runCheck env cfg t),
    funext (fun t => garbageCollectorStats_eq_runCheck env cfg t),
    funext (fun t => memoryUsageStats_eq_runCheck env cfg t),
    funext (fun t => blockValidatorWorkerState_eq_runCheck env cfg t),
    funext (fun t => listChainValidators_eq_runCheck env cfg t),
    funext (fun t => chainValidatorWorkerState_eq_runCheck env cfg t),
    funext (fun t => workerDDBState_eq_runCheck env cfg t),
    funext (fun t => listValidatorWorkers_eq_runCheck env cfg t),
    funext (fun t => listPrevalidators_eq_runCheck env cfg t),
    funext (fun t => stateOfPrevalidator_eq_runCheck env cfg t)⟩

theorem tests_eq_map (env : Env) (cfg : Config) :
    tests env cfg = (endpoints cfg.sysChain).map (runCheck env cfg) := by
  simp only [tests, endpoints, List.map]
  simp only [List.cons.injEq, and_true]
  exact ⟨funext (fun t => knownHeadsOfChain_eq_runCheck env cfg t),
    funext (fun t => headBlockDetails_eq_runCheck env cfg t),
    funext (fun t => chainIdentifier_eq_runCheck env cfg t),
    funext (fun t => currentCheckpoint_eq_runCheck env cfg t),
    funext (fun t => rpcDocs_eq_runCheck env cfg t),
    funext (fun t => listP2PConnections_eq_runCheck env cfg t),
    funext (fun t => listPeers_eq_runCheck env cfg t),
    funext (fun t => listPoolConnectionPoints_eq_runCheck env cfg t),
    funext (fun t => selfPeerID_eq_runCheck env cfg t),
    funext (fun t => nodeBandwidthStats_eq_runCheck env cfg t),
    funext (fun t => supportedNetworkVersion_eq_runCheck env cfg t),
    funext (fun t => listProtocols_eq_runCheck env cfg t),
    funext (fun t => garbageCollectorStats_eq_runCheck env cfg t),
    funext (fun t => memoryUsageStats_eq_runCheck env cfg t),
    funext (fun t => blockValidatorWorkerState_eq_runCheck env cfg t),
    funext (fun t => listChainValidators_eq_runCheck env cfg t),
    funext (fun t => chainValidatorWorkerState_eq_runCheck env cfg t),
    funext (fun t => workerDDBState_eq_runCheck env cfg t),
    funext (fun t => listValidatorWorkers_eq_runCheck env cfg t),
    funext (fun t => listPrevalidators_eq_runCheck env cfg t),
    funext (fun t => stateOfPrevalidator_eq_runCheck env cfg t)⟩

/-! ## Facts about the common pattern -/

theorem branchOf_ne_unknown (errPresent : Bool) (statusCode : Int) (empty predicateFails : Bool) :
    branchOf errPresent statusCode empty predicateFails ≠ .unknown := by
  unfold branchOf
  split_ifs with h1 h2 h3 h4
  · simp
  · simp
  · simp
  · simp
  · exact absurd (by_contra fun h => h2 (Or.inl h)) h4

theorem evaluate_cases (env : Env) (e : Endpoint) (sc : Int) (body : Body) (t : Trace) :
    (∃ a, evaluate env e sc body t = (t, .error a)) ∨
      ∃ line o, evaluate env e sc body t = (t.print line, .ok o) := by
  unfold evaluate
  cases inspect env e.path sc e.predicate (decodedData e.shape body) with
  | error a => exact Or.inl ⟨a, rfl⟩
  | ok failure =>
    right
    simp only []
    cases branchOf (decodedErr e.shape body).isSome sc (isEmptyData (decodedData e.shape body))
      failure.isSome <;> exact ⟨_, _, rfl⟩

theorem runCheck_cases (env : Env) (cfg : Config) (e : Endpoint) (t : Trace) :
    (∃ a, runCheck env cfg e t = (t.request (getURL cfg e.path), .error a)) ∨
    (∃ line a, runCheck env cfg e t = ((t.request (getURL cfg e.path)).print line, .error a)) ∨
    ∃ line o, runCheck env cfg e t = ((t.request (getURL cfg e.path)).print line, .ok o) := by
  unfold runCheck
  cases env.httpGet (getURL cfg e.path) with
  | transportError err => exact Or.inr (Or.inl ⟨err, .fatal, rfl⟩)
  | response sc body =>
    rcases evaluate_cases env e sc body (t.request (getURL cfg e.path)) with ⟨a, h⟩ | ⟨l, o, h⟩
    · exact Or.inl ⟨a, h⟩
    · exact Or.inr (Or.inr ⟨l, o, h⟩)

theorem runCheck_requests (env : Env) (cfg : Config) (e : Endpoint) (t : Trace) :
    (runCheck env cfg e t).1.requests = t.requests ++ [getURL cfg e.path] := by
  rcases runCheck_cases env cfg e t with ⟨a, h⟩ | ⟨l, a, h⟩ | ⟨l, o, h⟩ <;> rw [h] <;> rfl

theorem runCheck_transportError (env : Env) (cfg : Config) (e : Endpoint) (t : Trace)
    (err : String) (h : probe env cfg e.path = .transportError err) :
    runCheck env cfg e t = ((t.request (getURL cfg e.path)).print err, .error .fatal) := by
  simp only [runCheck, show env.httpGet _ = _ from h]

theorem runCheck_response (env : Env) (cfg : Config) (e : Endpoint) (t : Trace)
    (sc : Int) (body : Body) (h : probe env cfg e.path = .response sc body) :
    runCheck env cfg e t = evaluate env e sc body (t.request (getURL cfg e.path)) := by
  simp only [runCheck, show env.httpGet _ = _ from h]

theorem test_trace (runner : testRunner) (f : Trace → Run (Option String)) (t : Trace) :
    (runner.test f t).1 = (f t).1 := by
  unfold testRunner.test
  split <;> simp_all

/-! ## The requests of a run -/

theorem testAll_requests_prefix (env : Env) (cfg : Config) (es : List Endpoint) :
    ∀ (runner : testRunner) (t : Trace), ∃ j, j ≤ es.length ∧
      (runner.testAll (es.map (runCheck env cfg)) t).1.requests =
        t.requests ++ (es.map (fun e => getURL cfg e.path)).take j := by
  induction es with
  | nil => exact fun runner t => ⟨0, le_refl _, by simp [testRunner.testAll]⟩
  | cons e es ih =>
    intro runner t
    have hreq := runCheck_requests env cfg e t
    rw [← test_trace runner] at hreq
    simp only [List.map_cons, testRunner.testAll]
    cases hstep : runner.test (runCheck env cfg e) t with
    | mk t1 r1 =>
      rw [hstep] at hreq
      cases r1 with
      | error a =>
        exact ⟨1, by simp, by simpa using hreq⟩
      | ok runner1 =>
        obtain ⟨j, hj, h⟩ := ih runner1 t1
        refine ⟨j + 1, by simpa using hj, ?_⟩
        simp only [h, show t1.requests = _ from hreq, List.take_succ_cons, List.append_assoc,
          List.singleton_append]

theorem testAll_requests_returned (env : Env) (cfg : Config) (es : List Endpoint) :
    ∀ (runner runner' : testRunner) (t t' : Trace),
      runner.testAll (es.map (runCheck env cfg)) t = (t', .ok runner') →
      t'.requests = t.requests ++ es.map (fun e => getURL cfg e.path) := by
  induction es with
  | nil =>
    intro runner runner' t t' h
    simp only [List.map_nil, testRunner.testAll, Prod.mk.injEq] at h
    simp [← h.1]
  | cons e es ih =>
    intro runner runner' t t' h
    have hreq := runCheck_requests env cfg e t
    rw [← test_trace runner] at hreq
    simp only [List.map_cons, testRunner.testAll] at h
    cases hstep : runner.test (runCheck env cfg e) t with
    | mk t1 r1 =>
      rw [hstep] at hreq h
      cases r1 with
      | error a => simp at h
      | ok runner1 =>
        have := ih runner1 runner' t1 t' h
        simp only [this, show t1.requests = _ from hreq, List.map_cons, List.append_assoc,
          List.singleton_append]

theorem endpoints_length (chain : String) : (endpoints chain).length = 21 := rfl

theorem endpoints_paths_nodup (chain : String) :
    ((endpoints chain).map (fun e => e.path)).Nodup := by
  simp [endpoints, String.ext_iff, String.data_append]

theorem runCheck_returns (env : Env) (cfg : Config) :
    ∀ e ∈ endpoints cfg.sysChain, e.wellShaped (probe env cfg e.path) = true →
      ∀ t, ∃ t' o, runCheck env cfg e t = (t', .ok o) := by
  simp only [endpoints, List.forall_mem_cons, List.not_mem_nil, false_implies, implies_true,
    and_true]
  exact ⟨fun h t => knownHeadsOfChain_eq_runCheck env cfg t ▸
      knownHeadsOfChain_returns env cfg t (wellShaped_answered h),
    fun h t => headBlockDetails_eq_runCheck env cfg t ▸
      headBlockDetails_returns env cfg t (wellShaped_answered h),
    fun h t => chainIdentifier_eq_runCheck env cfg t ▸
      chainIdentifier_returns env cfg t (wellShaped_answered h),
    fun h t => currentCheckpoint_eq_runCheck env cfg t ▸
      currentCheckpoint_returns env cfg t h,
    fun h t => rpcDocs_eq_runCheck env cfg t ▸
      rpcDocs_returns env cfg t (wellShaped_answered h),
    fun h t => listP2PConnections_eq_runCheck env cfg t ▸
      listP2PConnections_returns env cfg t (wellShaped_answered h),
    fun h t => listPeers_eq_runCheck env cfg t ▸
      listPeers_returns env cfg t (wellShaped_answered h),
    fun h t => listPoolConnectionPoints_eq_runCheck env cfg t ▸
      listPoolConnectionPoints_returns env cfg t (wellShaped_answered h),
    fun h t => selfPeerID_eq_runCheck env cfg t ▸
      selfPeerID_returns env cfg t (wellShaped_answered h),
    fun h t => nodeBandwidthStats_eq_runCheck env cfg t ▸
      nodeBandwidthStats_returns env cfg t h,
    fun h t => supportedNetworkVersion_eq_runCheck env cfg t ▸
      supportedNetworkVersion_returns env cfg t (wellShaped_answered h),
    fun h t => listProtocols_eq_runCheck env cfg t ▸
      listProtocols_returns env cfg t (wellShaped_answered h),
    fun h t => garbageCollectorStats_eq_runCheck env cfg t ▸
      garbageCollectorStats_returns env cfg t (wellShaped_answered h),
    fun h t => memoryUsageStats_eq_runCheck env cfg t ▸
      memoryUsageStats_returns env cfg t (wellShaped_answered h),
    fun h t => blockValidatorWorkerState_eq_runCheck env cfg t ▸
      blockValidatorWorkerState_returns env cfg t h,
    fun h t => listChainValidators_eq_runCheck env cfg t ▸
      listChainValidators_returns env cfg t (wellShaped_answered h),
    fun h t => chainValidatorWorkerState_eq_runCheck env cfg t ▸
      chainValidatorWorkerState_returns env cfg t h,
    fun h t => workerDDBState_eq_runCheck env cfg t ▸
      workerDDBState_returns env cfg t h,
    fun h t => listValidatorWorkers_eq_runCheck env cfg t ▸
      listValidatorWorkers_returns env cfg t (wellShaped_answered h),
    fun h t => listPrevalidators_eq_runCheck env cfg t ▸
      listPrevalidators_returns env cfg t h,
    fun h t => stateOfPrevalidator_eq_runCheck env cfg t ▸
      stateOfPrevalidator_returns env cfg t h⟩

/-! ## A run that a check aborts -/

theorem runCheck_returned_trace (env : Env) (cfg : Config) (e : Endpoint) (t t' : Trace)
    (o : Option String) (h : runCheck env cfg e t = (t', .ok o)) :
    ∃ line, t' = (t.request (getURL cfg e.path)).print line := by
  rcases runCheck_cases env cfg e t with ⟨a, h'⟩ | ⟨l, a, h'⟩ | ⟨l, o', h'⟩
  · rw [h'] at h
    simp at h
  · rw [h'] at h
    simp at h
  · rw [h'] at h
    simp only [Prod.mk.injEq] at h
    exact ⟨l, h.1.symm⟩

theorem testAll_append (fs gs : List (Trace → Run (Option String))) :
    ∀ (runner : testRunner) (t : Trace),
      runner.testAll (fs ++ gs) t =
        match runner.testAll fs t with
        | (t1, .error a) => (t1, .error a)
        | (t1, .ok runner1) => runner1.testAll gs t1 := by
  induction fs with
  | nil => exact fun runner t => rfl
  | cons f fs ih =>
    intro runner t
    simp only [List.cons_append, testRunner.testAll]
    cases runner.test f t with
    | mk t1 r1 =>
      cases r1 with
      | error a => rfl
      | ok runner1 => exact ih runner1 t1

theorem testAll_returned_trace (env : Env) (cfg : Config) (es : List Endpoint)
    (hes : ∀ e ∈ es, ∀ t, ∃ t' o, runCheck env cfg e t = (t', .ok o)) :
    ∀ (runner : testRunner) (t : Trace), ∃ t' runner',
      runner.testAll (es.map (runCheck env cfg)) t = (t', .ok runner') ∧
      t'.requests = t.requests ++ es.map (fun e => getURL cfg e.path) ∧
      t'.log.length = t.log.length + es.length := by
  induction es with
  | nil => exact fun runner t => ⟨t, runner, rfl, by simp, by simp⟩
  | cons e es ih =>
    intro runner t
    obtain ⟨t1, o, ho⟩ := hes e (List.mem_cons_self e es) t
    obtain ⟨line, hline⟩ := runCheck_returned_trace env cfg e t t1 o ho
    obtain ⟨runner1, h1, -⟩ := test_of_returned runner ho
    obtain ⟨t', runner', h', hreq, hlog⟩ :=
      ih (fun e' he' => hes e' (List.mem_cons_of_mem e he')) runner1 t1
    refine ⟨t', runner', by simp only [List.map_cons, testRunner.testAll, h1, h'], ?_, ?_⟩
    · rw [hreq, hline]
      simp [Trace.request, Trace.print]
    · rw [hlog, hline]
      simp [Trace.request, Trace.print]
      omega

theorem testAll_aborts (env : Env) (cfg : Config) (e : Endpoint) (post : List Endpoint)
    (he : ∀ t, ∃ t' a, runCheck env cfg e t = (t', .error a)) (pre : List Endpoint) :
    ∀ (runner : testRunner) (t : Trace), ∃ t' a j,
      runner.testAll ((pre ++ e :: post).map (runCheck env cfg)) t = (t', .error a) ∧
      j ≤ pre.length + 1 ∧
      t'.requests = t.requests ++ ((pre ++ e :: post).map (fun e => getURL cfg e.path)).take j := by
  induction pre with
  | nil =>
    intro runner t
    obtain ⟨t', a, h⟩ := he t
    have hreq := runCheck_requests env cfg e t
    rw [h] at hreq
    exact ⟨t', a, 1, by simp only [List.nil_append, List.map_cons, testRunner.testAll,
      test_of_aborted h], by simp, by simpa using hreq⟩
  | cons e' pre ih =>
    intro runner t
    have hreq := runCheck_requests env cfg e' t
    rw [← test_trace runner] at hreq
    simp only [List.cons_append, List.map_cons, testRunner.testAll]
    cases hstep : runner.test (runCheck env cfg e') t with
    | mk t1 r1 =>
      rw [hstep] at hreq
      cases r1 with
      | error a => exact ⟨t1, a, 1, rfl, by simp, by simpa using hreq⟩
      | ok runner1 =>
        obtain ⟨t', a, j, h, hj, hr⟩ := ih runner1 t1
        refine ⟨t', a, j + 1, h, by simpa using hj, ?_⟩
        simp only [hr, show t1.requests = _ from hreq, List.take_succ_cons, List.append_assoc,
          List.singleton_append]

theorem runAllTests_trace (env : Env) (cfg : Config) (t : Trace) :
    (runAllTests env cfg t).1 = (runChecks env cfg t).1 := by
  unfold runAllTests
  split <;> simp_all

theorem runChecks_eq (env : Env) (cfg : Config) (t : Trace) :
    runChecks env cfg t =
      testRunner.testAll ⟨0, 0⟩ ((endpoints cfg.sysChain).map (runCheck env cfg)) t := by
  rw [runChecks, tests_eq_map]

/-! ## Claims C11 to C20 -/

theorem isRunning_iff (v : Value) : v.isRunning = true ↔ v = .str "running" := by
  cases v <;> simp [Value.isRunning]

/-- C11: for each of the three worker-state checks (`blockValidatorWorkerState`,
`chainValidatorWorkerState`, `stateOfPrevalidator`) and every probe result with no error, status
200 and a payload containing a `status` object, the check returns an outcome, and it passes if
and only if `status.phase` is exactly the string `running`; any other value, a value that is not
a string or an absent `phase` yields Failed. -/
theorem worker_state_passes_iff_running (env : Env) (cfg : Config) (t : Trace)
    (data status : List (String × Value)) (hs : index data "status" = .obj status) :
    (probe env cfg "/workers/block_validator" = .response 200 ⟨.obj data, none⟩ →
      ∃ t' o, blockValidatorWorkerState env cfg t = (t', .ok o) ∧
        (o = none ↔ index status "phase" = .str "running") ∧
        (index status "phase" ≠ .str "running" → ∃ msg, o = some msg)) ∧
    (probe env cfg ("/workers/chain_validators/" ++ cfg.sysChain) =
        .response 200 ⟨.obj data, none⟩ →
      ∃ t' o, chainValidatorWorkerState env cfg t = (t', .ok o) ∧
        (o = none ↔ index status "phase" = .str "running") ∧
        (index status "phase" ≠ .str "running" → ∃ msg, o = some msg)) ∧
    (probe env cfg ("/workers/prevalidators/" ++ cfg.sysChain) =
        .response 200 ⟨.obj data, none⟩ →
      ∃ t' o, stateOfPrevalidator env cfg t = (t', .ok o) ∧
        (o = none ↔ index status "phase" = .str "running") ∧
        (index status "phase" ≠ .str "running" → ∃ msg, o = some msg)) := by
  have fin : ∀ o : Option String,
      (o = none ↔ none = (none : Option String) ∧ (200 : Int) = 200 ∧
        (index status "phase").isRunning = true) →
      (o = none ↔ index status "phase" = .str "running") ∧
        (index status "phase" ≠ .str "running" → ∃ msg, o = some msg) := by
    intro o hiff
    have h1 : o = none ↔ index status "phase" = .str "running" := by
      rw [hiff, isRunning_iff]
      simp
    refine ⟨h1, fun hne => ?_⟩
    cases o with
    | none => exact absurd (h1.mp rfl) hne
    | some msg => exact ⟨msg, rfl⟩
  refine ⟨fun hr => ?_, fun hr => ?_, fun hr => ?_⟩
  · obtain ⟨t', o, ho, hiff⟩ := blockValidatorWorkerState_eval env cfg t 200 data status none hr hs
    exact ⟨t', o, ho, fin o hiff⟩
  · obtain ⟨t', o, ho, hiff⟩ := chainValidatorWorkerState_eval env cfg t 200 data status none hr hs
    exact ⟨t', o, ho, fin o hiff⟩
  · obtain ⟨t', o, ho, hiff⟩ := stateOfPrevalidator_eval env cfg t 200 data status none hr hs
    exact ⟨t', o, ho, fin o hiff⟩

/-- Witness of C11: a block validator whose phase is `running` passes, and one whose `status`
object has no `phase` fails. -/
theorem worker_state_passes_iff_running_witness :
    (∃ t', blockValidatorWorkerState (envOf (nodeOf exampleCfg healthyAnswers)) exampleCfg
      Trace.start = (t', .ok none)) ∧
    ∃ t' msg, blockValidatorWorkerState (envOf (nodeOf exampleCfg (healthyExcept
        "/workers/block_validator"
        (.response 200 (.value (.obj [("status", .obj [("since", .str "now")])]))))))
      exampleCfg Trace.start = (t', .ok (some msg)) := by
  obtain ⟨t1, o1, h1, hiff1, -⟩ := (worker_state_passes_iff_running
    (envOf (nodeOf exampleCfg healthyAnswers)) exampleCfg Trace.start
    [("status", .obj [("phase", .str "running")])] [("phase", .str "running")] rfl).1 rfl
  obtain ⟨t2, o2, h2, -, hne2⟩ := (worker_state_passes_iff_running
    (envOf (nodeOf exampleCfg (healthyExcept "/workers/block_validator"
      (.response 200 (.value (.obj [("status", .obj [("since", .str "now")])]))))))
    exampleCfg Trace.start
    [("status", .obj [("since", .str "now")])] [("since", .str "now")] rfl).1 rfl
  obtain ⟨msg, hmsg⟩ := hne2 (by simp [index, List.lookup])
  exact ⟨⟨t1, by rw [h1, hiff1.mpr rfl]⟩, ⟨t2, msg, by rw [h2, hmsg]⟩⟩

/-- C12: for every DDB probe result with no error, status 200 and numeric `active_chains` and
`active_connections`, `workerDDBState` returns an outcome, and it passes if and only if both
`active_chains` and `active_connections` are non-zero. -/
theorem ddb_passes_iff_both_nonzero (env : Env) (cfg : Config) (t : Trace)
    (data : List (String × Value)) (chains conns : ℚ)
    (hr : probe env cfg ("/workers/chain_validators/" ++ cfg.sysChain ++ "/ddb") =
      .response 200 ⟨.obj data, none⟩)
    (hc : index data "active_chains" = .num chains)
    (hn : index data "active_connections" = .num conns) :
    ∃ t' o, workerDDBState env cfg t = (t', .ok o) ∧
      (o = none ↔ chains ≠ 0 ∧ conns ≠ 0) ∧
      ((chains = 0 ∨ conns = 0) → ∃ msg, o = some msg) := by
  obtain ⟨t', o, ho, hiff⟩ := workerDDBState_eval env cfg t 200 data chains conns none hr hc hn
  have h1 : o = none ↔ chains ≠ 0 ∧ conns ≠ 0 := by
    rw [hiff]
    simp
  refine ⟨t', o, ho, h1, fun hz => ?_⟩
  cases o with
  | none =>
    obtain ⟨ha, hb⟩ := h1.mp rfl
    rcases hz with hz | hz
    · exact absurd hz ha
    · exact absurd hz hb
  | some msg => exact ⟨msg, rfl⟩

/-- Witness of C12: a DDB with one active chain and eight connections passes. -/
theorem ddb_passes_iff_both_nonzero_witness :
    ∃ t', workerDDBState (envOf (nodeOf exampleCfg healthyAnswers)) exampleCfg Trace.start =
      (t', .ok none) := by
  obtain ⟨t', o, ho, hiff, -⟩ := ddb_passes_iff_both_nonzero
    (envOf (nodeOf exampleCfg healthyAnswers)) exampleCfg Trace.start
    [("active_chains", .num 1), ("active_connections", .num 8)] 1 8 rfl rfl rfl
  exact ⟨t', by rw [ho, hiff.mpr ⟨by norm_num, by norm_num⟩]⟩

/-- C13: for every base URL, path and auth token, `getURL` returns the base URL followed by the
path when the token is empty and the base URL, the path, `?auth=` and the token otherwise; with
base URL `http://node.example` and chain `main` the checkpoint check requests exactly
`http://node.example/chains/main/checkpoint`, and with the token `tok123` exactly
`http://node.example/chains/main/checkpoint?auth=tok123`. -/
theorem getURL_appends_token (env : Env) (baseURL sysChain authToken params : String)
    (t : Trace) :
    getURL ⟨baseURL, sysChain, ""⟩ params = baseURL ++ params ∧
    (authToken ≠ "" →
      getURL ⟨baseURL, sysChain, authToken⟩ params =
        baseURL ++ params ++ "?auth=" ++ authToken) ∧
    (currentCheckpoint env ⟨"http://node.example", "main", ""⟩ t).1.requests =
      t.requests ++ ["http://node.example/chains/main/checkpoint"] ∧
    (currentCheckpoint env ⟨"http://node.example", "main", "tok123"⟩ t).1.requests =
      t.requests ++ ["http://node.example/chains/main/checkpoint?auth=tok123"] := by
  refine ⟨by simp [getURL], fun h => by simp [getURL, h], ?_, ?_⟩
  · rw [currentCheckpoint_eq_runCheck, runCheck_requests]
    rfl
  · rw [currentCheckpoint_eq_runCheck, runCheck_requests]
    rfl

/-- Witness of C13: the token `tok123` on the checkpoint path. -/
theorem getURL_appends_token_witness :
    getURL ⟨"http://node.example", "main", "tok123"⟩ "/chains/main/checkpoint" =
      "http://node.example" ++ "/chains/main/checkpoint" ++ "?auth=" ++ "tok123" :=
  (getURL_appends_token (envOf unreachable) "http://node.example" "main" "tok123"
    "/chains/main/checkpoint" Trace.start).2.1 (by decide)

/-- C14, evaluated where code and claim part: base URL `http://node.example`, token `tok123` and
the path `/describe?recurse=true` of `rpcDocs`, which already has a query string.  `getURL`
appends `?auth=tok123` all the same: the URL requested has two `?`, its query (what follows the
first `?`) is the single parameter `recurse=true?auth=tok123`, and `auth=tok123` is not one of
its parameters. -/
theorem describe_url_has_two_question_marks :
    getURL ⟨"http://node.example", "main", "tok123"⟩ "/describe?recurse=true" =
      "http://node.example/describe?recurse=true?auth=tok123" ∧
    (rpcDocs (envOf (nodeOf exampleCfg healthyAnswers)) ⟨"http://node.example", "main", "tok123"⟩
      Trace.start).1.requests = ["http://node.example/describe?recurse=true?auth=tok123"] ∧
    questionMarks "http://node.example/describe?recurse=true?auth=tok123" = 2 ∧
    queryParams "http://node.example/describe?recurse=true?auth=tok123" =
      ["recurse=true?auth=tok123"] ∧
    "auth=tok123" ∉ queryParams "http://node.example/describe?recurse=true?auth=tok123" :=
  ⟨rfl, rfl, by decide, by decide, by decide⟩

/-- C15: for each of the 14 checks that have no endpoint-specific predicate and every probe
result, the check returns an outcome, and it passes if and only if no error is present, the
status code is 200 and the payload is non-empty; when an error is present the failure reason is
the one of the error (`FAILED: <path> <error>`), whatever the status code. -/
theorem plain_check_passes_iff (env : Env) (cfg : Config) (t : Trace) (e : Endpoint)
    (f : Trace → Run (Option String)) (sc : Int) (body : Body)
    (hp : (e, f) ∈ checkTable env cfg) (hnone : e.predicate = .none)
    (hr : probe env cfg e.path = .response sc body) :
    ((checkTable env cfg).filter (fun p => p.1.predicate = .none)).map Prod.snd =
      [knownHeadsOfChain env cfg, headBlockDetails env cfg, chainIdentifier env cfg,
       rpcDocs env cfg, listP2PConnections env cfg, listPeers env cfg,
       listPoolConnectionPoints env cfg, selfPeerID env cfg, supportedNetworkVersion env cfg,
       listProtocols env cfg, garbageCollectorStats env cfg, memoryUsageStats env cfg,
       listChainValidators env cfg, listValidatorWorkers env cfg] ∧
    ∃ t' o, f t = (t', .ok o) ∧
      (o = none ↔ decodedErr e.shape body = none ∧ sc = 200 ∧
        isEmptyData (decodedData e.shape body) = false) ∧
      (∀ msg, decodedErr e.shape body = some msg →
        o = some ("FAILED: " ++ e.path ++ " " ++ msg)) := by
  refine ⟨rfl, ?_⟩
  have hf : f = runCheck env cfg e := checkTable_runCheck env cfg (e, f) hp
  rw [hf]
  simp only [runCheck_response env cfg e t sc body hr, evaluate, hnone, inspect, Option.isSome_none,
    branchOf]
  cases herr : decodedErr e.shape body with
  | some msg =>
    simp only [Option.isSome_some, if_true, failWith]
    refine ⟨_, _, rfl, by simp, fun m hm => ?_⟩
    rw [Option.some.inj hm]
    rfl
  | none =>
    simp only [Option.isSome_none, Bool.false_eq_true, if_false, failWith, passWith]
    split_ifs with h1 h2
    · refine ⟨_, _, rfl, ?_, by simp⟩
      simp only [false_iff, true_and, not_and, Bool.not_eq_false, reduceCtorEq]
      intro hsc
      rcases h1 with h1 | h1
      · exact absurd hsc h1
      · exact h1
    · refine ⟨_, _, rfl, ?_, by simp⟩
      simp only [true_iff, true_and]
      constructor
      · exact h2
      · cases hb : isEmptyData (decodedData e.shape body) with
        | false => rfl
        | true => exact absurd (Or.inr hb) h1
    · exact absurd (by_contra fun h => h1 (Or.inl h)) h2

/-- Witness of C15: the chain identifier of the healthy node passes, and an empty body answered
with status 502 fails with the reason of the decoder's error. -/
theorem plain_check_passes_iff_witness :
    (∃ t', chainIdentifier (envOf (nodeOf exampleCfg healthyAnswers)) exampleCfg Trace.start =
      (t', .ok none)) ∧
    ∃ t', chainIdentifier (envOf (nodeOf exampleCfg (healthyExcept "/chains/main/chain_id"
        (.response 502 (.invalid "EOF"))))) exampleCfg Trace.start =
      (t', .ok (some "FAILED: /chains/main/chain_id EOF")) := by
  obtain ⟨t1, o1, h1, hiff1, -⟩ := (plain_check_passes_iff
    (envOf (nodeOf exampleCfg healthyAnswers)) exampleCfg Trace.start
    ⟨"/chains/main/chain_id", .string, .none⟩
    (chainIdentifier (envOf (nodeOf exampleCfg healthyAnswers)) exampleCfg) 200
    (.value (.str "NetXdQprcVkpaWU")) (by simp [checkTable, endpoints, tests, exampleCfg]) rfl
    rfl).2
  obtain ⟨t2, o2, h2, -, herr2⟩ := (plain_check_passes_iff
    (envOf (nodeOf exampleCfg (healthyExcept "/chains/main/chain_id"
      (.response 502 (.invalid "EOF"))))) exampleCfg Trace.start
    ⟨"/chains/main/chain_id", .string, .none⟩
    (chainIdentifier (envOf (nodeOf exampleCfg (healthyExcept "/chains/main/chain_id"
      (.response 502 (.invalid "EOF"))))) exampleCfg) 502
    (.invalid "EOF") (by simp [checkTable, endpoints, tests, exampleCfg]) rfl rfl).2
  exact ⟨⟨t1, by rw [h1, hiff1.mpr ⟨rfl, rfl, rfl⟩]⟩, ⟨t2, by rw [h2, herr2 "EOF" rfl]; rfl⟩⟩

/-- C16, evaluated where code and claim part: the block validator answers status 200 with phase
`stuck`, and the DDB answers status 200 with `active_chains = 0`.  Both checks fail on their
endpoint-specific predicate; the reason strings contain the endpoint path but not the status
code `200`, which the format strings of lines 424 and 507 leave out (the sibling branches of
lines 149 and 299 print it). -/
theorem phase_and_ddb_reasons_lack_status_code :
    (blockValidatorWorkerState (envOf (nodeOf exampleCfg (healthyExcept
        "/workers/block_validator" (.response 200 (.value (workerPayload "stuck"))))))
      exampleCfg Trace.start).2 =
      .ok (some "FAILED: /workers/block_validator phase: \x27stuck\x27 but expected \x27running\x27") ∧
    occursIn "/workers/block_validator"
      "FAILED: /workers/block_validator phase: \x27stuck\x27 but expected \x27running\x27" = true ∧
    occursIn "200"
      "FAILED: /workers/block_validator phase: \x27stuck\x27 but expected \x27running\x27" = false ∧
    (workerDDBState (envOf (nodeOf exampleCfg (healthyExcept
        "/workers/chain_validators/main/ddb"
        (.response 200 (.value (.obj [("active_chains", .num 0),
          ("active_connections", .num 8)]))))))
      exampleCfg Trace.start).2 =
      .ok (some "FAILED: /workers/chain_validators/main/ddb active_chains: 0 active_connections: 8") ∧
    occursIn "/workers/chain_validators/main/ddb"
      "FAILED: /workers/chain_validators/main/ddb active_chains: 0 active_connections: 8" = true ∧
    occursIn "200"
      "FAILED: /workers/chain_validators/main/ddb active_chains: 0 active_connections: 8" = false :=
  ⟨rfl, by decide, by decide, rfl, by decide, by decide⟩

/-- C17, as stated, fails: a run does not always invoke 21 checks.  Against a node that cannot be
reached the first check ends the process and `runAllTests` has invoked one check; against a node
whose tenth endpoint `/network/stat` suffers a transport failure it has invoked ten. -/
theorem transport_failure_cuts_run_short :
    (runAllTests (envOf unreachable) exampleCfg Trace.start).1.requests =
      ["http://node.example/chains/main/blocks"] ∧
    (runAllTests (envOf unreachable) exampleCfg Trace.start).2 = .error .fatal ∧
    (runAllTests (envOf (nodeOf exampleCfg (healthyExcept "/network/stat"
        (.transportError "timeout")))) exampleCfg Trace.start).1.requests =
      ["http://node.example/chains/main/blocks", "http://node.example/chains/main/blocks/head",
       "http://node.example/chains/main/chain_id", "http://node.example/chains/main/checkpoint",
       "http://node.example/describe?recurse=true", "http://node.example/network/connections",
       "http://node.example/network/peers", "http://node.example/network/points",
       "http://node.example/network/self", "http://node.example/network/stat"] ∧
    (runAllTests (envOf (nodeOf exampleCfg (healthyExcept "/network/stat"
        (.transportError "timeout")))) exampleCfg Trace.start).2 = .error .fatal ∧
    ¬ (runAllTests (envOf unreachable) exampleCfg Trace.start).1.requests.length = 21 :=
  ⟨rfl, rfl, rfl, rfl, by decide⟩

/-- C17 (amended): `runAllTests` hands exactly 21 checks to the runner, in the order of the
endpoint table, and the i-th check is the one that requests the i-th path of the table with the
configured chain identifier in it (whatever the probe answers, the check makes that one request).
In every run the URLs requested are an initial segment of the 21 URLs of the table in table order,
so no check is invoked twice or out of order; when the run returns, and in particular when no
probe suffers a transport failure and every predicate-bearing endpoint answers with its inspected
fields present, the requests are exactly the 21 URLs, each once.  The 21 paths are pairwise
distinct. -/
theorem runAllTests_requests_in_table_order (env : Env) (cfg : Config) (t : Trace) :
    (tests env cfg).length = 21 ∧
    (endpoints cfg.sysChain).map (fun e => e.path) =
      ["/chains/" ++ cfg.sysChain ++ "/blocks", "/chains/" ++ cfg.sysChain ++ "/blocks/head",
       "/chains/" ++ cfg.sysChain ++ "/chain_id", "/chains/" ++ cfg.sysChain ++ "/checkpoint",
       "/describe?recurse=true", "/network/connections", "/network/peers", "/network/points",
       "/network/self", "/network/stat", "/network/version", "/protocols", "/stats/gc",
       "/stats/memory", "/workers/block_validator", "/workers/chain_validators",
       "/workers/chain_validators/" ++ cfg.sysChain,
       "/workers/chain_validators/" ++ cfg.sysChain ++ "/ddb",
       "/workers/chain_validators/" ++ cfg.sysChain ++ "/peers_validators",
       "/workers/prevalidators", "/workers/prevalidators/" ++ cfg.sysChain] ∧
    (checkTable env cfg).map Prod.snd = tests env cfg ∧
    (checkTable env cfg).map Prod.fst = endpoints cfg.sysChain ∧
    (∀ p ∈ checkTable env cfg, ∀ t0 : Trace,
      (p.2 t0).1.requests = t0.requests ++ [getURL cfg p.1.path]) ∧
    (∃ j, j ≤ 21 ∧ (runAllTests env cfg t).1.requests =
      t.requests ++ ((endpoints cfg.sysChain).map (fun e => getURL cfg e.path)).take j) ∧
    (∀ t' verdict, runAllTests env cfg t = (t', .ok verdict) →
      t'.requests = t.requests ++ (endpoints cfg.sysChain).map (fun e => getURL cfg e.path)) ∧
    ((∀ e ∈ endpoints cfg.sysChain, e.wellShaped (probe env cfg e.path) = true) →
      (runAllTests env cfg t).1.requests =
        t.requests ++ (endpoints cfg.sysChain).map (fun e => getURL cfg e.path)) ∧
    ((endpoints cfg.sysChain).map (fun e => e.path)).Nodup := by
  have hret : ∀ t' verdict, runAllTests env cfg t = (t', .ok verdict) →
      t'.requests = t.requests ++ (endpoints cfg.sysChain).map (fun e => getURL cfg e.path) := by
    intro t' v h
    unfold runAllTests at h
    cases hrun : runChecks env cfg t with
    | mk t1 r1 =>
      rw [hrun] at h
      cases r1 with
      | error a => simp at h
      | ok runner =>
        simp only [Prod.mk.injEq] at h
        rw [runChecks_eq] at hrun
        rw [← h.1]
        exact testAll_requests_returned env cfg _ ⟨0, 0⟩ runner t t1 hrun
  refine ⟨rfl, rfl, rfl, rfl, ?_, ?_, hret, ?_, endpoints_paths_nodup _⟩
  · intro p hp t0
    rw [checkTable_runCheck env cfg p hp]
    exact runCheck_requests env cfg p.1 t0
  · obtain ⟨j, hj, h⟩ := testAll_requests_prefix env cfg (endpoints cfg.sysChain) ⟨0, 0⟩ t
    refine ⟨j, by simpa [endpoints_length] using hj, ?_⟩
    rw [runAllTests_trace, runChecks_eq]
    exact h
  · intro hall
    obtain ⟨t', runner, hrun⟩ :=
      testAll_returns (tests env cfg) (tests_return env cfg hall) ⟨0, 0⟩ t
    have hrun' : runChecks env cfg t = (t', .ok runner) := hrun
    have hall' : runAllTests env cfg t = (t', .ok (verdict runner)) := by
      simp only [runAllTests, hrun']
    rw [hall']
    exact hret t' _ hall'

/-- Witness of C17 (amended): the 21 requests of a run against the healthy node. -/
theorem runAllTests_requests_in_table_order_witness :
    (runAllTests (envOf (nodeOf exampleCfg healthyAnswers)) exampleCfg Trace.start).1.requests =
      ["http://node.example/chains/main/blocks", "http://node.example/chains/main/blocks/head",
       "http://node.example/chains/main/chain_id", "http://node.example/chains/main/checkpoint",
       "http://node.example/describe?recurse=true", "http://node.example/network/connections",
       "http://node.example/network/peers", "http://node.example/network/points",
       "http://node.example/network/self", "http://node.example/network/stat",
       "http://node.example/network/version", "http://node.example/protocols",
       "http://node.example/stats/gc", "http://node.example/stats/memory",
       "http://node.example/workers/block_validator",
       "http://node.example/workers/chain_validators",
       "http://node.example/workers/chain_validators/main",
       "http://node.example/workers/chain_validators/main/ddb",
       "http://node.example/workers/chain_validators/main/peers_validators",
       "http://node.example/workers/prevalidators",
       "http://node.example/workers/prevalidators/main"] :=
  ((runAllTests_requests_in_table_order (envOf (nodeOf exampleCfg healthyAnswers)) exampleCfg
    Trace.start).2.2.2.2.2.2.2.1 (by decide)).trans rfl

/-- C18: if the probe of the k-th check suffers a transport-level failure (`http.Get` returns an
error), that check records no outcome: it logs the error and ends the process.  The run then
yields no verdict and requests nothing beyond the k-th URL; when the k-1 earlier checks returned
(their probes were answered with the inspected fields present) the run ends exactly there, with
k requests made, k-1 outcome lines logged before the error, and exit status 1. -/
theorem transport_failure_ends_run (env : Env) (prog : String) (args : List String) (t : Trace)
    (pre post : List Endpoint) (e : Endpoint) (err : String) (hargs : 2 ≤ args.length)
    (hsplit : endpoints (configOf args).sysChain = pre ++ e :: post)
    (hfail : probe env (configOf args) e.path = .transportError err) :
    (∀ p ∈ checkTable env (configOf args), p.1 = e → ∀ t0 : Trace,
      p.2 t0 = ((t0.request (getURL (configOf args) e.path)).print err, .error .fatal)) ∧
    (∃ t' a j, runAllTests env (configOf args) t = (t', .error a) ∧ j ≤ pre.length + 1 ∧
      t'.requests = t.requests ++
        ((endpoints (configOf args).sysChain).map
          (fun e => getURL (configOf args) e.path)).take j) ∧
    ((main env prog args t).2 = 1 ∨ (main env prog args t).2 = 2) ∧
    ((∀ e' ∈ pre, e'.wellShaped (probe env (configOf args) e'.path) = true) →
      ∃ t', runAllTests env (configOf args) t = (t', .error .fatal) ∧
        t'.requests = t.requests ++
          (pre ++ [e]).map (fun e => getURL (configOf args) e.path) ∧
        t'.log.length = t.log.length + pre.length + 1 ∧
        t'.log.getLast? = some err ∧
        (main env prog args t).2 = 1) := by
  have hnot : ¬ args.length + 1 < 3 := by omega
  have habort : ∀ t0, runCheck env (configOf args) e t0 =
      ((t0.request (getURL (configOf args) e.path)).print err, .error .fatal) :=
    fun t0 => runCheck_transportError env (configOf args) e t0 err hfail
  have hgen := testAll_aborts env (configOf args) e post
    (fun t0 => ⟨_, _, habort t0⟩) pre ⟨0, 0⟩ t
  rw [← hsplit, ← runChecks_eq] at hgen
  obtain ⟨t', a, j, hrun, hj, hreq⟩ := hgen
  refine ⟨?_, ⟨t', a, j, by simp only [runAllTests, hrun], hj, hreq⟩, ?_, ?_⟩
  · intro p hp hpe t0
    rw [checkTable_runCheck env (configOf args) p hp, hpe]
    exact habort t0
  · simp only [main, hnot, if_false, runAllTests, hrun]
    cases a with
    | fatal => exact Or.inl rfl
    | panic => exact Or.inr rfl
  · intro hpre
    have hin : ∀ e' ∈ pre, e' ∈ endpoints (configOf args).sysChain := by
      intro e' he'
      rw [hsplit]
      exact List.mem_append_left _ he'
    obtain ⟨t1, runner1, h1, hreq1, hlog1⟩ := testAll_returned_trace env (configOf args) pre
      (fun e' he' => runCheck_returns env (configOf args) e' (hin e' he') (hpre e' he'))
      ⟨0, 0⟩ t
    have hrun2 : runChecks env (configOf args) t =
        ((t1.request (getURL (configOf args) e.path)).print err, .error .fatal) := by
      rw [runChecks_eq, hsplit, List.map_append, testAll_append, h1]
      simp only [List.map_cons, testRunner.testAll, test_of_aborted (habort t1)]
    refine ⟨(t1.request (getURL (configOf args) e.path)).print err,
      by simp only [runAllTests, hrun2], ?_, ?_, ?_, ?_⟩
    · simp [Trace.request, Trace.print, hreq1]
    · simp [Trace.request, Trace.print, hlog1]
    · simp [Trace.request, Trace.print]
    · simp only [main, hnot, if_false, runAllTests, hrun2]

/-- Witness of C18: the third probe (`/chains/main/chain_id`) times out after two healthy
answers; the run ends there with exit status 1. -/
theorem transport_failure_ends_run_witness :
    ∃ t', runAllTests (envOf (nodeOf exampleCfg (healthyExcept "/chains/main/chain_id"
        (.transportError "timeout")))) (configOf ["http://node.example", "main"]) Trace.start =
        (t', .error .fatal) ∧
      t'.requests = Trace.start.requests ++
        ["http://node.example/chains/main/blocks", "http://node.example/chains/main/blocks/head",
         "http://node.example/chains/main/chain_id"] ∧
      t'.log.length = Trace.start.log.length + 2 + 1 ∧
      t'.log.getLast? = some "timeout" ∧
      (main (envOf (nodeOf exampleCfg (healthyExcept "/chains/main/chain_id"
        (.transportError "timeout")))) "tezos-tests" ["http://node.example", "main"]
        Trace.start).2 = 1 :=
  (transport_failure_ends_run
    (envOf (nodeOf exampleCfg (healthyExcept "/chains/main/chain_id"
      (.transportError "timeout")))) "tezos-tests" ["http://node.example", "main"] Trace.start
    [⟨"/chains/main/blocks", .array, .none⟩, ⟨"/chains/main/blocks/head", .object, .none⟩]
    ((endpoints "main").drop 3) ⟨"/chains/main/chain_id", .string, .none⟩ "timeout"
    (by decide) rfl rfl).2.2.2 (by decide)

/-- C19: for every argument vector with fewer than 2 positional arguments (`len(os.Args) < 3`),
`main` prints the usage line and exits with status 1 without running any check (no request, no
log line); with 2 positional arguments the auth token is empty, with 3 or more it is the third
positional argument, and the checks are run under that configuration. -/
theorem main_usage_and_token (env : Env) (prog : String) (args : List String) (t : Trace) :
    (args.length < 2 →
      main env prog args t =
        (t.out ("USAGE: " ++ prog ++ " <base-url> <sys-chain> [auth-token]\n"), 1) ∧
      (main env prog args t).1.requests = t.requests ∧
      (main env prog args t).1.log = t.log) ∧
    (∀ base chain : String, configOf [base, chain] = ⟨base, chain, ""⟩) ∧
    (∀ (base chain token : String) (more : List String),
      configOf (base :: chain :: token :: more) = ⟨base, chain, token⟩) ∧
    (2 ≤ args.length →
      (main env prog args t).1.requests = (runAllTests env (configOf args) t).1.requests ∧
      (main env prog args t).1.log = (runAllTests env (configOf args) t).1.log) := by
  refine ⟨fun h => ?_, fun base chain => rfl, fun base chain token more => ?_, fun h => ?_⟩
  · have hlt : args.length + 1 < 3 := by omega
    simp only [main, hlt, if_true, Trace.out, and_self]
  · simp [configOf]
  · have hnot : ¬ args.length + 1 < 3 := by omega
    simp only [main, hnot, if_false]
    cases hrun : runAllTests env (configOf args) t with
    | mk t1 r1 =>
      cases r1 with
      | error a => cases a <;> exact ⟨rfl, rfl⟩
      | ok o => cases o <;> exact ⟨rfl, rfl⟩

/-- Witness of C19: with the base URL alone `main` exits with status 1 and requests nothing; with
a third positional argument the first request carries it as the token. -/
theorem main_usage_and_token_witness :
    main (envOf (nodeOf exampleCfg healthyAnswers)) "tezos-tests" ["http://node.example"]
      Trace.start =
      (⟨[], [], ["USAGE: tezos-tests <base-url> <sys-chain> [auth-token]\n"], []⟩, 1) ∧
    (main (envOf unreachable) "tezos-tests" ["http://node.example", "main", "tok123"]
      Trace.start).1.requests = ["http://node.example/chains/main/blocks?auth=tok123"] :=
  ⟨((main_usage_and_token (envOf (nodeOf exampleCfg healthyAnswers)) "tezos-tests"
      ["http://node.example"] Trace.start).1 (by decide)).1.trans rfl,
   ((main_usage_and_token (envOf unreachable) "tezos-tests"
      ["http://node.example", "main", "tok123"] Trace.start).2.2.2 (by decide)).1.trans rfl⟩

/-- C20: in every one of the 21 checks the final `else` branch that reports `unknown failure` is
unreachable.  Each check is the common pattern `runCheck` at its row of the endpoint table, whose
chain of tests is `branchOf`; for every error, status code, payload and outcome of the
endpoint-specific test, `branchOf` takes one of the four earlier branches, never the final one.
In particular a check whose probe returned no error, status 200 and non-empty data, and whose
endpoint-specific test does not fail, passes. -/
theorem unknown_failure_unreachable (env : Env) (cfg : Config) (t : Trace) :
    (∀ p ∈ checkTable env cfg, p.2 t = runCheck env cfg p.1 t) ∧
    (∀ (errPresent : Bool) (statusCode : Int) (empty predicateFails : Bool),
      branchOf errPresent statusCode empty predicateFails ≠ .unknown) ∧
    (∀ p ∈ checkTable env cfg, ∀ (sc : Int) (body : Body),
      probe env cfg p.1.path = .response sc body →
      inspect env p.1.path sc p.1.predicate (decodedData p.1.shape body) = .ok none →
      decodedErr p.1.shape body = none → sc = 200 →
      isEmptyData (decodedData p.1.shape body) = false →
      p.2 t = passWith (t.request (getURL cfg p.1.path))
        ("PASSED: " ++ p.1.path ++ " " ++ toString sc)) := by
  refine ⟨fun p hp => by rw [checkTable_runCheck env cfg p hp], branchOf_ne_unknown, ?_⟩
  intro p hp sc body hr hins herr hsc hne
  rw [checkTable_runCheck env cfg p hp, runCheck_response env cfg p.1 t sc body hr]
  subst hsc
  simp only [evaluate, hins, herr, hne, branchOf, Option.isSome_none, Bool.false_eq_true,
    if_false, ne_eq, not_true_eq_false, or_self, if_true]

/-- Witness of C20: the first check against the healthy node is answered without error, with
status 200 and non-empty data, and passes. -/
theorem unknown_failure_unreachable_witness :
    knownHeadsOfChain (envOf (nodeOf exampleCfg healthyAnswers)) exampleCfg Trace.start =
      passWith (Trace.start.request "http://node.example/chains/main/blocks")
        "PASSED: /chains/main/blocks 200" :=
  ((unknown_failure_unreachable (envOf (nodeOf exampleCfg healthyAnswers)) exampleCfg
    Trace.start).2.2
    (⟨"/chains/main/blocks", .array, .none⟩,
      knownHeadsOfChain (envOf (nodeOf exampleCfg healthyAnswers)) exampleCfg)
    (by simp [checkTable, endpoints, tests, exampleCfg]) 200 (.value (.arr [.str "item"]))
    rfl rfl rfl rfl rfl).trans rfl

/-! ## Claim C21: the first prevalidator decides -/

theorem fmtS_of_sprint (env₁ env₂ : Env) (h : env₁.sprint = env₂.sprint) (v : Value) :
    fmtS env₁ v = fmtS env₂ v := by
  cases v <;> simp [fmtS, h]

/-- The check `listPrevalidators` on a non-empty list answered with status 200 and no error,
written out: only the head `p` of the list is read. -/
theorem listPrevalidators_first (env : Env) (cfg : Config) (t : Trace) (p : Value)
    (rest : List Value)
    (hr : probe env cfg "/workers/prevalidators" = .response 200 ⟨.arr (p :: rest), none⟩) :
    listPrevalidators env cfg t =
      match assertMap p with
      | .error a => (t.request (getURL cfg "/workers/prevalidators"), .error a)
      | .ok prevalidator =>
        match assertMap (index prevalidator "status") with
        | .error a => (t.request (getURL cfg "/workers/prevalidators"), .error a)
        | .ok prevalidatorStatus =>
          if neRunning (index prevalidatorStatus "phase") then
            failWith (t.request (getURL cfg "/workers/prevalidators"))
              ("FAILED: /workers/prevalidators phase: \x27" ++
                fmtS env (index prevalidatorStatus "phase") ++ "\x27 but expected \x27running\x27")
          else
            passWith (t.request (getURL cfg "/workers/prevalidators"))
              "PASSED: /workers/prevalidators 200" := by
  simp only [listPrevalidators, tezosGetSlice, show env.httpGet _ = _ from hr, decodeSlice, first]
  cases assertMap p with
  | error a => rfl
  | ok prevalidator =>
    cases assertMap (index prevalidator "status") with
    | error a => rfl
    | ok status =>
      simp only [Option.isSome_none, Bool.false_eq_true, if_false]
      split_ifs <;> simp_all
      rfl

/-- The check passes on such a list exactly when the head carries the phase `running`. -/
theorem listPrevalidators_first_passes (env : Env) (cfg : Config) (t : Trace) (p : Value)
    (rest : List Value)
    (hr : probe env cfg "/workers/prevalidators" = .response 200 ⟨.arr (p :: rest), none⟩) :
    (listPrevalidators env cfg t).2 = .ok none ↔
      (p.field "status").field "phase" = .str "running" := by
  rw [listPrevalidators_first env cfg t p rest hr, ← isRunning_iff]
  cases p with
  | obj prevalidator =>
    cases hs : index prevalidator "status" with
    | obj status =>
      simp only [assertMap, hs, Value.field, neRunning_eq]
      cases hp : (index status "phase").isRunning <;> simp [failWith, passWith]
    | _ => simp [assertMap, hs, Value.field, Value.isRunning]
  | _ => simp [assertMap, Value.field, Value.isRunning]

/-- C21: on a non-empty prevalidators list returned with status 200 and no error, the result of
`listPrevalidators` depends only on the first element.  Two nodes that answer with lists having
the same first element `p` and any remaining elements `rest₁`, `rest₂` (whatever their phases),
and that render values with the same `%s`, give the same result, log line included, and the check
passes exactly when the `status.phase` of `p` is the string `running`. -/
theorem listPrevalidators_depends_on_first_only (env₁ env₂ : Env) (cfg : Config) (t : Trace)
    (p : Value) (rest₁ rest₂ : List Value)
    (hs : env₁.sprint = env₂.sprint)
    (h₁ : probe env₁ cfg "/workers/prevalidators" = .response 200 ⟨.arr (p :: rest₁), none⟩)
    (h₂ : probe env₂ cfg "/workers/prevalidators" = .response 200 ⟨.arr (p :: rest₂), none⟩) :
    listPrevalidators env₁ cfg t = listPrevalidators env₂ cfg t ∧
    ((listPrevalidators env₁ cfg t).2 = .ok none ↔
      (p.field "status").field "phase" = .str "running") := by
  refine ⟨?_, listPrevalidators_first_passes env₁ cfg t p rest₁ h₁⟩
  rw [listPrevalidators_first env₁ cfg t p rest₁ h₁, listPrevalidators_first env₂ cfg t p rest₂ h₂]
  simp only [fmtS_of_sprint env₁ env₂ hs]

/-- Witness of C21: a list whose first prevalidator is running passes with or without a stuck
prevalidator behind it, and a list whose first prevalidator is stuck fails with or without a
running one behind it. -/
theorem listPrevalidators_depends_on_first_only_witness :
    (listPrevalidators (prevalidatorsNode [workerPayload "running"]) exampleCfg Trace.start =
      listPrevalidators (prevalidatorsNode [workerPayload "running", workerPayload "stuck"])
        exampleCfg Trace.start ∧
     (listPrevalidators (prevalidatorsNode [workerPayload "running", workerPayload "stuck"])
        exampleCfg Trace.start).2 = .ok none) ∧
    (listPrevalidators (prevalidatorsNode [workerPayload "stuck"]) exampleCfg Trace.start =
      listPrevalidators (prevalidatorsNode [workerPayload "stuck", workerPayload "running"])
        exampleCfg Trace.start ∧
     (listPrevalidators (prevalidatorsNode [workerPayload "stuck", workerPayload "running"])
        exampleCfg Trace.start).2 ≠ .ok none) :=
  ⟨⟨(listPrevalidators_depends_on_first_only (prevalidatorsNode [workerPayload "running"])
      (prevalidatorsNode [workerPayload "running", workerPayload "stuck"]) exampleCfg Trace.start
      (workerPayload "running") [] [workerPayload "stuck"] rfl rfl rfl).1,
    (listPrevalidators_depends_on_first_only
      (prevalidatorsNode [workerPayload "running", workerPayload "stuck"])
      (prevalidatorsNode [workerPayload "running"]) exampleCfg Trace.start
      (workerPayload "running") [workerPayload "stuck"] [] rfl rfl rfl).2.mpr rfl⟩,
   ⟨(listPrevalidators_depends_on_first_only (prevalidatorsNode [workerPayload "stuck"])
      (prevalidatorsNode [workerPayload "stuck", workerPayload "running"]) exampleCfg Trace.start
      (workerPayload "stuck") [] [workerPayload "running"] rfl rfl rfl).1,
    fun h => absurd ((listPrevalidators_depends_on_first_only
      (prevalidatorsNode [workerPayload "stuck", workerPayload "running"])
      (prevalidatorsNode [workerPayload "stuck"]) exampleCfg Trace.start
      (workerPayload "stuck") [workerPayload "running"] [] rfl rfl rfl).2.mp h)
      (by simp [workerPayload, Value.field, index, List.lookup])⟩⟩

end TezosTests
